import Mathlib

/-!
QCameraPostProcessor: a shallow embedding of `QCamera2/HAL/QCameraPostProc.cpp`.

The post processor is embedded as explicit state passing.  Every member
function becomes a function from the object state (and the results of the
calls it makes into its collaborators) to the new object state, its return
value and the list of calls it made, in program order.

* Pointers that the source tests against `NULL` are `Option`s; a frame handed
  to an entry point (`processData`, `processRawData`, `processPPData`) and the
  items of a queue are not `NULL`.
* A call into the HAL object (`m_parent`), the jpeg interface (`mJpegHandle`),
  a channel or the allocator is recorded as an `Event`; what such a call
  returns is read from `Env`, one value per call site.  A run of several
  actions gives each action its own `Env`.
* The two worker loops are embedded one command at a time
  (`dataProcessRoutine`, `dataSaveRoutine`); each command is handled to its
  end before anything else happens.
* `encodeData` dereferences `jpeg_job_data->src_frame` without a test; the
  embedding returns `none` there.  `run_returns` shows that no run of the
  entry points and loops gets there.
* `QCameraQueue` is defined outside `QCameraPostProc.cpp`; its operations are
  the ones of the namespace `QCameraQueue` below.
-/

namespace qcamera

/-! ## Constants of the platform headers -/

/-- Status `NO_ERROR` of `utils/Errors.h`. -/
def NO_ERROR : Int := 0
/-- Status `UNKNOWN_ERROR` of `utils/Errors.h` (`INT32_MIN`). -/
def UNKNOWN_ERROR : Int := -2147483648
/-- Status `NO_MEMORY` of `utils/Errors.h` (`-ENOMEM`). -/
def NO_MEMORY : Int := -12
/-- Status `BAD_VALUE` of `utils/Errors.h` (`-EINVAL`). -/
def BAD_VALUE : Int := -22
/-- Status `FAILED_TRANSACTION` of `utils/Errors.h` (`UNKNOWN_ERROR + 2`). -/
def FAILED_TRANSACTION : Int := -2147483646

/-- Message types of `camera.h` that the post processor sends. -/
inductive camera_msg_t where
  | CAMERA_MSG_ERROR
  | CAMERA_MSG_RAW_IMAGE
  | CAMERA_MSG_COMPRESSED_IMAGE
  | CAMERA_MSG_RAW_IMAGE_NOTIFY
deriving DecidableEq, Repr

/-- Stream types of `cam_types.h`. -/
inductive cam_stream_type_t where
  | CAM_STREAM_TYPE_DEFAULT
  | CAM_STREAM_TYPE_PREVIEW
  | CAM_STREAM_TYPE_POSTVIEW
  | CAM_STREAM_TYPE_SNAPSHOT
  | CAM_STREAM_TYPE_VIDEO
  | CAM_STREAM_TYPE_RAW
  | CAM_STREAM_TYPE_METADATA
  | CAM_STREAM_TYPE_OFFLINE_PROC
deriving DecidableEq, Repr

/-- Image formats of `cam_types.h`; the formats the source does not name are `other`. -/
inductive cam_format_t where
  | CAM_FORMAT_YUV_420_NV12
  | CAM_FORMAT_YUV_420_NV21
  | CAM_FORMAT_YUV_420_NV21_ADRENO
  | CAM_FORMAT_YUV_420_YV12
  | CAM_FORMAT_YUV_422_NV16
  | CAM_FORMAT_YUV_422_NV61
  | other (n : Nat)
deriving DecidableEq, Repr

/-- Colour formats of `mm_jpeg_interface.h` returned by `getColorfmtFromImgFmt`. -/
inductive mm_jpeg_color_format where
  | MM_JPEG_COLOR_FORMAT_YCRCBLP_H2V2
  | MM_JPEG_COLOR_FORMAT_YCBCRLP_H2V2
  | MM_JPEG_COLOR_FORMAT_YCRCBLP_H2V1
  | MM_JPEG_COLOR_FORMAT_YCBCRLP_H2V1
deriving DecidableEq, Repr

/-- Status of a jpeg completion event. -/
inductive jpeg_job_status_t where
  | JPEG_JOB_STATUS_DONE
  | JPEG_JOB_STATUS_ERROR
deriving DecidableEq, Repr

/-- Commands of a `QCameraCmdThread`. -/
inductive camera_cmd_type_t where
  | CAMERA_CMD_TYPE_NONE
  | CAMERA_CMD_TYPE_START_DATA_PROC
  | CAMERA_CMD_TYPE_STOP_DATA_PROC
  | CAMERA_CMD_TYPE_DO_NEXT_JOB
  | CAMERA_CMD_TYPE_EXIT
deriving DecidableEq, Repr

/-- Kind of frame dump asked of `dumpFrameToFile`. -/
inductive dump_type_t where
  | QCAMERA_DUMP_FRM_SNAPSHOT
  | QCAMERA_DUMP_FRM_THUMBNAIL
  | QCAMERA_DUMP_FRM_RAW
deriving DecidableEq, Repr

/-- Callback kinds of `qcamera_callback_argm_t`. -/
inductive qcamera_callback_type_m where
  | QCAMERA_NOTIFY_CALLBACK
  | QCAMERA_DATA_CALLBACK
  | QCAMERA_DATA_SNAPSHOT_CALLBACK
deriving DecidableEq, Repr

/-- The two command threads of the post processor. -/
inductive CmdThread where
  | m_dataProcTh
  | m_saveProcTh
deriving DecidableEq, Repr

/-! ## Data model -/

structure cam_dimension_t where
  width : Int
  height : Int
deriving DecidableEq, Repr

structure cam_rect_t where
  left : Int
  top : Int
  width : Int
  height : Int
deriving DecidableEq, Repr

/-- The part of `cam_frame_len_offset_t` the source reads:
`frame_len`, `mp[0].len` and `mp[0].offset`. -/
structure cam_frame_len_offset_t where
  frame_len : Nat
  mp0_len : Nat
  mp0_offset : Nat
deriving DecidableEq, Repr

/-- A `camera_memory_t`: `data` is the byte contents, `size` its size field. -/
structure camera_memory_t where
  data : List Nat
  size : Nat
deriving DecidableEq, Repr

/-- A `QCameraMemory` object as the source reads it: `getCnt()` is the length of
`bufs`, `getMemory(i, false)` is entry `i` (a `NULL` pointer is `none`),
`getFd(i)` is entry `i` of `fds`. -/
structure QCameraMemory where
  bufs : List (Option camera_memory_t)
  fds : List Int
deriving DecidableEq, Repr

def QCameraMemory.getCnt (m : QCameraMemory) : Nat := m.bufs.length

def QCameraMemory.getMemory (m : QCameraMemory) (index : Nat) : Option camera_memory_t :=
  (m.bufs.get? index).join

def QCameraMemory.getFd (m : QCameraMemory) (index : Nat) : Int :=
  (m.fds.get? index).getD 0

/-- A `mm_camera_buf_def_t`: one plane buffer of a super buffer. -/
structure mm_camera_buf_def_t where
  stream_id : Nat
  stream_type : cam_stream_type_t
  buf_idx : Nat
  mem_info : Option QCameraMemory
  buffer : Nat
deriving DecidableEq, Repr

/-- A `mm_camera_super_buf_t`; `num_bufs` is the length of `bufs`. -/
structure mm_camera_super_buf_t where
  camera_handle : Nat
  ch_id : Nat
  bufs : List mm_camera_buf_def_t
deriving DecidableEq, Repr

/-- A `QCameraStream` as the source reads it.  `isTypeOf(t)` holds when `t` is
`stream_type`; `isOrignalTypeOf(t)` holds when `t` is `orig_type`. -/
structure QCameraStream where
  handle : Nat
  stream_type : cam_stream_type_t
  orig_type : Option cam_stream_type_t
  crop : cam_rect_t
  dim : cam_dimension_t
  offset : cam_frame_len_offset_t
  format : cam_format_t
  streamBufs : Option QCameraMemory
deriving DecidableEq, Repr

def QCameraStream.isTypeOf (s : QCameraStream) (t : cam_stream_type_t) : Bool :=
  s.stream_type == t

def QCameraStream.isOrignalTypeOf (s : QCameraStream) (t : cam_stream_type_t) : Bool :=
  s.orig_type == some t

/-- A `QCameraChannel` (also a `QCameraReprocessChannel`) as the source reads it. -/
structure QCameraChannel where
  handle : Nat
  streams : List QCameraStream
deriving DecidableEq, Repr

def QCameraChannel.getMyHandle (c : QCameraChannel) : Nat := c.handle

def QCameraChannel.getStreamByHandle (c : QCameraChannel) (streamHandle : Nat) :
    Option QCameraStream :=
  c.streams.find? (fun s => s.handle == streamHandle)

/-- A `qcamera_jpeg_data_t`.  `pJpegExifObj` is the address of the exif object the
job owns, `none` for `NULL`. -/
structure qcamera_jpeg_data_t where
  jobId : Nat
  src_frame : Option mm_camera_super_buf_t
  src_reproc_frame : Option mm_camera_super_buf_t
  pJpegExifObj : Option Nat
deriving DecidableEq, Repr

/-- A `qcamera_pp_data_t`. -/
structure qcamera_pp_data_t where
  src_frame : Option mm_camera_super_buf_t
deriving DecidableEq, Repr

/-- The `out_data` of a jpeg event: the bytes at `buf_vaddr` and `buf_filled_len`. -/
structure mm_jpeg_output_t where
  buf_vaddr : List Nat
  buf_filled_len : Nat
deriving DecidableEq, Repr

/-- A `qcamera_jpeg_evt_payload_t`. -/
structure qcamera_jpeg_evt_payload_t where
  status : jpeg_job_status_t
  jobId : Nat
  out_data : mm_jpeg_output_t
deriving DecidableEq, Repr

/-- A `qcamera_release_data_t`. -/
structure qcamera_release_data_t where
  data : Option camera_memory_t
  frame : Option mm_camera_super_buf_t
  streamBufs : Option QCameraMemory
  unlinkFile : Bool
deriving DecidableEq, Repr

/-- A `qcamera_data_argm_t`. -/
structure qcamera_data_argm_t where
  msg_type : camera_msg_t
  data : Option camera_memory_t
  index : Nat
  release_data : qcamera_release_data_t
deriving DecidableEq, Repr

/-- A `qcamera_callback_argm_t`; `release_cb` tells whether `releaseNotifyData`
was installed as release callback. -/
structure qcamera_callback_argm_t where
  cb_type : qcamera_callback_type_m
  msg_type : camera_msg_t
  ext1 : Int
  ext2 : Int
  data : Option camera_memory_t
  index : Nat
  user_data : Option qcamera_data_argm_t
  release_cb : Bool
deriving DecidableEq, Repr

/-- A `mm_jpeg_dim_t`. -/
structure mm_jpeg_dim_t where
  src_dim : cam_dimension_t
  dst_dim : cam_dimension_t
  crop : cam_rect_t
deriving DecidableEq, Repr

/-- A `mm_jpeg_buf_t`; every buffer the source fills has format `MM_JPEG_FMT_YUV`. -/
structure mm_jpeg_buf_t where
  index : Nat
  buf_size : Nat
  buf_vaddr : List Nat
  fd : Int
  offset : cam_frame_len_offset_t
deriving DecidableEq, Repr

/-- A `mm_jpeg_encode_params_t`.  An array slot the source leaves at its `memset`
value is `none`. -/
structure mm_jpeg_encode_params_t where
  burst_mode : Bool
  rotation : Int
  main_dim : mm_jpeg_dim_t
  thumb_dim : mm_jpeg_dim_t
  encode_thumbnail : Bool
  color_format : Option mm_jpeg_color_format
  thumb_color_format : Option mm_jpeg_color_format
  quality : Int
  num_src_bufs : Nat
  src_main_buf : List (Option mm_jpeg_buf_t)
  num_tmb_bufs : Nat
  src_thumb_buf : List (Option mm_jpeg_buf_t)
  num_dst_bufs : Nat
  dest_buf : List (Option mm_jpeg_buf_t)
deriving DecidableEq, Repr

/-- The `encode_job` of a `mm_jpeg_job_t` (its `job_type` is always
`JPEG_JOB_TYPE_ENCODE`).  `exif_data` is the address of the entry table,
`p_metadata` the address of the metadata buffer. -/
structure mm_jpeg_encode_job_t where
  session_id : Nat
  src_index : Nat
  dst_index : Int
  main_dim : mm_jpeg_dim_t
  exif_data : Option Nat
  numOfEntries : Nat
  rotation : Int
  thumb_dim : mm_jpeg_dim_t
  thumb_index : Nat
  p_metadata : Option Nat
deriving DecidableEq, Repr

/-- The channel a buffer is returned to. -/
inductive ChannelRef where
  | capture (handle : Nat)
  | reproc (handle : Nat)
deriving DecidableEq, Repr

/-- The calls the post processor makes into its collaborators. -/
inductive Event where
  /-- Call of `pChannel->bufDone(super_buf)`. -/
  | bufDone (ch : ChannelRef) (super_buf : mm_camera_super_buf_t)
  /-- The error log of `releaseSuperBuf` when no channel resolves. -/
  | channelNotFound (ch_id : Nat)
  | create_session (client : Nat) (encodeParam : mm_jpeg_encode_params_t)
  | start_job (job : mm_jpeg_encode_job_t)
  | abort_job (jobId : Nat)
  | destroy_session (sessionId : Nat)
  /-- Call of `m_parent->sendEvtNotify(msg_type, ext1, ext2)`. -/
  | sendEvtNotify (msg_type : camera_msg_t) (ext1 ext2 : Int)
  /-- Call of `m_parent->m_cbNotifier.notifyCallback(cbArg)`. -/
  | notifyCallback (cbArg : qcamera_callback_argm_t)
  /-- Call of `mem->release(mem)` on a `camera_memory_t`. -/
  | memRelease (mem : camera_memory_t)
  /-- Deallocation and deletion of a `QCameraMemory` object. -/
  | memDeallocate (mem : QCameraMemory)
  | acquireStreamBufs (streamHandle : Nat)
  | deleteExif (pExif : Nat)
  | playShutter
  | reprocStart (handle : Nat)
  | reprocStop (handle : Nat)
  | deleteChannel (handle : Nat)
  | startSnapshots
  | stopSnapshots
  | doReprocess (frame : mm_camera_super_buf_t)
  | sendCmd (th : CmdThread) (cmd : camera_cmd_type_t) (sync_cmd priority : Bool)
  | dumpFrameToFile (streamHandle : Nat) (buf_idx : Nat) (dump_type : dump_type_t)
  | dumpJpegToFile (data : List Nat) (size : Nat) (index : Nat)
  | unlink (path : List Nat)
  /-- The save file `path` opened and `len` bytes of `data` written to it. -/
  | saveFile (path : String) (data : List Nat) (len : Nat)
  | setParam (key : String) (value : Int)
  | setParamStr (key : String) (value : String)
deriving DecidableEq, Repr

/-! ## The collaborators -/

/-- What the HAL object `m_parent` (a `QCamera2HardwareInterface`) answers to the
post processor.  `channels` lists the capture channels that
`getChannelByHandle` can resolve; `msgTypeEnabled` lists the message types for
which `msgTypeEnabledWithLock` is non-zero; `mDataCb` and `mNotifyCb` tell
whether the callback pointer is set; `getExifData` is the address of the new
exif object and its number of entries; `mGetMemory` and `notifyCallback` are
the results of those calls. -/
structure QCamera2HardwareInterface where
  channels : List QCameraChannel
  needReprocess : Bool
  isLongshotEnabled : Bool
  mLongshotEnabled : Bool
  isNonZSLCaptureRunning : Bool
  isNV16PictureFormat : Bool
  isNV21PictureFormat : Bool
  isYUVFrameInfoNeeded : Bool
  getFrameFmtString : Option String
  mDataCb : Bool
  mNotifyCb : Bool
  msgTypeEnabled : List camera_msg_t
  isHDROutputCropEnabled : Bool
  needRotationReprocess : Bool
  getJpegRotation : Int
  getJpegQuality : Int
  getThumbnailSize : cam_dimension_t
  getExifData : Option (Nat × Nat)
  isZSLMode : Bool
  numOfSnapshotsExpected : Int
  addOnlineReprocChannel : Option QCameraChannel
  mGetMemory : Bool
  notifyCallback : Int
deriving DecidableEq, Repr

def QCamera2HardwareInterface.getChannelByHandle (p : QCamera2HardwareInterface)
    (channelHandle : Nat) : Option QCameraChannel :=
  p.channels.find? (fun c => c.getMyHandle == channelHandle)

def QCamera2HardwareInterface.msgTypeEnabledWithLock (p : QCamera2HardwareInterface)
    (msg_type : camera_msg_t) : Bool :=
  p.msgTypeEnabled.contains msg_type

/-- What the jpeg interface `mJpegHandle` returns: for `create_session` the status
and the session id it stores through its last argument (`none` when it stores
nothing); for `start_job` the status and the job id it stores. -/
structure mm_jpeg_ops_t where
  create_session : Int × Option Nat
  start_job : Int × Nat
deriving DecidableEq, Repr

/-- The results of the calls whose outcome the post processor does not decide,
one field per call site. -/
structure Env where
  m_parent : QCamera2HardwareInterface
  mJpegHandle : mm_jpeg_ops_t
  /-- Whether `malloc(sizeof(qcamera_jpeg_data_t))` succeeds. -/
  malloc_jpeg_job : Bool
  /-- Whether `malloc(sizeof(qcamera_pp_data_t))` succeeds. -/
  malloc_pp_job : Bool
  /-- Whether `malloc(sizeof(qcamera_data_argm_t))` succeeds. -/
  malloc_data_cb : Bool
  /-- Whether `malloc(sizeof(qcamera_jpeg_evt_payload_t))` succeeds. -/
  malloc_saveData : Bool
  /-- Whether `new QCameraStreamMemory` yields an object. -/
  new_JpegOutputMem : Bool
  /-- Status of `m_pJpegOutputMem->allocate` and the object it leaves. -/
  jpegOutputMem_allocate : Int × QCameraMemory
  /-- Status of `m_pReprocChannel->start()`. -/
  reproc_start : Int
  /-- Status of `m_pReprocChannel->doReprocess(frame)`. -/
  doReprocess : Int
  /-- Property `persist.camera.jpeg_burst` is greater than 0. -/
  prop_jpeg_burst : Bool
  /-- Property `persist.camera.longshot.save` is greater than 0. -/
  prop_longshot_save : Bool
  /-- Result of `jpeg_open`. -/
  jpeg_open : Nat
  /-- Whether `open` of the save file yields a descriptor greater than 0. -/
  save_open : Bool
deriving DecidableEq, Repr

/-! ## The queues -/

namespace QCameraQueue

/-- Modelled from the spec: `QCameraQueue::enqueue` (the class is defined outside
`QCameraPostProc.cpp`); it appends in FIFO order. -/
def enqueue {α : Type} (q : List α) (data : α) : List α := q ++ [data]

/-- Modelled from the spec: `QCameraQueue::dequeue(bool bFromHead = true)`.  Called
without argument it removes and returns the head, `none` standing for the
`NULL` of an empty queue.  Called with `false`, which `dataProcessRoutine` does
under the comments "dequeue the last one" and "remove from ongoing PP job Q"
right after an `enqueue`, it removes the item at the tail. -/
def dequeue {α : Type} (q : List α) (bFromHead : Bool) : Option α × List α :=
  if bFromHead then (q.head?, q.tail) else (q.getLast?, q.dropLast)

/-- Modelled from the spec: `QCameraQueue::flush`; it removes every item and hands
each one, from the head on, to the release callback given at construction. -/
def flush {α : Type} (release : α → List Event) : List α → List Event
  | [] => []
  | data :: rest => release data ++ flush release rest

/-- Modelled from the spec: `QCameraQueue::flushNodes(match, match_data)`; it
removes and releases every item the predicate accepts and keeps the others in
order.  The result is the calls made and the remaining queue. -/
def flushNodes {α : Type} (release : α → List Event) (isMatch : α → Bool) :
    List α → List Event × List α
  | [] => ([], [])
  | data :: rest =>
    let r := flushNodes release isMatch rest
    if isMatch data then (release data ++ r.1, r.2) else (r.1, data :: r.2)

end QCameraQueue

/-! ## The post processor object -/

/-- The members of `QCameraPostProcessor` (`m_parent` and `mJpegHandle` are read
from `Env`). -/
structure QCameraPostProcessor where
  mJpegClientHandle : Nat
  mJpegSessionId : Nat
  m_pJpegOutputMem : Option QCameraMemory
  m_pJpegExifObj : Option Nat
  m_bThumbnailNeeded : Bool
  m_pReprocChannel : Option QCameraChannel
  m_bInited : Bool
  m_inputPPQ : List mm_camera_super_buf_t
  m_ongoingPPQ : List qcamera_pp_data_t
  m_inputJpegQ : List qcamera_jpeg_data_t
  m_ongoingJpegQ : List qcamera_jpeg_data_t
  m_inputRawQ : List mm_camera_super_buf_t
  m_inputSaveQ : List qcamera_jpeg_evt_payload_t
  mRawBurstCount : Int
  mSaveFrmCnt : Nat
  mUseSaveProc : Bool
  mUseJpegBurst : Bool
deriving DecidableEq, Repr

/-- The object with the two worker loops: `is_active` and `needNewSess` are the
locals of `dataProcessRoutine`, `save_is_active` is the local `is_active` of
`dataSaveRoutine`. -/
structure PostProcState where
  pme : QCameraPostProcessor
  is_active : Bool
  needNewSess : Bool
  save_is_active : Bool
deriving DecidableEq, Repr

/-- The constructor `QCameraPostProcessor::QCameraPostProcessor`. -/
def QCameraPostProcessor.new : QCameraPostProcessor :=
  { mJpegClientHandle := 0
    mJpegSessionId := 0
    m_pJpegOutputMem := none
    m_pJpegExifObj := none
    m_bThumbnailNeeded := true
    m_pReprocChannel := none
    m_bInited := false
    m_inputPPQ := []
    m_ongoingPPQ := []
    m_inputJpegQ := []
    m_ongoingJpegQ := []
    m_inputRawQ := []
    m_inputSaveQ := []
    mRawBurstCount := 0
    mSaveFrmCnt := 0
    mUseSaveProc := false
    mUseJpegBurst := false }

/-- The state when both worker threads have been launched: each loop starts with
`is_active = FALSE`, the process loop with `needNewSess = TRUE`. -/
def PostProcState.launch (pme : QCameraPostProcessor) : PostProcState :=
  { pme := pme, is_active := false, needNewSess := true, save_is_active := false }

/-! ## Releasing buffers and jobs -/

/-- Function `QCameraPostProcessor::releaseSuperBuf`. -/
def releaseSuperBuf (env : Env) (pme : QCameraPostProcessor)
    (super_buf : Option mm_camera_super_buf_t) : List Event :=
  match super_buf with
  | none => []
  | some sb =>
    match env.m_parent.getChannelByHandle sb.ch_id with
    | some pChannel => [Event.bufDone (ChannelRef.capture pChannel.getMyHandle) sb]
    | none =>
      match pme.m_pReprocChannel with
      | some rc =>
        if rc.getMyHandle == sb.ch_id then [Event.bufDone (ChannelRef.reproc rc.getMyHandle) sb]
        else [Event.channelNotFound sb.ch_id]
      | none => [Event.channelNotFound sb.ch_id]

/-- Function `QCameraPostProcessor::releaseJpegJobData`: the pre-reprocess frame, then the
source frame, then the exif object. -/
def releaseJpegJobData (env : Env) (pme : QCameraPostProcessor)
    (job : qcamera_jpeg_data_t) : List Event :=
  releaseSuperBuf env pme job.src_reproc_frame
    ++ releaseSuperBuf env pme job.src_frame
    ++ (match job.pJpegExifObj with
        | some p => [Event.deleteExif p]
        | none => [])

/-- Function `QCameraPostProcessor::releaseJpegData`, release callback of `m_inputJpegQ` and
`m_ongoingJpegQ`. -/
def releaseJpegData (env : Env) (pme : QCameraPostProcessor)
    (data : qcamera_jpeg_data_t) : List Event :=
  releaseJpegJobData env pme data

/-- Function `QCameraPostProcessor::releasePPInputData`, release callback of
`m_inputPPQ`. -/
def releasePPInputData (env : Env) (pme : QCameraPostProcessor)
    (data : mm_camera_super_buf_t) : List Event :=
  releaseSuperBuf env pme (some data)

/-- Function `QCameraPostProcessor::releaseOngoingPPData`, release callback of
`m_ongoingPPQ`. -/
def releaseOngoingPPData (env : Env) (pme : QCameraPostProcessor)
    (data : qcamera_pp_data_t) : List Event :=
  releaseSuperBuf env pme data.src_frame

/-- Function `QCameraPostProcessor::releaseRawData`, release callback of `m_inputRawQ`. -/
def releaseRawData (env : Env) (pme : QCameraPostProcessor)
    (data : mm_camera_super_buf_t) : List Event :=
  releaseSuperBuf env pme (some data)

/-- Function `QCameraPostProcessor::releaseNotifyData`.  The unlink branch reads
`release_data.data`, which the only caller that sets `unlinkFile` has set. -/
def releaseNotifyData (env : Env) (pme : QCameraPostProcessor)
    (app_cb : qcamera_data_argm_t) (cb_status : Int) : List Event :=
  (if pme.mUseSaveProc && app_cb.release_data.unlinkFile && (cb_status != NO_ERROR) then
      match app_cb.release_data.data with
      | some d => [Event.unlink (d.data.take d.size)]
      | none => []
    else [])
  ++ (match app_cb.release_data.data with
      | some d => [Event.memRelease d]
      | none => [])
  ++ releaseSuperBuf env pme app_cb.release_data.frame
  ++ (match app_cb.release_data.streamBufs with
      | some m => [Event.memDeallocate m]
      | none => [])

/-- Function `QCameraPostProcessor::sendEvtNotify`. -/
def sendEvtNotify (msg_type : camera_msg_t) (ext1 ext2 : Int) : List Event :=
  [Event.sendEvtNotify msg_type ext1 ext2]

/-- Function `QCameraPostProcessor::sendDataNotify`; the result is the status and the calls
made. -/
def sendDataNotify (env : Env) (pme : QCameraPostProcessor) (msg_type : camera_msg_t)
    (data : Option camera_memory_t) (index : Nat)
    (release_data : Option qcamera_release_data_t) : Int × List Event :=
  if !env.malloc_data_cb then (NO_MEMORY, [])
  else
    let data_cb : qcamera_data_argm_t :=
      { msg_type := msg_type, data := data, index := index,
        release_data := release_data.getD
          { data := none, frame := none, streamBufs := none, unlinkFile := false } }
    let cbArg : qcamera_callback_argm_t :=
      { cb_type := qcamera_callback_type_m.QCAMERA_DATA_SNAPSHOT_CALLBACK,
        msg_type := msg_type, ext1 := 0, ext2 := 0, data := data, index := 0,
        user_data := some data_cb, release_cb := true }
    let rc := env.m_parent.notifyCallback
    if rc != NO_ERROR then
      (UNKNOWN_ERROR, Event.notifyCallback cbArg :: releaseNotifyData env pme data_cb UNKNOWN_ERROR)
    else (rc, [Event.notifyCallback cbArg])

/-! ## Building the encoding configuration -/

/-- Function `QCameraPostProcessor::getColorfmtFromImgFmt`. -/
def getColorfmtFromImgFmt : cam_format_t → mm_jpeg_color_format
  | cam_format_t.CAM_FORMAT_YUV_420_NV21 => mm_jpeg_color_format.MM_JPEG_COLOR_FORMAT_YCRCBLP_H2V2
  | cam_format_t.CAM_FORMAT_YUV_420_NV21_ADRENO =>
    mm_jpeg_color_format.MM_JPEG_COLOR_FORMAT_YCRCBLP_H2V2
  | cam_format_t.CAM_FORMAT_YUV_420_NV12 => mm_jpeg_color_format.MM_JPEG_COLOR_FORMAT_YCBCRLP_H2V2
  | cam_format_t.CAM_FORMAT_YUV_420_YV12 => mm_jpeg_color_format.MM_JPEG_COLOR_FORMAT_YCBCRLP_H2V2
  | cam_format_t.CAM_FORMAT_YUV_422_NV61 => mm_jpeg_color_format.MM_JPEG_COLOR_FORMAT_YCRCBLP_H2V1
  | cam_format_t.CAM_FORMAT_YUV_422_NV16 => mm_jpeg_color_format.MM_JPEG_COLOR_FORMAT_YCBCRLP_H2V1
  | cam_format_t.other _ => mm_jpeg_color_format.MM_JPEG_COLOR_FORMAT_YCRCBLP_H2V2

/-- A `cam_dimension_t` after `memset(.., 0, ..)`. -/
def cam_dimension_t.zero : cam_dimension_t := { width := 0, height := 0 }

/-- A `cam_rect_t` after `memset(.., 0, ..)`. -/
def cam_rect_t.zero : cam_rect_t := { left := 0, top := 0, width := 0, height := 0 }

/-- A `mm_jpeg_dim_t` after `memset(.., 0, ..)`. -/
def mm_jpeg_dim_t.zero : mm_jpeg_dim_t :=
  { src_dim := cam_dimension_t.zero, dst_dim := cam_dimension_t.zero, crop := cam_rect_t.zero }

/-- A `mm_jpeg_encode_params_t` after `memset(.., 0, ..)`. -/
def mm_jpeg_encode_params_t.zero : mm_jpeg_encode_params_t :=
  { burst_mode := false, rotation := 0, main_dim := mm_jpeg_dim_t.zero,
    thumb_dim := mm_jpeg_dim_t.zero, encode_thumbnail := false, color_format := none,
    thumb_color_format := none, quality := 0, num_src_bufs := 0, src_main_buf := [],
    num_tmb_bufs := 0, src_thumb_buf := [], num_dst_bufs := 0, dest_buf := [] }

/-- The encode job of a `mm_jpeg_job_t` after `memset(.., 0, ..)`. -/
def mm_jpeg_encode_job_t.zero : mm_jpeg_encode_job_t :=
  { session_id := 0, src_index := 0, dst_index := 0, main_dim := mm_jpeg_dim_t.zero,
    exif_data := none, numOfEntries := 0, rotation := 0, thumb_dim := mm_jpeg_dim_t.zero,
    thumb_index := 0, p_metadata := none }

/-- The source buffer loops of `getJpegEncodingConfig`: slot `i` is filled when
`getMemory(i, false)` is not `NULL`. -/
def fillSrcBufs (pStreamMem : QCameraMemory) (offset : cam_frame_len_offset_t) :
    List (Option mm_jpeg_buf_t) :=
  (List.range pStreamMem.getCnt).map fun i =>
    (pStreamMem.getMemory i).map fun stream_mem =>
      { index := i, buf_size := stream_mem.size, buf_vaddr := stream_mem.data,
        fd := pStreamMem.getFd i, offset := offset }

/-- The destination buffer loop of `getJpegEncodingConfig` over the indices given:
it stops at the first `NULL` memory; the result tells whether it ran through and
the slots filled so far. -/
def fillDestBufs (mem : QCameraMemory) (offset : cam_frame_len_offset_t) :
    List Nat → Bool × List (Option mm_jpeg_buf_t)
  | [] => (true, [])
  | i :: rest =>
    match mem.getMemory i with
    | none => (false, [])
    | some jpeg_mem =>
      let r := fillDestBufs mem offset rest
      (r.1, some { index := i, buf_size := jpeg_mem.size, buf_vaddr := jpeg_mem.data,
                   fd := mem.getFd i, offset := offset } :: r.2)

/-- The `on_error` exit of `getJpegEncodingConfig`. -/
def getJpegEncodingConfig.on_error (ret : Int) (encode_parm : mm_jpeg_encode_params_t)
    (pme : QCameraPostProcessor) (trace : List Event) :
    Int × mm_jpeg_encode_params_t × QCameraPostProcessor × List Event :=
  match pme.m_pJpegOutputMem with
  | some m => (ret, encode_parm, { pme with m_pJpegOutputMem := none },
      trace ++ [Event.memDeallocate m])
  | none => (ret, encode_parm, pme, trace)

/-- The tail of `getJpegEncodingConfig` from "allocate output buf for jpeg
encoding" on. -/
def getJpegEncodingConfig.allocOutput (env : Env) (pme : QCameraPostProcessor)
    (encode_parm : mm_jpeg_encode_params_t) (main_offset : cam_frame_len_offset_t) :
    Int × mm_jpeg_encode_params_t × QCameraPostProcessor × List Event :=
  let trace : List Event :=
    match pme.m_pJpegOutputMem with
    | some m => [Event.memDeallocate m]
    | none => []
  let pme := { pme with m_pJpegOutputMem := none }
  if !env.new_JpegOutputMem then
    getJpegEncodingConfig.on_error NO_MEMORY encode_parm pme trace
  else
    let encode_parm :=
      { encode_parm with num_dst_bufs := if pme.mUseJpegBurst then 2 else 1 }
    let pme := { pme with m_pJpegOutputMem := some env.jpegOutputMem_allocate.2 }
    if env.jpegOutputMem_allocate.1 != 0 then
      getJpegEncodingConfig.on_error NO_MEMORY encode_parm pme trace
    else
      let r := fillDestBufs env.jpegOutputMem_allocate.2 main_offset
        (List.range encode_parm.num_dst_bufs)
      let encode_parm := { encode_parm with dest_buf := r.2 }
      if !r.1 then getJpegEncodingConfig.on_error NO_MEMORY encode_parm pme trace
      else (NO_ERROR, encode_parm, pme, trace)

/-- Function `QCameraPostProcessor::getJpegEncodingConfig`; the result is the status, the
filled `encode_parm`, the object and the calls made. -/
def getJpegEncodingConfig (env : Env) (pme : QCameraPostProcessor)
    (encode_parm : mm_jpeg_encode_params_t) (main_stream : QCameraStream)
    (thumb_stream : Option QCameraStream) :
    Int × mm_jpeg_encode_params_t × QCameraPostProcessor × List Event :=
  let pme := { pme with mUseJpegBurst := env.prop_jpeg_burst && !pme.mUseSaveProc }
  let encode_parm := { encode_parm with burst_mode := pme.mUseJpegBurst }
  let crop := main_stream.crop
  let src_dim := main_stream.dim
  let hdr_output_crop := env.m_parent.isHDROutputCropEnabled
  let dst_dim : cam_dimension_t :=
    { height := if hdr_output_crop && crop.height != 0 then crop.height else src_dim.height,
      width := if hdr_output_crop && crop.width != 0 then crop.width else src_dim.width }
  let encode_parm :=
    if !env.m_parent.needRotationReprocess then
      { encode_parm with rotation := env.m_parent.getJpegRotation }
    else encode_parm
  let encode_parm :=
    { encode_parm with
      main_dim := { encode_parm.main_dim with src_dim := src_dim, dst_dim := dst_dim } }
  let thumbnailSize := env.m_parent.getThumbnailSize
  let pme :=
    { pme with
      m_bThumbnailNeeded := !(thumbnailSize.width == 0 || thumbnailSize.height == 0) }
  let encode_parm := { encode_parm with encode_thumbnail := pme.m_bThumbnailNeeded }
  let encode_parm :=
    { encode_parm with color_format := some (getColorfmtFromImgFmt main_stream.format) }
  let quality := env.m_parent.getJpegQuality
  let encode_parm := { encode_parm with quality := if quality ≤ 0 then 85 else quality }
  let main_offset := main_stream.offset
  match main_stream.streamBufs with
  | none => getJpegEncodingConfig.on_error BAD_VALUE encode_parm pme []
  | some pStreamMem =>
    let encode_parm :=
      { encode_parm with
        num_src_bufs := pStreamMem.getCnt,
        src_main_buf := fillSrcBufs pStreamMem main_offset }
    if pme.m_bThumbnailNeeded then
      let thumb_stream := thumb_stream.getD main_stream
      match thumb_stream.streamBufs with
      | none => getJpegEncodingConfig.on_error BAD_VALUE encode_parm pme []
      | some pStreamMem =>
        let thumb_offset := thumb_stream.offset
        let rotation := env.m_parent.getJpegRotation
        let thumbSize := env.m_parent.getThumbnailSize
        let encode_parm :=
          { encode_parm with
            num_tmb_bufs := pStreamMem.getCnt,
            src_thumb_buf := fillSrcBufs pStreamMem thumb_offset,
            thumb_color_format := some (getColorfmtFromImgFmt thumb_stream.format),
            thumb_dim :=
              { src_dim := thumb_stream.dim,
                dst_dim :=
                  if rotation == 90 || rotation == 270 then
                    { width := thumbSize.height, height := thumbSize.width }
                  else thumbSize,
                crop := thumb_stream.crop } }
        getJpegEncodingConfig.allocOutput env pme encode_parm main_offset
    else
      getJpegEncodingConfig.allocOutput env pme encode_parm main_offset

/-! ## Dispatching an encode job -/

/-- What `encodeData` leaves behind: its return value, the job it was given (it
writes `pJpegExifObj` and `jobId`), the `needNewSess` reference argument, the
object and the calls made. -/
structure EncodeDataResult where
  ret : Int
  job : qcamera_jpeg_data_t
  needNewSess : Bool
  pme : QCameraPostProcessor
  trace : List Event
deriving DecidableEq, Repr

/-- A stream together with the buffer of the frame that belongs to it. -/
abbrev StreamFrame := QCameraStream × mm_camera_buf_def_t

/-- One round of the loop "find snapshot frame and thumnail frame" of `encodeData`;
the accumulator is `(main, thumb)`. -/
def encodeData.scanBuf (pChannel : QCameraChannel)
    (acc : Option StreamFrame × Option StreamFrame) (buf : mm_camera_buf_def_t) :
    Option StreamFrame × Option StreamFrame :=
  match pChannel.getStreamByHandle buf.stream_id with
  | none => acc
  | some pStream =>
    if pStream.isTypeOf cam_stream_type_t.CAM_STREAM_TYPE_SNAPSHOT ||
        pStream.isOrignalTypeOf cam_stream_type_t.CAM_STREAM_TYPE_SNAPSHOT then
      (some (pStream, buf), acc.2)
    else if pStream.isTypeOf cam_stream_type_t.CAM_STREAM_TYPE_PREVIEW ||
        pStream.isTypeOf cam_stream_type_t.CAM_STREAM_TYPE_POSTVIEW ||
        pStream.isOrignalTypeOf cam_stream_type_t.CAM_STREAM_TYPE_PREVIEW ||
        pStream.isOrignalTypeOf cam_stream_type_t.CAM_STREAM_TYPE_POSTVIEW then
      (acc.1, some (pStream, buf))
    else acc

/-- One round of the loop "find thumnail frame" over the pre-reprocess frame. -/
def encodeData.scanReprocBuf (pSrcReprocChannel : QCameraChannel)
    (acc : Option StreamFrame) (buf : mm_camera_buf_def_t) : Option StreamFrame :=
  match pSrcReprocChannel.getStreamByHandle buf.stream_id with
  | none => acc
  | some pStream =>
    if pStream.isTypeOf cam_stream_type_t.CAM_STREAM_TYPE_PREVIEW ||
        pStream.isTypeOf cam_stream_type_t.CAM_STREAM_TYPE_POSTVIEW then
      some (pStream, buf)
    else acc

/-- The loops "find meta data frame" of `encodeData`: the first metadata buffer of
the source frame, else the first one of the pre-reprocess frame. -/
def encodeData.findMetaFrame (job : qcamera_jpeg_data_t)
    (src_frame : mm_camera_super_buf_t) : Option mm_camera_buf_def_t :=
  match src_frame.bufs.find?
      (fun b => b.stream_type == cam_stream_type_t.CAM_STREAM_TYPE_METADATA) with
  | some meta_frame => some meta_frame
  | none =>
    match job.src_reproc_frame with
    | some src_reproc_frame =>
      src_reproc_frame.bufs.find?
        (fun b => b.stream_type == cam_stream_type_t.CAM_STREAM_TYPE_METADATA)
    | none => none

/-- The raw image callbacks that `encodeData` and `processRawImageImpl` send when
they are enabled; `index` is the `cbArg.index` of the data callback. -/
def rawImageCallbacks (env : Env) (mem : Option camera_memory_t) (index : Nat) :
    List Event :=
  (if env.m_parent.mDataCb &&
      env.m_parent.msgTypeEnabledWithLock camera_msg_t.CAMERA_MSG_RAW_IMAGE then
    [Event.notifyCallback
      { cb_type := qcamera_callback_type_m.QCAMERA_DATA_CALLBACK,
        msg_type := camera_msg_t.CAMERA_MSG_RAW_IMAGE, ext1 := 0, ext2 := 0,
        data := mem, index := index, user_data := none, release_cb := false }]
   else [])
  ++ (if env.m_parent.mNotifyCb &&
      env.m_parent.msgTypeEnabledWithLock camera_msg_t.CAMERA_MSG_RAW_IMAGE_NOTIFY then
    [Event.notifyCallback
      { cb_type := qcamera_callback_type_m.QCAMERA_NOTIFY_CALLBACK,
        msg_type := camera_msg_t.CAMERA_MSG_RAW_IMAGE_NOTIFY, ext1 := 0, ext2 := 0,
        data := none, index := 0, user_data := none, release_cb := false }]
   else [])

/-- The part of `encodeData` from "Fill in new job" to the `start_job` call: the
job descriptor handed to the backend. -/
def encodeData.fillJob (env : Env) (pme : QCameraPostProcessor)
    (job : qcamera_jpeg_data_t) (src_frame : mm_camera_super_buf_t)
    (main : StreamFrame) (thumb : Option StreamFrame) : mm_jpeg_encode_job_t :=
  let jpg_job := mm_jpeg_encode_job_t.zero
  let jpg_job :=
    { jpg_job with
      session_id := pme.mJpegSessionId,
      src_index := main.2.buf_idx,
      dst_index := if pme.mUseJpegBurst then -1 else 0 }
  let crop := main.1.crop
  let src_dim := main.1.dim
  let hdr_output_crop := env.m_parent.isHDROutputCropEnabled
  let dst_dim : cam_dimension_t :=
    { height := if hdr_output_crop && crop.height != 0 then crop.height else src_dim.height,
      width := if hdr_output_crop && crop.width != 0 then crop.width else src_dim.width }
  let jpg_job :=
    { jpg_job with main_dim := { src_dim := src_dim, dst_dim := dst_dim, crop := crop } }
  let jpg_job :=
    match env.m_parent.getExifData with
    | some pJpegExifObj =>
      { jpg_job with exif_data := some pJpegExifObj.1, numOfEntries := pJpegExifObj.2 }
    | none => jpg_job
  let jpg_job :=
    if !env.m_parent.needRotationReprocess then
      { jpg_job with rotation := env.m_parent.getJpegRotation }
    else jpg_job
  let jpg_job :=
    if pme.m_bThumbnailNeeded then
      let thumb := thumb.getD main
      let thumbSize := env.m_parent.getThumbnailSize
      let rotation := env.m_parent.getJpegRotation
      { jpg_job with
        thumb_dim :=
          { src_dim := thumb.1.dim,
            dst_dim :=
              if (rotation == 90 || rotation == 270) && jpg_job.rotation == 0 then
                { width := thumbSize.height, height := thumbSize.width }
              else thumbSize,
            crop := thumb.1.crop },
        thumb_index := thumb.2.buf_idx }
    else jpg_job
  match encodeData.findMetaFrame job src_frame with
  | some meta_frame => { jpg_job with p_metadata := some meta_frame.buffer }
  | none => jpg_job

/-- The part of `encodeData` from "Fill in new job" on: the job descriptor is
built, `start_job` is called and the job id is recorded when it succeeds. -/
def encodeData.startJob (env : Env) (pme : QCameraPostProcessor)
    (job : qcamera_jpeg_data_t) (src_frame : mm_camera_super_buf_t)
    (main : StreamFrame) (thumb : Option StreamFrame) (trace : List Event) :
    EncodeDataResult :=
  let jpg_job := encodeData.fillJob env pme job src_frame main thumb
  let job := { job with pJpegExifObj := env.m_parent.getExifData.map Prod.fst }
  let ret := env.mJpegHandle.start_job.1
  { ret := ret,
    job := if ret = NO_ERROR then { job with jobId := env.mJpegHandle.start_job.2 } else job,
    needNewSess := false,
    pme := pme,
    trace := trace ++ [Event.start_job jpg_job] }

/-- The part of `encodeData` from the `mJpegClientHandle` test on: session
creation when `needNewSess` is set, then the job. -/
def encodeData.dispatch (env : Env) (pme : QCameraPostProcessor)
    (job : qcamera_jpeg_data_t) (needNewSess : Bool) (src_frame : mm_camera_super_buf_t)
    (main : StreamFrame) (thumb : Option StreamFrame) (trace : List Event) :
    EncodeDataResult :=
  if pme.mJpegClientHandle = 0 then
    { ret := UNKNOWN_ERROR, job := job, needNewSess := needNewSess, pme := pme, trace := trace }
  else if needNewSess then
    let cfg := getJpegEncodingConfig env pme mm_jpeg_encode_params_t.zero main.1
      (thumb.map Prod.fst)
    let trace :=
      trace ++ cfg.2.2.2 ++ [Event.create_session pme.mJpegClientHandle cfg.2.1]
    let pme :=
      { cfg.2.2.1 with
        mJpegSessionId := env.mJpegHandle.create_session.2.getD cfg.2.2.1.mJpegSessionId }
    let ret := env.mJpegHandle.create_session.1
    if ret != NO_ERROR then
      { ret := ret, job := job, needNewSess := needNewSess, pme := pme, trace := trace }
    else encodeData.startJob env pme job src_frame main thumb trace
  else encodeData.startJob env pme job src_frame main thumb trace

/-- Function `QCameraPostProcessor::encodeData`.  The result is `none` when
`jpeg_job_data->src_frame` is `NULL`, which the source dereferences untested. -/
def encodeData (env : Env) (pme : QCameraPostProcessor)
    (jpeg_job_data : qcamera_jpeg_data_t) (needNewSess : Bool) :
    Option EncodeDataResult :=
  match jpeg_job_data.src_frame with
  | none => none
  | some recvd_frame =>
    let fail (ret : Int) : Option EncodeDataResult :=
      some { ret := ret, job := jpeg_job_data, needNewSess := needNewSess, pme := pme,
             trace := [] }
    let pChannel : Option QCameraChannel :=
      match env.m_parent.getChannelByHandle recvd_frame.ch_id with
      | some c => some c
      | none =>
        match pme.m_pReprocChannel with
        | some rc => if rc.getMyHandle == recvd_frame.ch_id then some rc else none
        | none => none
    match pChannel with
    | none => fail BAD_VALUE
    | some pChannel =>
      let found := recvd_frame.bufs.foldl (encodeData.scanBuf pChannel) (none, none)
      match found.1 with
      | none => fail BAD_VALUE
      | some main =>
        let thumb : Option (Option StreamFrame) :=
          match found.2, jpeg_job_data.src_reproc_frame with
          | none, some src_reproc_frame =>
            match env.m_parent.getChannelByHandle src_reproc_frame.ch_id with
            | none => none
            | some pSrcReprocChannel =>
              some (src_reproc_frame.bufs.foldl
                (encodeData.scanReprocBuf pSrcReprocChannel) none)
          | t, _ => some t
        match thumb with
        | none => fail BAD_VALUE
        | some thumb =>
          match main.2.mem_info with
          | none => fail NO_MEMORY
          | some memObj =>
            let trace : List Event :=
              [Event.dumpFrameToFile main.1.handle main.2.buf_idx
                dump_type_t.QCAMERA_DUMP_FRM_SNAPSHOT]
              ++ rawImageCallbacks env (memObj.getMemory main.2.buf_idx) 1
              ++ (match thumb with
                  | some t => [Event.dumpFrameToFile t.1.handle t.2.buf_idx
                      dump_type_t.QCAMERA_DUMP_FRM_THUMBNAIL]
                  | none => [])
            some (encodeData.dispatch env pme jpeg_job_data needNewSess recvd_frame
              main thumb trace)

/-! ## Raw images -/

/-- Function `QCameraPostProcessor::processRawImageImpl`; the result is the status, the
object and the calls made. -/
def processRawImageImpl (env : Env) (pme : QCameraPostProcessor)
    (recvd_frame : mm_camera_super_buf_t) : Int × QCameraPostProcessor × List Event :=
  let pChannel : Option QCameraChannel :=
    match env.m_parent.getChannelByHandle recvd_frame.ch_id with
    | some c => some c
    | none =>
      match pme.m_pReprocChannel with
      | some rc => if rc.getMyHandle == recvd_frame.ch_id then some rc else none
      | none => none
  match pChannel with
  | none => (BAD_VALUE, pme, [])
  | some pChannel =>
    let found : Option StreamFrame :=
      recvd_frame.bufs.findSome? fun buf =>
        match pChannel.getStreamByHandle buf.stream_id with
        | none => none
        | some pCurStream =>
          if pCurStream.isTypeOf cam_stream_type_t.CAM_STREAM_TYPE_SNAPSHOT ||
              pCurStream.isTypeOf cam_stream_type_t.CAM_STREAM_TYPE_RAW ||
              pCurStream.isOrignalTypeOf cam_stream_type_t.CAM_STREAM_TYPE_SNAPSHOT ||
              pCurStream.isOrignalTypeOf cam_stream_type_t.CAM_STREAM_TYPE_RAW then
            some (pCurStream, buf)
          else none
    match found with
    | none => (BAD_VALUE, pme, [])
    | some (pStream, frame) =>
      match frame.mem_info with
      | none => (UNKNOWN_ERROR, pme, [])
      | some rawMemObj =>
        match rawMemObj.getMemory frame.buf_idx with
        | none => (UNKNOWN_ERROR, pme, [])
        | some raw_mem =>
          let trace : List Event :=
            [Event.dumpFrameToFile pStream.handle frame.buf_idx
              (if frame.stream_type == cam_stream_type_t.CAM_STREAM_TYPE_SNAPSHOT ||
                  pStream.isOrignalTypeOf cam_stream_type_t.CAM_STREAM_TYPE_SNAPSHOT then
                dump_type_t.QCAMERA_DUMP_FRM_SNAPSHOT
               else dump_type_t.QCAMERA_DUMP_FRM_RAW)]
            ++ rawImageCallbacks env (some raw_mem) 0
          let zslChannelUsed :=
            env.m_parent.isZSLMode && (some pChannel != pme.m_pReprocChannel)
          if env.m_parent.mDataCb &&
              env.m_parent.msgTypeEnabledWithLock camera_msg_t.CAMERA_MSG_COMPRESSED_IMAGE then
            let pme := { pme with mRawBurstCount := pme.mRawBurstCount - 1 }
            let useStreamBufs := (pme.mRawBurstCount == 0) && !zslChannelUsed
            let release_data : qcamera_release_data_t :=
              if useStreamBufs then
                { data := none, frame := none, streamBufs := some rawMemObj,
                  unlinkFile := false }
              else
                { data := none, frame := some recvd_frame, streamBufs := none,
                  unlinkFile := false }
            let r := sendDataNotify env pme camera_msg_t.CAMERA_MSG_COMPRESSED_IMAGE
              (some raw_mem) 0 (some release_data)
            (r.1, pme,
              trace ++ (if useStreamBufs then [Event.acquireStreamBufs pStream.handle] else [])
                ++ r.2)
          else (NO_ERROR, pme, trace)

/-- Conversion of an integer to `int`, as C does on assignment. -/
def toInt32 (x : Int) : Int := (x + 2147483648) % 4294967296 - 2147483648

/-- Function `QCameraPostProcessor::setYUVFrameInfo`; it only writes parameters of the HAL
object. -/
def setYUVFrameInfo (env : Env) (pme : QCameraPostProcessor)
    (recvd_frame : mm_camera_super_buf_t) : Int × List Event :=
  let pChannel : Option QCameraChannel :=
    match env.m_parent.getChannelByHandle recvd_frame.ch_id with
    | some c => some c
    | none =>
      match pme.m_pReprocChannel with
      | some rc => if rc.getMyHandle == recvd_frame.ch_id then some rc else none
      | none => none
  match pChannel with
  | none => (BAD_VALUE, [])
  | some pChannel =>
    let found : Option QCameraStream :=
      recvd_frame.bufs.findSome? fun buf =>
        match pChannel.getStreamByHandle buf.stream_id with
        | none => none
        | some pStream =>
          if pStream.isTypeOf cam_stream_type_t.CAM_STREAM_TYPE_SNAPSHOT ||
              pStream.isOrignalTypeOf cam_stream_type_t.CAM_STREAM_TYPE_SNAPSHOT then
            some pStream
          else none
    match found with
    | none => (BAD_VALUE, [])
    | some pStream =>
      let cbcr_offset :=
        toInt32 ((pStream.offset.mp0_len : Int) - pStream.dim.width * pStream.dim.height)
      (NO_ERROR,
        [Event.setParam "snapshot-framelen" pStream.offset.frame_len,
         Event.setParam "snapshot-yoff" pStream.offset.mp0_offset,
         Event.setParam "snapshot-cbcroff" cbcr_offset,
         Event.setParamStr "snapshot-format" (env.m_parent.getFrameFmtString.getD "")])

/-! ## The entry points called by the HAL -/

/-- Function `QCameraPostProcessor::init`, the threads being launched by
`PostProcState.launch`. -/
def init (env : Env) (pme : QCameraPostProcessor) : Int × QCameraPostProcessor :=
  let pme := { pme with mJpegClientHandle := env.jpeg_open }
  if pme.mJpegClientHandle = 0 then (UNKNOWN_ERROR, pme)
  else (NO_ERROR, { pme with m_bInited := true })

/-- Function `QCameraPostProcessor::start`. -/
def start (env : Env) (pme : QCameraPostProcessor) :
    Int × QCameraPostProcessor × List Event :=
  if !pme.m_bInited then (UNKNOWN_ERROR, pme, [])
  else
    let tail (pme : QCameraPostProcessor) (trace : List Event) :
        Int × QCameraPostProcessor × List Event :=
      (NO_ERROR,
        { pme with
          mUseSaveProc := env.prop_longshot_save,
          mRawBurstCount := env.m_parent.numOfSnapshotsExpected },
        trace ++
          [Event.sendCmd CmdThread.m_dataProcTh
             camera_cmd_type_t.CAMERA_CMD_TYPE_START_DATA_PROC false false,
           Event.startSnapshots])
    if env.m_parent.needReprocess then
      let trace : List Event :=
        match pme.m_pReprocChannel with
        | some old => [Event.deleteChannel old.getMyHandle]
        | none => []
      match env.m_parent.addOnlineReprocChannel with
      | none => (UNKNOWN_ERROR, { pme with m_pReprocChannel := none }, trace)
      | some ch =>
        if env.reproc_start != 0 then
          (env.reproc_start, { pme with m_pReprocChannel := none },
            trace ++ [Event.reprocStart ch.getMyHandle, Event.deleteChannel ch.getMyHandle])
        else
          tail { pme with m_pReprocChannel := some ch }
            (trace ++ [Event.reprocStart ch.getMyHandle])
    else tail pme []

/-- Function `QCameraPostProcessor::stop`: the calls made by the caller of `stop()`; the
Stop command itself is handled by `dataProcessRoutine`. -/
def stop (pme : QCameraPostProcessor) : Int × List Event :=
  if pme.m_bInited then
    (NO_ERROR,
      [Event.stopSnapshots,
       Event.sendCmd CmdThread.m_dataProcTh
         camera_cmd_type_t.CAMERA_CMD_TYPE_STOP_DATA_PROC true true])
  else (NO_ERROR, [])

/-- Function `QCameraPostProcessor::processRawData`. -/
def processRawData (pme : QCameraPostProcessor) (frame : mm_camera_super_buf_t) :
    Int × QCameraPostProcessor × List Event :=
  if !pme.m_bInited then (UNKNOWN_ERROR, pme, [])
  else
    (NO_ERROR, { pme with m_inputRawQ := QCameraQueue.enqueue pme.m_inputRawQ frame },
      [Event.sendCmd CmdThread.m_dataProcTh
         camera_cmd_type_t.CAMERA_CMD_TYPE_DO_NEXT_JOB false false])

/-- Function `QCameraPostProcessor::processData`. -/
def processData (env : Env) (pme : QCameraPostProcessor) (frame : mm_camera_super_buf_t) :
    Int × QCameraPostProcessor × List Event :=
  let wake : List Event :=
    [Event.sendCmd CmdThread.m_dataProcTh
       camera_cmd_type_t.CAMERA_CMD_TYPE_DO_NEXT_JOB false false]
  if !pme.m_bInited then (UNKNOWN_ERROR, pme, [])
  else if env.m_parent.needReprocess then
    (NO_ERROR, { pme with m_inputPPQ := QCameraQueue.enqueue pme.m_inputPPQ frame },
      (if !env.m_parent.isLongshotEnabled then [Event.playShutter] else []) ++ wake)
  else if env.m_parent.isNV16PictureFormat || env.m_parent.isNV21PictureFormat then
    let info : List Event :=
      if env.m_parent.isYUVFrameInfoNeeded then (setYUVFrameInfo env pme frame).2 else []
    let r := processRawData pme frame
    (NO_ERROR, r.2.1, info ++ r.2.2 ++ wake)
  else
    let shutter : List Event :=
      if !env.m_parent.isNonZSLCaptureRunning && !env.m_parent.mLongshotEnabled then
        [Event.playShutter]
      else []
    if !env.malloc_jpeg_job then (NO_MEMORY, pme, shutter)
    else
      let jpeg_job : qcamera_jpeg_data_t :=
        { jobId := 0, src_frame := some frame, src_reproc_frame := none,
          pJpegExifObj := none }
      (NO_ERROR, { pme with m_inputJpegQ := QCameraQueue.enqueue pme.m_inputJpegQ jpeg_job },
        shutter ++ wake)

/-- Function `QCameraPostProcessor::matchJobId`. -/
def matchJobId (job_id : Nat) (job : qcamera_jpeg_data_t) : Bool :=
  job.jobId == job_id

/-- The inline branch of `processJpegEvt` between the `flushNodes` call and the
label `end`: the status, the delivery buffer (`jpeg_mem`) and the calls made. -/
def processJpegEvt.deliver (env : Env) (pme : QCameraPostProcessor)
    (evt : qcamera_jpeg_evt_payload_t) : Int × Option camera_memory_t × List Event :=
  if !env.m_parent.mDataCb ||
      !env.m_parent.msgTypeEnabledWithLock camera_msg_t.CAMERA_MSG_COMPRESSED_IMAGE then
    (NO_ERROR, none, [])
  else if evt.status == jpeg_job_status_t.JPEG_JOB_STATUS_ERROR then
    (FAILED_TRANSACTION, none, [])
  else
    let dump : List Event :=
      [Event.dumpJpegToFile evt.out_data.buf_vaddr evt.out_data.buf_filled_len evt.jobId]
    if !env.m_parent.mGetMemory then (NO_MEMORY, none, dump)
    else
      let jpeg_mem : camera_memory_t :=
        { data := evt.out_data.buf_vaddr.take evt.out_data.buf_filled_len,
          size := evt.out_data.buf_filled_len }
      let release_data : qcamera_release_data_t :=
        { data := some jpeg_mem, frame := none, streamBufs := none, unlinkFile := false }
      let r := sendDataNotify env pme camera_msg_t.CAMERA_MSG_COMPRESSED_IMAGE
        (some jpeg_mem) 0 (some release_data)
      (r.1, some jpeg_mem, dump ++ r.2)

/-- The label `end` of `processJpegEvt`, given the status, delivery buffer and calls
of the part before it: on an error status the error notification is sent and
the delivery buffer, if there is one, is released. -/
def processJpegEvt.onEnd (d : Int × Option camera_memory_t × List Event) : List Event :=
  if d.1 != NO_ERROR then
    sendEvtNotify camera_msg_t.CAMERA_MSG_ERROR UNKNOWN_ERROR 0
      ++ (match d.2.1 with
          | some jpeg_mem => [Event.memRelease jpeg_mem]
          | none => [])
  else []

/-- Function `QCameraPostProcessor::processJpegEvt`. -/
def processJpegEvt (env : Env) (pme : QCameraPostProcessor)
    (evt : qcamera_jpeg_evt_payload_t) : Int × QCameraPostProcessor × List Event :=
  let wake : List Event :=
    [Event.sendCmd CmdThread.m_dataProcTh
       camera_cmd_type_t.CAMERA_CMD_TYPE_DO_NEXT_JOB false false]
  if !pme.m_bInited then (UNKNOWN_ERROR, pme, [])
  else if pme.mUseSaveProc && env.m_parent.isLongshotEnabled then
    if !env.malloc_saveData then (NO_MEMORY, pme, [])
    else
      (NO_ERROR, { pme with m_inputSaveQ := QCameraQueue.enqueue pme.m_inputSaveQ evt },
        [Event.sendCmd CmdThread.m_saveProcTh
           camera_cmd_type_t.CAMERA_CMD_TYPE_DO_NEXT_JOB false false] ++ wake)
  else
    let fl := QCameraQueue.flushNodes (releaseJpegData env pme) (matchJobId evt.jobId)
      pme.m_ongoingJpegQ
    let pme := { pme with m_ongoingJpegQ := fl.2 }
    let d := processJpegEvt.deliver env pme evt
    (d.1, pme, fl.1 ++ d.2.2 ++ processJpegEvt.onEnd d ++ wake)

/-- Function `QCameraPostProcessor::processPPData`. -/
def processPPData (env : Env) (pme : QCameraPostProcessor) (frame : mm_camera_super_buf_t) :
    Int × QCameraPostProcessor × List Event :=
  if !pme.m_bInited then (UNKNOWN_ERROR, pme, [])
  else
    let dq := QCameraQueue.dequeue pme.m_ongoingPPQ true
    let pme := { pme with m_ongoingPPQ := dq.2 }
    match dq.1.bind (fun job => job.src_frame) with
    | none => (BAD_VALUE, pme, [])
    | some job_src_frame =>
      if env.m_parent.isNV16PictureFormat || env.m_parent.isNV21PictureFormat then
        let info : List Event :=
          if env.m_parent.isYUVFrameInfoNeeded then (setYUVFrameInfo env pme frame).2 else []
        let r := processRawData pme frame
        (r.1, r.2.1, releaseSuperBuf env pme (some job_src_frame) ++ info ++ r.2.2)
      else
        let shutter : List Event :=
          if env.m_parent.isLongshotEnabled then [Event.playShutter] else []
        if !env.malloc_jpeg_job then (NO_MEMORY, pme, shutter)
        else
          let jpeg_job : qcamera_jpeg_data_t :=
            { jobId := 0, src_frame := some frame, src_reproc_frame := some job_src_frame,
              pJpegExifObj := none }
          (NO_ERROR,
            { pme with m_inputJpegQ := QCameraQueue.enqueue pme.m_inputJpegQ jpeg_job },
            shutter ++
              [Event.sendCmd CmdThread.m_dataProcTh
                 camera_cmd_type_t.CAMERA_CMD_TYPE_DO_NEXT_JOB false false])

/-! ## The save loop -/

/-- The text that the conversion `%d` of `snprintf` writes for the save counter.
The member `mSaveFrmCnt` is declared in the class header, which is outside the
source file; it is taken as a 32-bit counter (`uint32_t`, set to 0 by the
constructor) and kept here as the number below 2^32 that its 32 bits spell.  The
conversion `%d` prints these bits as a signed number: the counter itself below
2^31, and the counter minus 2^32, a negative number, from 2^31 on. -/
def formatD (mSaveFrmCnt : Nat) : String :=
  if mSaveFrmCnt % 4294967296 < 2147483648 then toString (mSaveFrmCnt % 4294967296)
  else "-" ++ toString (4294967296 - mSaveFrmCnt % 4294967296)

/-- The name `snprintf(saveName, .., STORE_LOCATION, mSaveFrmCnt)` writes, with
`STORE_LOCATION = "/sdcard/img_%d.jpg"`; it has at most 27 characters. -/
def saveName (mSaveFrmCnt : Nat) : String :=
  "/sdcard/img_" ++ formatD mSaveFrmCnt ++ ".jpg"

/-- The bytes of a C string. -/
def strBytes (s : String) : List Nat := s.toList.map Char.toNat

/-- The `CAMERA_CMD_TYPE_DO_NEXT_JOB` case of `dataSaveRoutine`.  The statement
`mSaveFrmCnt++` is on the 32-bit counter and wraps from 2^32 - 1 to 0. -/
def dataSaveRoutine.doNextJob (env : Env) (s : PostProcState) :
    PostProcState × List Event :=
  match QCameraQueue.dequeue s.pme.m_inputSaveQ true with
  | (none, _) => (s, [])
  | (some job_data, rest) =>
    let fl := QCameraQueue.flushNodes (releaseJpegData env s.pme) (matchJobId job_data.jobId)
      s.pme.m_ongoingJpegQ
    let pme := { s.pme with m_inputSaveQ := rest, m_ongoingJpegQ := fl.2 }
    if s.save_is_active then
      let name := saveName pme.mSaveFrmCnt
      let written : List Event :=
        if env.save_open then
          [Event.saveFile name job_data.out_data.buf_vaddr job_data.out_data.buf_filled_len]
        else []
      let pme := { pme with mSaveFrmCnt := (pme.mSaveFrmCnt + 1) % 4294967296 }
      if !env.m_parent.mGetMemory then ({ s with pme := pme }, fl.1 ++ written)
      else
        let jpeg_mem : camera_memory_t :=
          { data := strBytes name, size := (strBytes name).length }
        let release_data : qcamera_release_data_t :=
          { data := some jpeg_mem, frame := none, streamBufs := none, unlinkFile := true }
        let r := sendDataNotify env pme camera_msg_t.CAMERA_MSG_COMPRESSED_IMAGE
          (some jpeg_mem) 0 (some release_data)
        ({ s with pme := pme }, fl.1 ++ written ++ r.2)
    else ({ s with pme := pme }, fl.1)

/-- The `CAMERA_CMD_TYPE_STOP_DATA_PROC` case of `dataSaveRoutine`.  `m_inputSaveQ`
is not given a release callback by the constructor, so its flush makes no call. -/
def dataSaveRoutine.stop (s : PostProcState) : PostProcState :=
  { s with save_is_active := false, pme := { s.pme with m_inputSaveQ := [] } }

/-- One round of the loop of `dataSaveRoutine` on the command `cmd`. -/
def dataSaveRoutine (env : Env) (cmd : camera_cmd_type_t) (s : PostProcState) :
    PostProcState × List Event :=
  match cmd with
  | camera_cmd_type_t.CAMERA_CMD_TYPE_START_DATA_PROC => ({ s with save_is_active := true }, [])
  | camera_cmd_type_t.CAMERA_CMD_TYPE_STOP_DATA_PROC => (dataSaveRoutine.stop s, [])
  | camera_cmd_type_t.CAMERA_CMD_TYPE_DO_NEXT_JOB => dataSaveRoutine.doNextJob env s
  | camera_cmd_type_t.CAMERA_CMD_TYPE_EXIT => (s, [])
  | camera_cmd_type_t.CAMERA_CMD_TYPE_NONE => (s, [])

/-! ## The process loop -/

/-- The `CAMERA_CMD_TYPE_START_DATA_PROC` case of `dataProcessRoutine`. -/
def dataProcessRoutine.start (s : PostProcState) : PostProcState × List Event :=
  ({ s with is_active := true, needNewSess := true },
    [Event.sendCmd CmdThread.m_saveProcTh
       camera_cmd_type_t.CAMERA_CMD_TYPE_START_DATA_PROC false false])

/-- The loop "cancel all ongoing jpeg jobs" of the Stop case, run on the contents
of `m_ongoingJpegQ`: each job dequeued from the head is aborted, then released. -/
def dataProcessRoutine.cancelJobs (env : Env) (pme : QCameraPostProcessor) :
    List qcamera_jpeg_data_t → List Event
  | [] => []
  | jpeg_job :: rest =>
    Event.abort_job jpeg_job.jobId
      :: (releaseJpegJobData env pme jpeg_job ++ dataProcessRoutine.cancelJobs env pme rest)

/-- The `CAMERA_CMD_TYPE_STOP_DATA_PROC` case of `dataProcessRoutine`.  The Stop
sent to the save thread is synchronous, so its handling is part of this case. -/
def dataProcessRoutine.stop (env : Env) (s : PostProcState) : PostProcState × List Event :=
  let s : PostProcState := { s with is_active := false }
  let t0 : List Event :=
    [Event.sendCmd CmdThread.m_saveProcTh
       camera_cmd_type_t.CAMERA_CMD_TYPE_STOP_DATA_PROC true true]
  let s := dataSaveRoutine.stop s
  let t1 := dataProcessRoutine.cancelJobs env s.pme s.pme.m_ongoingJpegQ
  let pme : QCameraPostProcessor := { s.pme with m_ongoingJpegQ := [] }
  let t2 : List Event :=
    if 0 < pme.mJpegSessionId then [Event.destroy_session pme.mJpegSessionId] else []
  let pme : QCameraPostProcessor := { pme with mJpegSessionId := 0 }
  let t3 : List Event :=
    match pme.m_pJpegOutputMem with
    | some m => [Event.memDeallocate m]
    | none => []
  let pme : QCameraPostProcessor := { pme with m_pJpegOutputMem := none }
  let t4 : List Event :=
    match pme.m_pJpegExifObj with
    | some p => [Event.deleteExif p]
    | none => []
  let pme : QCameraPostProcessor := { pme with m_pJpegExifObj := none }
  let t5 : List Event :=
    match pme.m_pReprocChannel with
    | some ch => [Event.reprocStop ch.getMyHandle, Event.deleteChannel ch.getMyHandle]
    | none => []
  let pme : QCameraPostProcessor := { pme with m_pReprocChannel := none }
  let t6 := QCameraQueue.flush (releaseOngoingPPData env pme) pme.m_ongoingPPQ
  let pme : QCameraPostProcessor := { pme with m_ongoingPPQ := [] }
  let t7 := QCameraQueue.flush (releaseJpegData env pme) pme.m_inputJpegQ
  let pme : QCameraPostProcessor := { pme with m_inputJpegQ := [] }
  let t8 := QCameraQueue.flush (releasePPInputData env pme) pme.m_inputPPQ
  let pme : QCameraPostProcessor := { pme with m_inputPPQ := [] }
  let t9 := QCameraQueue.flush (releaseRawData env pme) pme.m_inputRawQ
  let pme : QCameraPostProcessor := { pme with m_inputRawQ := [] }
  ({ s with pme := pme, needNewSess := true },
    t0 ++ t1 ++ t2 ++ t3 ++ t4 ++ t5 ++ t6 ++ t7 ++ t8 ++ t9)

/-- The encode part of the active `CAMERA_CMD_TYPE_DO_NEXT_JOB` case: the head of
`m_inputJpegQ` is put on `m_ongoingJpegQ` and handed to `encodeData`.  The node
put on the queue points to the job that `encodeData` writes to, so after the
call the tail of `m_ongoingJpegQ` holds the job as `encodeData` left it. -/
def dataProcessRoutine.doEncode (env : Env) (s : PostProcState) :
    Option (PostProcState × List Event) :=
  match QCameraQueue.dequeue s.pme.m_inputJpegQ true with
  | (none, _) => some (s, [])
  | (some jpeg_job, rest) =>
    let pme :=
      { s.pme with
        m_inputJpegQ := rest,
        m_ongoingJpegQ := QCameraQueue.enqueue s.pme.m_ongoingJpegQ jpeg_job }
    match encodeData env pme jpeg_job s.needNewSess with
    | none => none
    | some r =>
      let pme := { r.pme with m_ongoingJpegQ := r.pme.m_ongoingJpegQ.dropLast ++ [r.job] }
      if r.ret != NO_ERROR then
        let pme :=
          { pme with m_ongoingJpegQ := (QCameraQueue.dequeue pme.m_ongoingJpegQ false).2 }
        some ({ s with pme := pme, needNewSess := r.needNewSess },
          r.trace ++ releaseJpegJobData env pme r.job
            ++ sendEvtNotify camera_msg_t.CAMERA_MSG_ERROR UNKNOWN_ERROR 0)
      else some ({ s with pme := pme, needNewSess := r.needNewSess }, r.trace)

/-- The raw part of the active `CAMERA_CMD_TYPE_DO_NEXT_JOB` case. -/
def dataProcessRoutine.doRaw (env : Env) (s : PostProcState) : PostProcState × List Event :=
  match QCameraQueue.dequeue s.pme.m_inputRawQ true with
  | (none, _) => (s, [])
  | (some super_buf, rest) =>
    let pme := { s.pme with m_inputRawQ := rest }
    let r := processRawImageImpl env pme super_buf
    if r.1 != NO_ERROR then
      ({ s with pme := r.2.1 },
        [Event.playShutter] ++ r.2.2 ++ releaseSuperBuf env r.2.1 (some super_buf)
          ++ sendEvtNotify camera_msg_t.CAMERA_MSG_ERROR UNKNOWN_ERROR 0)
    else ({ s with pme := r.2.1 }, [Event.playShutter] ++ r.2.2)

/-- The reprocess part of the active `CAMERA_CMD_TYPE_DO_NEXT_JOB` case. -/
def dataProcessRoutine.doReproc (env : Env) (s : PostProcState) :
    PostProcState × List Event :=
  match QCameraQueue.dequeue s.pme.m_inputPPQ true with
  | (none, _) => (s, [])
  | (some pp_frame, rest) =>
    let pme := { s.pme with m_inputPPQ := rest }
    let onError (pme : QCameraPostProcessor) (trace : List Event) :
        PostProcState × List Event :=
      ({ s with pme := pme },
        trace ++ releaseSuperBuf env pme (some pp_frame)
          ++ sendEvtNotify camera_msg_t.CAMERA_MSG_ERROR UNKNOWN_ERROR 0)
    if env.malloc_pp_job then
      match pme.m_pReprocChannel with
      | some _ =>
        let pp_job : qcamera_pp_data_t := { src_frame := some pp_frame }
        let pme := { pme with m_ongoingPPQ := QCameraQueue.enqueue pme.m_ongoingPPQ pp_job }
        let ret := env.doReprocess
        if ret != NO_ERROR then
          let pme :=
            { pme with m_ongoingPPQ := (QCameraQueue.dequeue pme.m_ongoingPPQ false).2 }
          onError pme [Event.doReprocess pp_frame]
        else ({ s with pme := pme }, [Event.doReprocess pp_frame])
      | none => onError pme []
    else onError pme []

/-- The active `CAMERA_CMD_TYPE_DO_NEXT_JOB` case of `dataProcessRoutine`: the
encode part, then the raw part, then the reprocess part. -/
def dataProcessRoutine.doNextJobActive (env : Env) (s : PostProcState) :
    Option (PostProcState × List Event) :=
  match dataProcessRoutine.doEncode env s with
  | none => none
  | some r1 =>
    let r2 := dataProcessRoutine.doRaw env r1.1
    let r3 := dataProcessRoutine.doReproc env r2.1
    some (r3.1, r1.2 ++ r2.2 ++ r3.2)

/-- The inactive `CAMERA_CMD_TYPE_DO_NEXT_JOB` case of `dataProcessRoutine`
("not active, simply return buf and do no op"). -/
def dataProcessRoutine.doNextJobInactive (env : Env) (s : PostProcState) :
    PostProcState × List Event :=
  let dj := QCameraQueue.dequeue s.pme.m_inputJpegQ true
  let pme := { s.pme with m_inputJpegQ := dj.2 }
  let t1 : List Event :=
    match dj.1 with
    | some jpeg_data => releaseJpegJobData env pme jpeg_data
    | none => []
  let dr := QCameraQueue.dequeue pme.m_inputRawQ true
  let pme := { pme with m_inputRawQ := dr.2 }
  let t2 : List Event :=
    match dr.1 with
    | some super_buf => releaseSuperBuf env pme (some super_buf)
    | none => []
  let dp := QCameraQueue.dequeue pme.m_inputPPQ true
  let pme := { pme with m_inputPPQ := dp.2 }
  let t3 : List Event :=
    match dp.1 with
    | some super_buf => releaseSuperBuf env pme (some super_buf)
    | none => []
  ({ s with pme := pme }, t1 ++ t2 ++ t3)

/-- One round of the loop of `dataProcessRoutine` on the command `cmd`; `none` is
the null dereference of `encodeData`. -/
def dataProcessRoutine (env : Env) (cmd : camera_cmd_type_t) (s : PostProcState) :
    Option (PostProcState × List Event) :=
  match cmd with
  | camera_cmd_type_t.CAMERA_CMD_TYPE_START_DATA_PROC => some (dataProcessRoutine.start s)
  | camera_cmd_type_t.CAMERA_CMD_TYPE_STOP_DATA_PROC => some (dataProcessRoutine.stop env s)
  | camera_cmd_type_t.CAMERA_CMD_TYPE_DO_NEXT_JOB =>
    if s.is_active then dataProcessRoutine.doNextJobActive env s
    else some (dataProcessRoutine.doNextJobInactive env s)
  | camera_cmd_type_t.CAMERA_CMD_TYPE_EXIT => some (s, [])
  | camera_cmd_type_t.CAMERA_CMD_TYPE_NONE => some (s, [])

/-! ## Runs of the pipeline -/

/-- What can happen to the post processor: the HAL calls one of its entry points,
or one of the two loops takes a command from its command queue. -/
inductive Action where
  | start
  | processData (frame : mm_camera_super_buf_t)
  | processRawData (frame : mm_camera_super_buf_t)
  | processPPData (frame : mm_camera_super_buf_t)
  | processJpegEvt (evt : qcamera_jpeg_evt_payload_t)
  | dataProc (cmd : camera_cmd_type_t)
  | dataSave (cmd : camera_cmd_type_t)
deriving DecidableEq, Repr

/-- One action, run to its end before the next one begins. -/
def Action.apply (env : Env) (s : PostProcState) : Action → Option (PostProcState × List Event)
  | Action.start =>
    let r := qcamera.start env s.pme
    some ({ s with pme := r.2.1 }, r.2.2)
  | Action.processData frame =>
    let r := qcamera.processData env s.pme frame
    some ({ s with pme := r.2.1 }, r.2.2)
  | Action.processRawData frame =>
    let r := qcamera.processRawData s.pme frame
    some ({ s with pme := r.2.1 }, r.2.2)
  | Action.processPPData frame =>
    let r := qcamera.processPPData env s.pme frame
    some ({ s with pme := r.2.1 }, r.2.2)
  | Action.processJpegEvt evt =>
    let r := qcamera.processJpegEvt env s.pme evt
    some ({ s with pme := r.2.1 }, r.2.2)
  | Action.dataProc cmd => dataProcessRoutine env cmd s
  | Action.dataSave cmd => some (dataSaveRoutine env cmd s)

/-- A run: the actions in order, each with the environment it meets; the result is
the final state and all the calls made. -/
def run (s : PostProcState) : List (Env × Action) → Option (PostProcState × List Event)
  | [] => some (s, [])
  | (env, a) :: rest =>
    match a.apply env s with
    | none => none
    | some r =>
      match run r.1 rest with
      | none => none
      | some r2 => some (r2.1, r.2 ++ r2.2)

/-! ## Vocabulary of the properties -/

/-- The members `encodeData` may write: `b` differs from `a` in nothing but
`mUseJpegBurst`, `m_bThumbnailNeeded`, `m_pJpegOutputMem` and `mJpegSessionId`. -/
def EncodeFrame (a b : QCameraPostProcessor) : Prop :=
  b = { a with
        mUseJpegBurst := b.mUseJpegBurst,
        m_bThumbnailNeeded := b.m_bThumbnailNeeded,
        m_pJpegOutputMem := b.m_pJpegOutputMem,
        mJpegSessionId := b.mJpegSessionId }

/-- Calls that only dump a frame, send a raw image callback or free the jpeg
output memory. -/
def Event.isEncodePrep : Event → Bool
  | Event.dumpFrameToFile _ _ _ => true
  | Event.notifyCallback cbArg =>
    cbArg.msg_type == camera_msg_t.CAMERA_MSG_RAW_IMAGE ||
      cbArg.msg_type == camera_msg_t.CAMERA_MSG_RAW_IMAGE_NOTIFY
  | Event.memDeallocate _ => true
  | _ => false

/-- Calls that `encodeData` can make. -/
def Event.isEncodeCall : Event → Bool
  | Event.create_session _ _ => true
  | Event.start_job _ => true
  | e => e.isEncodePrep

/-- What every return of `encodeData` satisfies, whatever the path taken. -/
structure EncodeDataSound (pme : QCameraPostProcessor) (job : qcamera_jpeg_data_t)
    (r : EncodeDataResult) : Prop where
  frame : EncodeFrame pme r.pme
  src_frame : r.job.src_frame = job.src_frame
  src_reproc_frame : r.job.src_reproc_frame = job.src_reproc_frame
  calls : ∀ e ∈ r.trace, e.isEncodeCall = true

/-- The outcome of a `releaseSuperBuf` call on a buffer that is not `NULL`: the
buffer handed to a channel with `bufDone`, or the error log when no channel
resolves. -/
def Event.isRelease : Event → Bool
  | Event.bufDone _ _ => true
  | Event.channelNotFound _ => true
  | _ => false

/-- A `CAMERA_MSG_ERROR` notification. -/
def Event.isErrorNotify : Event → Bool
  | Event.sendEvtNotify camera_msg_t.CAMERA_MSG_ERROR _ _ => true
  | _ => false

/-- A callback handed to the notifier of the HAL object. -/
def Event.isNotifyCallback : Event → Bool
  | Event.notifyCallback _ => true
  | _ => false

/-- A call into the jpeg interface. -/
def Event.isJpegCall : Event → Bool
  | Event.create_session _ _ => true
  | Event.start_job _ => true
  | Event.abort_job _ => true
  | Event.destroy_session _ => true
  | _ => false

/-- What releasing a queued item can do: return a buffer or delete an exif object. -/
def Event.isJobRelease : Event → Bool
  | Event.deleteExif _ => true
  | e => e.isRelease

/-! ## A concrete capture session

One capture channel with a snapshot stream, JPEG delivery enabled, no
reprocessing; used to run the embedding on explicit inputs. -/

namespace Example

/-- A snapshot stream of 640 by 480. -/
def snapshotStream : QCameraStream :=
  { handle := 10, stream_type := cam_stream_type_t.CAM_STREAM_TYPE_SNAPSHOT, orig_type := none,
    crop := cam_rect_t.zero, dim := { width := 640, height := 480 },
    offset := { frame_len := 460800, mp0_len := 307200, mp0_offset := 0 },
    format := cam_format_t.CAM_FORMAT_YUV_420_NV21,
    streamBufs := some { bufs := [some { data := [], size := 460800 }], fds := [3] } }

/-- The capture channel, with the snapshot stream only. -/
def captureChannel : QCameraChannel := { handle := 1, streams := [snapshotStream] }

/-- The HAL object: no reprocessing, JPEG picture format, JPEG delivery enabled, no
thumbnail, no exif data. -/
def hal : QCamera2HardwareInterface :=
  { channels := [captureChannel], needReprocess := false, isLongshotEnabled := false,
    mLongshotEnabled := false, isNonZSLCaptureRunning := false, isNV16PictureFormat := false,
    isNV21PictureFormat := false, isYUVFrameInfoNeeded := false, getFrameFmtString := none,
    mDataCb := true, mNotifyCb := true,
    msgTypeEnabled := [camera_msg_t.CAMERA_MSG_COMPRESSED_IMAGE],
    isHDROutputCropEnabled := false, needRotationReprocess := false, getJpegRotation := 0,
    getJpegQuality := 90, getThumbnailSize := { width := 0, height := 0 },
    getExifData := none, isZSLMode := false, numOfSnapshotsExpected := 1,
    addOnlineReprocChannel := none, mGetMemory := true, notifyCallback := 0 }

/-- The backend creates session 7 and gives the job the id `jobId`. -/
def env (jobId : Nat) : Env :=
  { m_parent := hal,
    mJpegHandle := { create_session := (0, some 7), start_job := (0, jobId) },
    malloc_jpeg_job := true, malloc_pp_job := true, malloc_data_cb := true,
    malloc_saveData := true, new_JpegOutputMem := true,
    jpegOutputMem_allocate := (0, { bufs := [some { data := [], size := 460800 }], fds := [5] }),
    reproc_start := 0, doReprocess := 0, prop_jpeg_burst := false,
    prop_longshot_save := false, jpeg_open := 1, save_open := true }

/-- The backend refuses to create a session. -/
def envCreateFails : Env :=
  { env 1 with mJpegHandle := { create_session := (-1, none), start_job := (0, 1) } }

/-- A captured frame with one snapshot buffer of index `n`. -/
def frame (n : Nat) : mm_camera_super_buf_t :=
  { camera_handle := 0, ch_id := 1,
    bufs := [{ stream_id := 10, stream_type := cam_stream_type_t.CAM_STREAM_TYPE_SNAPSHOT,
               buf_idx := n, mem_info := some { bufs := [], fds := [] }, buffer := n }] }

/-- The encode job `processData` makes of `frame n`. -/
def job (n : Nat) : qcamera_jpeg_data_t :=
  { jobId := 0, src_frame := some (frame n), src_reproc_frame := none, pJpegExifObj := none }

/-- The post processor after `init`, both loops launched. -/
def launched : PostProcState :=
  PostProcState.launch (init (env 1) QCameraPostProcessor.new).2

/-- A `DoNextJob` wake-up of the process loop. -/
def doNextJob : Action := Action.dataProc camera_cmd_type_t.CAMERA_CMD_TYPE_DO_NEXT_JOB

/-- The process loop takes the Start command. -/
def startCmd : Action := Action.dataProc camera_cmd_type_t.CAMERA_CMD_TYPE_START_DATA_PROC

/-- Start, then two frames submitted one after the other, each followed by the
wake-up its `processData` call asked for; no completion event in between. -/
def twoSubmissions : List (Env × Action) :=
  [(env 1, Action.start), (env 1, startCmd),
   (env 1, Action.processData (frame 0)), (env 1, doNextJob),
   (env 2, Action.processData (frame 1)), (env 2, doNextJob)]

/-- Two raw frames submitted before Start, then one wake-up. -/
def twoRawWhileInactive : List (Env × Action) :=
  [(env 1, Action.processRawData (frame 0)), (env 1, Action.processRawData (frame 1)),
   (env 1, doNextJob)]

/-- An active loop with two encode jobs, one raw frame and one frame to reprocess
queued. -/
def activeQueued : PostProcState :=
  { launched with
    is_active := true,
    pme := { launched.pme with
             m_inputJpegQ := [job 0, job 1], m_inputRawQ := [frame 2],
             m_inputPPQ := [frame 3],
             m_ongoingJpegQ := [{ job 9 with jobId := 4 }] } }

/-- An inactive loop with the same queues. -/
def inactiveQueued : PostProcState := { activeQueued with is_active := false }

/-- The object `encodeData` is called on for the head job of `activeQueued`. -/
def dispatching : QCameraPostProcessor :=
  { activeQueued.pme with
    m_inputJpegQ := [job 1],
    m_ongoingJpegQ := QCameraQueue.enqueue activeQueued.pme.m_ongoingJpegQ (job 0) }

/-- A completion event for job 2, which is not on the ongoing queue of
`activeQueued`. -/
def lateEvt : qcamera_jpeg_evt_payload_t :=
  { status := jpeg_job_status_t.JPEG_JOB_STATUS_DONE, jobId := 2,
    out_data := { buf_vaddr := [255, 216, 255, 217, 0, 0], buf_filled_len := 4 } }

/-- The HAL with JPEG delivery switched off. -/
def envNoDelivery : Env := { env 1 with m_parent := { hal with msgTypeEnabled := [] } }

/-- What `encodeData` returns for the head job of `activeQueued` when the backend
refuses to create a session. -/
def failedDispatch : EncodeDataResult :=
  (encodeData envCreateFails dispatching (job 0) true).get rfl

end Example

/-- Every job waiting on the encode-input queue has its source frame set. -/
def InputJobsHaveFrame (s : PostProcState) : Prop :=
  ∀ job ∈ s.pme.m_inputJpegQ, job.src_frame ≠ none

/-- The channel that `encodeData`, `processRawImageImpl` and `releaseSuperBuf` resolve
a channel id to: the capture channel the HAL object finds for it, else the
reprocessing channel when it exists and has that handle. -/
def Resolves (env : Env) (pme : QCameraPostProcessor) (ch_id : Nat) (ch : QCameraChannel) :
    Prop :=
  env.m_parent.getChannelByHandle ch_id = some ch ∨
  (env.m_parent.getChannelByHandle ch_id = none ∧ pme.m_pReprocChannel = some ch ∧
    ch.getMyHandle = ch_id)

/-- The calls `encodeData` makes between its frame checks and the
`mJpegClientHandle` test: the dump of the main frame, the raw image callbacks
and the dump of the thumbnail frame when there is one. -/
def encodeData.prepTrace (env : Env) (main : StreamFrame) (memObj : QCameraMemory)
    (thumb : Option StreamFrame) : List Event :=
  [Event.dumpFrameToFile main.1.handle main.2.buf_idx dump_type_t.QCAMERA_DUMP_FRM_SNAPSHOT]
    ++ rawImageCallbacks env (memObj.getMemory main.2.buf_idx) 1
    ++ (match thumb with
        | some t => [Event.dumpFrameToFile t.1.handle t.2.buf_idx
            dump_type_t.QCAMERA_DUMP_FRM_THUMBNAIL]
        | none => [])

/-- Whether `encodeData` takes a stream of the source frame as main stream: it is of
snapshot type, now or originally. -/
def isMainStream (s : QCameraStream) : Bool :=
  s.isTypeOf cam_stream_type_t.CAM_STREAM_TYPE_SNAPSHOT ||
    s.isOrignalTypeOf cam_stream_type_t.CAM_STREAM_TYPE_SNAPSHOT

/-- Whether `encodeData` takes a stream of the source frame as thumbnail stream: it
is not a main stream and is of preview or postview type, now or originally. -/
def isThumbStream (s : QCameraStream) : Bool :=
  !isMainStream s &&
    (s.isTypeOf cam_stream_type_t.CAM_STREAM_TYPE_PREVIEW ||
      s.isTypeOf cam_stream_type_t.CAM_STREAM_TYPE_POSTVIEW ||
      s.isOrignalTypeOf cam_stream_type_t.CAM_STREAM_TYPE_PREVIEW ||
      s.isOrignalTypeOf cam_stream_type_t.CAM_STREAM_TYPE_POSTVIEW)

/-- Whether `encodeData` takes a stream of the pre-reprocess frame as thumbnail
stream: it is of preview or postview type now. -/
def isReprocThumbStream (s : QCameraStream) : Bool :=
  s.isTypeOf cam_stream_type_t.CAM_STREAM_TYPE_PREVIEW ||
    s.isTypeOf cam_stream_type_t.CAM_STREAM_TYPE_POSTVIEW

/-- The last buffer of `bufs` that belongs to a stream of the channel `ch` accepted
by `p`, together with that stream. -/
def lastBufOf (ch : QCameraChannel) (p : QCameraStream → Bool) :
    List mm_camera_buf_def_t → Option StreamFrame
  | [] => none
  | buf :: rest =>
    match lastBufOf ch p rest with
    | some x => some x
    | none =>
      match ch.getStreamByHandle buf.stream_id with
      | some s => if p s then some (s, buf) else none
      | none => none

namespace Example

/-- A preview stream of 320 by 240. -/
def previewStream : QCameraStream :=
  { handle := 11, stream_type := cam_stream_type_t.CAM_STREAM_TYPE_PREVIEW, orig_type := none,
    crop := cam_rect_t.zero, dim := { width := 320, height := 240 },
    offset := { frame_len := 115200, mp0_len := 76800, mp0_offset := 0 },
    format := cam_format_t.CAM_FORMAT_YUV_420_NV21,
    streamBufs := some { bufs := [some { data := [], size := 115200 }], fds := [4] } }

/-- A snapshot stream whose crop rectangle has a height and no width. -/
def croppedStream : QCameraStream :=
  { snapshotStream with
    handle := 13, crop := { left := 0, top := 60, width := 0, height := 360 } }

/-- A channel with a snapshot stream and a preview stream. -/
def zslChannel : QCameraChannel := { handle := 2, streams := [snapshotStream, previewStream] }

/-- A channel with the cropped snapshot stream only. -/
def cropChannel : QCameraChannel := { handle := 3, streams := [croppedStream] }

/-- A HAL object that wants a thumbnail of 320 by 240 and a rotation by 90 degrees
that is left to the encoder, with HDR output crop enabled. -/
def halThumb : QCamera2HardwareInterface :=
  { hal with
    channels := [captureChannel, zslChannel, cropChannel],
    getThumbnailSize := { width := 320, height := 240 }, getJpegRotation := 90,
    isHDROutputCropEnabled := true }

/-- The environment of `env 1` with the HAL object `halThumb`. -/
def envThumb : Env := { env 1 with m_parent := halThumb }

/-- The snapshot buffer of `zslFrame`. -/
def zslMainBuf : mm_camera_buf_def_t :=
  { stream_id := 10, stream_type := cam_stream_type_t.CAM_STREAM_TYPE_SNAPSHOT, buf_idx := 0,
    mem_info := some { bufs := [], fds := [] }, buffer := 40 }

/-- The preview buffer of `zslFrame`. -/
def zslThumbBuf : mm_camera_buf_def_t :=
  { stream_id := 11, stream_type := cam_stream_type_t.CAM_STREAM_TYPE_PREVIEW, buf_idx := 1,
    mem_info := some { bufs := [], fds := [] }, buffer := 41 }

/-- The metadata buffer of `zslFrame`. -/
def zslMetaBuf : mm_camera_buf_def_t :=
  { stream_id := 12, stream_type := cam_stream_type_t.CAM_STREAM_TYPE_METADATA, buf_idx := 2,
    mem_info := none, buffer := 42 }

/-- A frame of `zslChannel` with a snapshot, a preview and a metadata buffer. -/
def zslFrame : mm_camera_super_buf_t :=
  { camera_handle := 0, ch_id := 2, bufs := [zslMainBuf, zslThumbBuf, zslMetaBuf] }

/-- An encode job for `zslFrame`. -/
def zslJob : qcamera_jpeg_data_t :=
  { jobId := 0, src_frame := some zslFrame, src_reproc_frame := none, pJpegExifObj := none }

/-- What `encodeData` returns for `zslJob` when a session is to be created. -/
def zslDispatch : EncodeDataResult :=
  (encodeData envThumb launched.pme zslJob true).get rfl

/-- The job descriptor of `zslDispatch`. -/
def zslJobDesc : mm_jpeg_encode_job_t :=
  encodeData.fillJob envThumb zslDispatch.pme zslJob zslFrame (snapshotStream, zslMainBuf)
    (some (previewStream, zslThumbBuf))

/-- A frame of `zslChannel` with a preview buffer only. -/
def previewFrame : mm_camera_super_buf_t :=
  { camera_handle := 0, ch_id := 2, bufs := [zslThumbBuf] }

/-- An encode job for `previewFrame`. -/
def previewJob : qcamera_jpeg_data_t :=
  { jobId := 0, src_frame := some previewFrame, src_reproc_frame := none,
    pJpegExifObj := none }

/-- A frame of `cropChannel` with one snapshot buffer. -/
def croppedFrame : mm_camera_super_buf_t :=
  { camera_handle := 0, ch_id := 3, bufs := [{ zslMainBuf with stream_id := 13 }] }

/-- An encode job for `croppedFrame`. -/
def croppedJob : qcamera_jpeg_data_t :=
  { jobId := 0, src_frame := some croppedFrame, src_reproc_frame := none,
    pJpegExifObj := none }

/-- What `encodeData` returns for `croppedJob` when a session is to be created. -/
def croppedDispatch : EncodeDataResult :=
  (encodeData envThumb launched.pme croppedJob true).get rfl

/-- The job descriptor of `croppedDispatch`. -/
def croppedJobDesc : mm_jpeg_encode_job_t :=
  encodeData.fillJob envThumb croppedDispatch.pme croppedJob croppedFrame
    (croppedStream, { zslMainBuf with stream_id := 13 }) none

end Example

namespace Example

/-- The environment of `envThumb` when the rotation has been done before the
encoder. -/
def envRotated : Env :=
  { env 1 with m_parent := { halThumb with needRotationReprocess := true } }

/-- What `encodeData` returns for `zslJob` under `envRotated`. -/
def rotatedDispatch : EncodeDataResult :=
  (encodeData envRotated launched.pme zslJob true).get rfl

/-- The job descriptor of `rotatedDispatch`. -/
def rotatedJobDesc : mm_jpeg_encode_job_t :=
  encodeData.fillJob envRotated rotatedDispatch.pme zslJob zslFrame (snapshotStream, zslMainBuf)
    (some (previewStream, zslThumbBuf))

/-- A completion event for job 4, the job on the ongoing queue of `activeQueued`. -/
def doneEvt : qcamera_jpeg_evt_payload_t := { lateEvt with jobId := 4 }

/-- No memory for an encode job. -/
def envNoJobMemory : Env := { env 1 with malloc_jpeg_job := false }

/-- An object with one reprocess job, for `frame 5`, on the ongoing reprocess
queue. -/
def reprocessing : QCameraPostProcessor :=
  { launched.pme with m_ongoingPPQ := [{ src_frame := some (frame 5) }] }

end Example

/-- The thumbnail of every job descriptor among the calls of `r` is taken from the
stream and buffer `src`, when a thumbnail is needed. -/
def ThumbnailFrom (r : EncodeDataResult) (src : StreamFrame) : Prop :=
  ∀ j, Event.start_job j ∈ r.trace → r.pme.m_bThumbnailNeeded = true →
    j.thumb_index = src.2.buf_idx ∧ j.thumb_dim.src_dim = src.1.dim ∧
      j.thumb_dim.crop = src.1.crop

namespace Example

/-- A frame of a channel that the HAL object does not know, without buffers. -/
def orphanFrame : mm_camera_super_buf_t := { camera_handle := 0, ch_id := 9, bufs := [] }

/-- An encode job for `frame 0`, which has no preview buffer, with `orphanFrame` as
pre-reprocess frame. -/
def orphanJob : qcamera_jpeg_data_t :=
  { jobId := 0, src_frame := some (frame 0), src_reproc_frame := some orphanFrame,
    pJpegExifObj := none }

/-- An encode job for `frame 0` with `zslFrame` as pre-reprocess frame. -/
def reprocJob : qcamera_jpeg_data_t :=
  { jobId := 0, src_frame := some (frame 0), src_reproc_frame := some zslFrame,
    pJpegExifObj := none }

/-- The snapshot buffer of `frame 0`. -/
def mainBuf : mm_camera_buf_def_t :=
  { stream_id := 10, stream_type := cam_stream_type_t.CAM_STREAM_TYPE_SNAPSHOT,
    buf_idx := 0, mem_info := some { bufs := [], fds := [] }, buffer := 0 }

end Example

/-- A call of `create_session`. -/
def Event.isCreateSession : Event → Bool
  | Event.create_session _ _ => true
  | _ => false

/-- One call of `encodeData` by the process loop: the environment it meets, the
object, the job and the new-session flag it is called with, and what it
returns. -/
structure Dispatch where
  env : Env
  pme : QCameraPostProcessor
  job : qcamera_jpeg_data_t
  needNewSess : Bool
  result : EncodeDataResult
deriving DecidableEq, Repr

/-- The call of `encodeData` that an action leads to: the one in the encode part of
an active `CAMERA_CMD_TYPE_DO_NEXT_JOB` wake-up when an encode job is queued. -/
def Action.dispatch (env : Env) (s : PostProcState) : Action → Option Dispatch
  | Action.dataProc camera_cmd_type_t.CAMERA_CMD_TYPE_DO_NEXT_JOB =>
    if s.is_active then
      match QCameraQueue.dequeue s.pme.m_inputJpegQ true with
      | (none, _) => none
      | (some jpeg_job, rest) =>
        let pme :=
          { s.pme with
            m_inputJpegQ := rest,
            m_ongoingJpegQ := QCameraQueue.enqueue s.pme.m_ongoingJpegQ jpeg_job }
        (encodeData env pme jpeg_job s.needNewSess).map fun r =>
          { env := env, pme := pme, job := jpeg_job, needNewSess := s.needNewSess,
            result := r }
    else none
  | _ => none

/-- The calls of `encodeData` along a run, in order. -/
def dispatches (s : PostProcState) : List (Env × Action) → List Dispatch
  | [] => []
  | (env, a) :: rest =>
    (a.dispatch env s).toList ++
      (match a.apply env s with
       | none => []
       | some r => dispatches r.1 rest)

/-- The dispatch calls `create_session`. -/
def Dispatch.callsCreate (d : Dispatch) : Bool := d.result.trace.any Event.isCreateSession

/-- The dispatch calls `create_session` and the call succeeds. -/
def Dispatch.createSucceeds (d : Dispatch) : Bool :=
  d.callsCreate && d.env.mJpegHandle.create_session.1 == NO_ERROR

/-- The dispatch gets as far as the test of `needNewSess`: its frames pass the checks
of `encodeData`, after which the first call is made, and `mJpegClientHandle` is
not 0. -/
def Dispatch.atSessionStage (d : Dispatch) : Bool :=
  !d.result.trace.isEmpty && d.pme.mJpegClientHandle != 0

/-- The process loop takes neither a Start nor a Stop command. -/
def Action.withinActivation : Action → Bool
  | Action.dataProc camera_cmd_type_t.CAMERA_CMD_TYPE_START_DATA_PROC => false
  | Action.dataProc camera_cmd_type_t.CAMERA_CMD_TYPE_STOP_DATA_PROC => false
  | _ => true

/-- The step from `s` to `r` leaves the new-session flag and the session id as they
are. -/
def SessionKept (s r : PostProcState) : Prop :=
  r.needNewSess = s.needNewSess ∧ r.pme.mJpegSessionId = s.pme.mJpegSessionId

/-- The dispatch `d` is the call of `encodeData` made in the step from `s` to `r`: it
is called with the flag and the session id of `s` and leaves those of `r`. -/
def Dispatch.Links (d : Dispatch) (s r : PostProcState) : Prop :=
  encodeData d.env d.pme d.job d.needNewSess = some d.result ∧
  d.needNewSess = s.needNewSess ∧ d.pme.mJpegSessionId = s.pme.mJpegSessionId ∧
  r.needNewSess = d.result.needNewSess ∧ r.pme.mJpegSessionId = d.result.pme.mJpegSessionId

namespace Example

/-- A frame with a snapshot buffer, of a channel that the HAL object does not know. -/
def strayFrame : mm_camera_super_buf_t := { frame 0 with ch_id := 9 }

/-- The state of `launched` after the process loop took a Start command. -/
def activated : PostProcState := (dataProcessRoutine.start launched).1

/-- Two frames submitted one after the other within one activation, each followed
by a wake-up; the first is of an unknown channel. -/
def strayThenGood : List (Env × Action) :=
  [(env 1, Action.processData strayFrame), (env 1, doNextJob),
   (env 2, Action.processData (frame 1)), (env 2, doNextJob)]

/-- Two frames submitted one after the other within one activation, each followed
by a wake-up. -/
def twoGood : List (Env × Action) :=
  [(env 1, Action.processData (frame 0)), (env 1, doNextJob),
   (env 2, Action.processData (frame 1)), (env 2, doNextJob)]

/-- The first dispatch of `twoGood`. -/
def firstDispatch : Dispatch := (dispatches activated twoGood).head?.get rfl

/-- The second dispatch of `twoGood`. -/
def secondDispatch : Dispatch := (dispatches activated twoGood).tail.head?.get rfl

end Example

namespace Example

/-- A completion event for job 4 that reports a failure of the backend. -/
def errorEvt : qcamera_jpeg_evt_payload_t :=
  { doneEvt with status := jpeg_job_status_t.JPEG_JOB_STATUS_ERROR }

/-- The notifier of the HAL object refuses every callback. -/
def envNotifyFails : Env := { env 1 with m_parent := { hal with notifyCallback := -1 } }

/-- The delivery buffer of `doneEvt`: the first 4 bytes of its output buffer. -/
def doneMem : camera_memory_t := { data := [255, 216, 255, 217], size := 4 }

end Example

namespace Example

/-- A captured frame with one snapshot buffer that has its memory. -/
def rawFrame : mm_camera_super_buf_t :=
  { camera_handle := 0, ch_id := 1,
    bufs := [{ stream_id := 10, stream_type := cam_stream_type_t.CAM_STREAM_TYPE_SNAPSHOT,
               buf_idx := 0,
               mem_info := some { bufs := [some { data := [], size := 460800 }], fds := [6] },
               buffer := 0 }] }

/-- A burst of two snapshots is expected and the notifier of the HAL object refuses
every callback. -/
def envBurstNotifyFails : Env :=
  { env 1 with m_parent := { hal with numOfSnapshotsExpected := 2, notifyCallback := -1 } }

/-- The post processor is started, a raw frame is submitted and the process loop
takes the wake-up. -/
def rawSubmission : List (Env × Action) :=
  [(envBurstNotifyFails, Action.start), (envBurstNotifyFails, startCmd),
   (envBurstNotifyFails, Action.processRawData rawFrame), (envBurstNotifyFails, doNextJob)]

/-- An active loop with one frame to reprocess queued and a reprocessing channel. -/
def reprocQueued : PostProcState :=
  { launched with
    is_active := true,
    pme := { launched.pme with
             m_inputPPQ := [frame 3],
             m_ongoingPPQ := [{ src_frame := some (frame 5) }],
             m_pReprocChannel := some { handle := 8, streams := [] } } }

/-- The reprocessing channel refuses the frame. -/
def envReprocFails : Env := { env 1 with doReprocess := -1 }

end Example

namespace Example

/-- The save loop is active, the completion event `doneEvt` waits on the save queue
and job 4 is on the ongoing-encode queue. -/
def saving : PostProcState :=
  { activeQueued with
    save_is_active := true,
    pme := { activeQueued.pme with m_inputSaveQ := [doneEvt], mUseSaveProc := true } }

end Example

namespace Example

/-- A snapshot stream that has no stream buffers. -/
def bareStream : QCameraStream := { snapshotStream with handle := 14, streamBufs := none }

/-- A channel with the stream `bareStream` only. -/
def bareChannel : QCameraChannel := { handle := 4, streams := [bareStream] }

/-- The environment of `env 1` with the channel `bareChannel` added. -/
def envBare : Env :=
  { env 1 with m_parent := { hal with channels := [captureChannel, bareChannel] } }

/-- The snapshot buffer of `bareFrame`. -/
def bareBuf : mm_camera_buf_def_t :=
  { stream_id := 14, stream_type := cam_stream_type_t.CAM_STREAM_TYPE_SNAPSHOT, buf_idx := 0,
    mem_info := some { bufs := [], fds := [] }, buffer := 0 }

/-- A frame of `bareChannel` with one snapshot buffer. -/
def bareFrame : mm_camera_super_buf_t := { camera_handle := 0, ch_id := 4, bufs := [bareBuf] }

/-- An encode job for `bareFrame`. -/
def bareJob : qcamera_jpeg_data_t :=
  { jobId := 0, src_frame := some bareFrame, src_reproc_frame := none, pJpegExifObj := none }

end Example

/-! ## The exif table -/

/-- Modelled from the spec: the value types `exif_tag_type_t` of a table entry.  The
enum is declared outside `QCameraPostProc.cpp`; the eight types the spec lists are
the eight cases of the switches in `addEntry` and in the destructor. -/
inductive exif_tag_type_t where
  | EXIF_BYTE
  | EXIF_ASCII
  | EXIF_SHORT
  | EXIF_LONG
  | EXIF_RATIONAL
  | EXIF_UNDEFINED
  | EXIF_SLONG
  | EXIF_SRATIONAL
deriving DecidableEq, Repr

/-- The union `tag_entry.data` of a table entry.  It is `zeroed` as long as no member
has been written since the `memset` of the constructor, so that every pointer
member reads `NULL`; it holds a `scalar` after one of the inline members
(`_byte`, `_short`, `_long`, `_rat`, `_slong`, `_srat`) has been written; it holds
an `array` after one of the pointer members has been set to the block at `addr`,
whose contents are `values`.  An element of a payload, whatever its type, is one
number. -/
inductive exif_tag_data_t where
  | zeroed
  | scalar (value : Nat)
  | array (addr : Nat) (values : List Nat)
deriving DecidableEq, Repr

/-- Modelled from the spec: the member `tag_entry` of a table entry, with the members
that `addEntry` writes.  `type` is `none` for the 0 that `memset` leaves. -/
structure exif_tag_entry_t where
  type : Option exif_tag_type_t
  count : Nat
  copy : Nat
  data : exif_tag_data_t
deriving DecidableEq, Repr

/-- Modelled from the spec: a slot `QEXIF_INFO_DATA` of the table. -/
structure QEXIF_INFO_DATA where
  tag_id : Nat
  tag_entry : exif_tag_entry_t
deriving DecidableEq, Repr

/-- A slot after `memset(.., 0, ..)`. -/
def QEXIF_INFO_DATA.zero : QEXIF_INFO_DATA :=
  { tag_id := 0,
    tag_entry := { type := none, count := 0, copy := 0, data := exif_tag_data_t.zeroed } }

/-- The class `QCameraExif`: the array `m_Entries` of `MAX_EXIF_TABLE_ENTRIES` slots and
the number of entries. -/
structure QCameraExif where
  m_Entries : List QEXIF_INFO_DATA
  m_nNumEntries : Nat
deriving DecidableEq, Repr

/-- The constructor `QCameraExif::QCameraExif`.  The bound `MAX_EXIF_TABLE_ENTRIES` is
defined outside `QCameraPostProc.cpp`, so it is an argument here. -/
def QCameraExif.new (MAX_EXIF_TABLE_ENTRIES : Nat) : QCameraExif :=
  { m_Entries := List.replicate MAX_EXIF_TABLE_ENTRIES QEXIF_INFO_DATA.zero,
    m_nNumEntries := 0 }

/-- What a call of `addEntry` leaves: its return value, the table, and the block it
got from `malloc` and stored in the new entry, if any. -/
structure AddEntryResult where
  rc : Int
  exif : QCameraExif
  allocated : Option Nat
deriving DecidableEq, Repr

/-- Function `QCameraExif::addEntry`.  The argument `malloc` is what `malloc` answers if it is
called: the address of the new block, or `none` for `NULL`.  The argument `data`
is the memory at the input pointer, one number per element.  The result is `none`
when the call reads beyond the input (`count` elements are copied, and one
element is read for an inline value) or writes beyond the block: for
`EXIF_ASCII` the block has `count + 1` bytes computed in `uint32_t`, which is 0 for
`count = 2^32 - 1`.  The sizes `count * sizeof(..)` of the other blocks are
computed in `size_t`; they do not wrap for an input that holds `count` elements. -/
def QCameraExif.addEntry (MAX_EXIF_TABLE_ENTRIES : Nat) (malloc : Option Nat)
    (self : QCameraExif) (tagid : Nat) (type : exif_tag_type_t) (count : Nat)
    (data : List Nat) : Option AddEntryResult :=
  if self.m_nNumEntries ≥ MAX_EXIF_TABLE_ENTRIES then
    some { rc := NO_MEMORY, exif := self, allocated := none }
  else
    let old := self.m_Entries.getD self.m_nNumEntries QEXIF_INFO_DATA.zero
    let done (rc : Int) (d : exif_tag_data_t) (allocated : Option Nat) :
        Option AddEntryResult :=
      some
        { rc := rc,
          exif :=
            { m_Entries := self.m_Entries.set self.m_nNumEntries
                { tag_id := tagid,
                  tag_entry := { type := some type, count := count, copy := 1, data := d } },
              m_nNumEntries := self.m_nNumEntries + 1 },
          allocated := allocated }
    let valuesOrScalar : Option AddEntryResult :=
      if count > 1 then
        match malloc with
        | none => done NO_MEMORY old.tag_entry.data none
        | some values =>
          if data.length < count then none
          else done NO_ERROR (exif_tag_data_t.array values (data.take count)) (some values)
      else
        match data.head? with
        | none => none
        | some value => done NO_ERROR (exif_tag_data_t.scalar value) none
    match type with
    | exif_tag_type_t.EXIF_BYTE => valuesOrScalar
    | exif_tag_type_t.EXIF_ASCII =>
      match malloc with
      | none => done NO_MEMORY old.tag_entry.data none
      | some str =>
        if (count + 1) % 4294967296 < count ∨ data.length < count then none
        else done NO_ERROR (exif_tag_data_t.array str (data.take count ++ [0])) (some str)
    | exif_tag_type_t.EXIF_SHORT => valuesOrScalar
    | exif_tag_type_t.EXIF_LONG => valuesOrScalar
    | exif_tag_type_t.EXIF_RATIONAL => valuesOrScalar
    | exif_tag_type_t.EXIF_UNDEFINED =>
      match malloc with
      | none => done NO_MEMORY old.tag_entry.data none
      | some values =>
        if data.length < count then none
        else done NO_ERROR (exif_tag_data_t.array values (data.take count)) (some values)
    | exif_tag_type_t.EXIF_SLONG => valuesOrScalar
    | exif_tag_type_t.EXIF_SRATIONAL => valuesOrScalar

/-- The block that one round of the loop of the destructor frees, if any; `none` when
the round reads a pointer member of a union that holds an inline value. -/
def QCameraExif.freeEntry (e : QEXIF_INFO_DATA) : Option (List Nat) :=
  let freePtr : Option (List Nat) :=
    match e.tag_entry.data with
    | exif_tag_data_t.zeroed => some []
    | exif_tag_data_t.array addr _ => some [addr]
    | exif_tag_data_t.scalar _ => none
  let freeValues : Option (List Nat) :=
    if e.tag_entry.count > 1 then freePtr else some []
  match e.tag_entry.type with
  | none => some []
  | some exif_tag_type_t.EXIF_BYTE => freeValues
  | some exif_tag_type_t.EXIF_ASCII => freePtr
  | some exif_tag_type_t.EXIF_SHORT => freeValues
  | some exif_tag_type_t.EXIF_LONG => freeValues
  | some exif_tag_type_t.EXIF_RATIONAL => freeValues
  | some exif_tag_type_t.EXIF_UNDEFINED => freePtr
  | some exif_tag_type_t.EXIF_SLONG => freeValues
  | some exif_tag_type_t.EXIF_SRATIONAL => freeValues

/-- The loop of the destructor over the entries given, from the first on. -/
def QCameraExif.freeEntries : List QEXIF_INFO_DATA → Option (List Nat)
  | [] => some []
  | e :: rest =>
    match QCameraExif.freeEntry e, QCameraExif.freeEntries rest with
    | some a, some b => some (a ++ b)
    | _, _ => none

/-- The destructor `QCameraExif::~QCameraExif`: the blocks it frees, in order. -/
def QCameraExif.destroy (self : QCameraExif) : Option (List Nat) :=
  QCameraExif.freeEntries (self.m_Entries.take self.m_nNumEntries)

/-- One call of `addEntry` together with the answer of `malloc`. -/
structure ExifCall where
  malloc : Option Nat
  tagid : Nat
  type : exif_tag_type_t
  count : Nat
  data : List Nat
deriving DecidableEq, Repr

/-- A sequence of `addEntry` calls on a table: the table they leave, their return
values and the blocks they allocated, in order. -/
def QCameraExif.addEntries (MAX_EXIF_TABLE_ENTRIES : Nat) (self : QCameraExif) :
    List ExifCall → Option (QCameraExif × List Int × List Nat)
  | [] => some (self, [], [])
  | c :: rest =>
    match QCameraExif.addEntry MAX_EXIF_TABLE_ENTRIES c.malloc self c.tagid c.type c.count
        c.data with
    | none => none
    | some r =>
      match QCameraExif.addEntries MAX_EXIF_TABLE_ENTRIES r.exif rest with
      | none => none
      | some (t, rcs, blocks) => some (t, r.rc :: rcs, r.allocated.toList ++ blocks)

/-- The elements an entry holds, as a reader finds them: the inline value, or the
contents of the block. -/
def exif_tag_data_t.values : exif_tag_data_t → List Nat
  | exif_tag_data_t.zeroed => []
  | exif_tag_data_t.scalar value => [value]
  | exif_tag_data_t.array _ values => values

/-- The six value types of which `addEntry` stores a single value inline. -/
def exif_tag_type_t.isNumeric : exif_tag_type_t → Bool
  | exif_tag_type_t.EXIF_ASCII => false
  | exif_tag_type_t.EXIF_UNDEFINED => false
  | _ => true

/-- The table has its `MAX_EXIF_TABLE_ENTRIES` slots, holds at most that many entries,
and the slots from `m_nNumEntries` on are as the constructor left them. -/
def QCameraExif.Valid (MAX_EXIF_TABLE_ENTRIES : Nat) (self : QCameraExif) : Prop :=
  self.m_Entries.length = MAX_EXIF_TABLE_ENTRIES ∧
  self.m_nNumEntries ≤ MAX_EXIF_TABLE_ENTRIES ∧
  ∀ i, self.m_nNumEntries ≤ i → i < MAX_EXIF_TABLE_ENTRIES →
    self.m_Entries.getD i QEXIF_INFO_DATA.zero = QEXIF_INFO_DATA.zero

namespace Example

/-- A fresh exif table of three slots. -/
def exifTable : QCameraExif := QCameraExif.new 3

/-- A call that adds the two elements 7 and 8 under tag 271 as `EXIF_SHORT`; `malloc`
answers the block 4096. -/
def shortsCall : ExifCall :=
  { malloc := some 4096, tagid := 271, type := exif_tag_type_t.EXIF_SHORT, count := 2,
    data := [7, 8] }

/-- A call that adds the single character 65 under tag 272 as `EXIF_ASCII`; `malloc`
answers the block 8192. -/
def asciiCall : ExifCall :=
  { malloc := some 8192, tagid := 272, type := exif_tag_type_t.EXIF_ASCII, count := 1,
    data := [65] }

/-- A call that adds the two elements 7 and 8 under tag 271 as `EXIF_BYTE` when
`malloc` answers `NULL`. -/
def failingCall : ExifCall :=
  { malloc := none, tagid := 271, type := exif_tag_type_t.EXIF_BYTE, count := 2,
    data := [7, 8] }

/-- What `addEntry` returns for `shortsCall` on the fresh table. -/
def shortsAdded : AddEntryResult :=
  (QCameraExif.addEntry 3 shortsCall.malloc exifTable shortsCall.tagid shortsCall.type
    shortsCall.count shortsCall.data).get rfl

/-- A table of one slot that is full. -/
def fullTable : QCameraExif :=
  { m_Entries :=
      [{ tag_id := 271,
         tag_entry := { type := some exif_tag_type_t.EXIF_SHORT, count := 1, copy := 1,
                        data := exif_tag_data_t.scalar 7 } }],
    m_nNumEntries := 1 }

end Example

namespace Example

/-- The state `saving` when the save counter has reached its last value, 2^32 - 1. -/
def savingLast : PostProcState :=
  { saving with pme := { saving.pme with mSaveFrmCnt := 4294967295 } }

end Example
/-- The number of `CAMERA_CMD_TYPE_DO_NEXT_JOB` commands the process loop takes in a
run. -/
def wakeUps (acts : List (Env × Action)) : Nat :=
  acts.countP fun a => a.2 == Action.dataProc camera_cmd_type_t.CAMERA_CMD_TYPE_DO_NEXT_JOB
/-! ## Properties of `encodeData` used throughout -/

/-- Writing nothing is within the members `encodeData` may write. -/
theorem EncodeFrame.refl (a : QCameraPostProcessor) : EncodeFrame a a := by
  cases a; simp [EncodeFrame]

/-- Two steps within the members `encodeData` may write compose. -/
theorem EncodeFrame.trans {a b c : QCameraPostProcessor} (h1 : EncodeFrame a b)
    (h2 : EncodeFrame b c) : EncodeFrame a c := by
  cases a; cases b; cases c
  simp only [EncodeFrame, QCameraPostProcessor.mk.injEq] at *
  simp_all

/-- The `on_error` exit writes `m_pJpegOutputMem` only. -/
theorem on_error_frame (ret : Int) (p : mm_jpeg_encode_params_t) (pme : QCameraPostProcessor)
    (t : List Event) :
    EncodeFrame pme (getJpegEncodingConfig.on_error ret p pme t).2.2.1 := by
  unfold getJpegEncodingConfig.on_error
  cases h : pme.m_pJpegOutputMem <;> simp [EncodeFrame]

/-- The output buffer allocation writes `m_pJpegOutputMem` only. -/
theorem allocOutput_frame (env : Env) (pme : QCameraPostProcessor)
    (p : mm_jpeg_encode_params_t) (o : cam_frame_len_offset_t) :
    EncodeFrame pme (getJpegEncodingConfig.allocOutput env pme p o).2.2.1 := by
  unfold getJpegEncodingConfig.allocOutput
  simp only []
  repeat' split
  all_goals first
    | exact EncodeFrame.trans (by simp [EncodeFrame]) (on_error_frame _ _ _ _)
    | simp [EncodeFrame]

/-- Function `getJpegEncodingConfig` writes `mUseJpegBurst`, `m_bThumbnailNeeded` and
`m_pJpegOutputMem` only. -/
theorem getJpegEncodingConfig_frame (env : Env) (pme : QCameraPostProcessor)
    (p : mm_jpeg_encode_params_t) (m : QCameraStream) (t : Option QCameraStream) :
    EncodeFrame pme (getJpegEncodingConfig env pme p m t).2.2.1 := by
  unfold getJpegEncodingConfig
  simp only []
  repeat' split
  all_goals first
    | exact EncodeFrame.trans (by simp [EncodeFrame]) (on_error_frame _ _ _ _)
    | exact EncodeFrame.trans (by simp [EncodeFrame]) (allocOutput_frame _ _ _ _)

/-- The `on_error` exit only frees the jpeg output memory. -/
theorem on_error_trace (ret : Int) (p : mm_jpeg_encode_params_t) (pme : QCameraPostProcessor)
    (t : List Event) (ht : ∀ e ∈ t, e.isEncodePrep = true) :
    ∀ e ∈ (getJpegEncodingConfig.on_error ret p pme t).2.2.2, e.isEncodePrep = true := by
  unfold getJpegEncodingConfig.on_error
  split
  · intro e he
    simp only [List.mem_append, List.mem_singleton] at he
    rcases he with he | he
    · exact ht e he
    · subst he; rfl
  · exact ht

/-- The output buffer allocation only frees the jpeg output memory. -/
theorem allocOutput_trace (env : Env) (pme : QCameraPostProcessor)
    (p : mm_jpeg_encode_params_t) (o : cam_frame_len_offset_t) :
    ∀ e ∈ (getJpegEncodingConfig.allocOutput env pme p o).2.2.2, e.isEncodePrep = true := by
  unfold getJpegEncodingConfig.allocOutput
  simp only []
  repeat' split
  all_goals first
    | exact on_error_trace _ _ _ _ (by simp [Event.isEncodePrep])
    | simp [Event.isEncodePrep]

/-- The only calls of `getJpegEncodingConfig` free the jpeg output memory. -/
theorem getJpegEncodingConfig_trace (env : Env) (pme : QCameraPostProcessor)
    (p : mm_jpeg_encode_params_t) (m : QCameraStream) (t : Option QCameraStream) :
    ∀ e ∈ (getJpegEncodingConfig env pme p m t).2.2.2, e.isEncodePrep = true := by
  unfold getJpegEncodingConfig
  simp only []
  repeat' split
  all_goals first
    | exact on_error_trace _ _ _ _ (by simp)
    | exact allocOutput_trace _ _ _ _

/-- A preparatory call is a call `encodeData` can make. -/
theorem isEncodeCall_of_isEncodePrep {e : Event} (h : e.isEncodePrep = true) :
    e.isEncodeCall = true := by
  cases e <;> simp_all [Event.isEncodeCall, Event.isEncodePrep]

/-- The job submission part of `encodeData` keeps the frame of `encodeData`. -/
theorem startJob_sound (env : Env) (pme0 pme : QCameraPostProcessor)
    (job : qcamera_jpeg_data_t) (f : mm_camera_super_buf_t) (main : StreamFrame)
    (thumb : Option StreamFrame) (t : List Event) (hf : EncodeFrame pme0 pme)
    (ht : ∀ e ∈ t, e.isEncodeCall = true) :
    EncodeDataSound pme0 job (encodeData.startJob env pme job f main thumb t) := by
  unfold encodeData.startJob
  constructor
  · exact hf
  · simp only []; split <;> rfl
  · simp only []; split <;> rfl
  · intro e he
    simp only [List.mem_append, List.mem_singleton] at he
    rcases he with he | he
    · exact ht e he
    · subst he; rfl

/-- The session and job part of `encodeData` keeps the frame of `encodeData`. -/
theorem dispatch_sound (env : Env) (pme : QCameraPostProcessor)
    (job : qcamera_jpeg_data_t) (n : Bool) (f : mm_camera_super_buf_t) (main : StreamFrame)
    (thumb : Option StreamFrame) (t : List Event) (ht : ∀ e ∈ t, e.isEncodeCall = true) :
    EncodeDataSound pme job (encodeData.dispatch env pme job n f main thumb t) := by
  have hcfg := getJpegEncodingConfig_frame env pme mm_jpeg_encode_params_t.zero main.1
    (thumb.map Prod.fst)
  have htr := getJpegEncodingConfig_trace env pme mm_jpeg_encode_params_t.zero main.1
    (thumb.map Prod.fst)
  have hf2 : EncodeFrame pme
      { (getJpegEncodingConfig env pme mm_jpeg_encode_params_t.zero main.1
          (thumb.map Prod.fst)).2.2.1 with
        mJpegSessionId := env.mJpegHandle.create_session.2.getD
          (getJpegEncodingConfig env pme mm_jpeg_encode_params_t.zero main.1
            (thumb.map Prod.fst)).2.2.1.mJpegSessionId } :=
    EncodeFrame.trans hcfg (by simp [EncodeFrame])
  have ht2 : ∀ e ∈ t ++ (getJpegEncodingConfig env pme mm_jpeg_encode_params_t.zero main.1
        (thumb.map Prod.fst)).2.2.2 ++
        [Event.create_session pme.mJpegClientHandle
          (getJpegEncodingConfig env pme mm_jpeg_encode_params_t.zero main.1
            (thumb.map Prod.fst)).2.1], e.isEncodeCall = true := by
    intro e he
    simp only [List.mem_append, List.mem_singleton] at he
    rcases he with (he | he) | he
    · exact ht e he
    · exact isEncodeCall_of_isEncodePrep (htr e he)
    · subst he; rfl
  unfold encodeData.dispatch
  simp only []
  split
  · exact ⟨EncodeFrame.refl _, rfl, rfl, ht⟩
  · split
    · split
      · exact ⟨hf2, rfl, rfl, ht2⟩
      · exact startJob_sound env pme _ job f main thumb _ hf2 ht2
    · exact startJob_sound env pme pme job f main thumb t (EncodeFrame.refl _) ht

/-- The raw image callbacks are preparatory calls. -/
theorem rawImageCallbacks_prep (env : Env) (mem : Option camera_memory_t) (i : Nat) :
    ∀ e ∈ rawImageCallbacks env mem i, e.isEncodePrep = true := by
  unfold rawImageCallbacks
  intro e he
  simp only [List.mem_append] at he
  rcases he with he | he
  · split at he
    · simp only [List.mem_singleton] at he; subst he; rfl
    · simp at he
  · split at he
    · simp only [List.mem_singleton] at he; subst he; rfl
    · simp at he

/-- Every return of `encodeData` keeps its frame: the queues, the reprocessing channel
and the frames of the job are as before, and it calls nothing but dumps, raw image
callbacks, memory frees, `create_session` and `start_job`. -/
theorem encodeData_sound (env : Env) (pme : QCameraPostProcessor)
    (job : qcamera_jpeg_data_t) (n : Bool) (r : EncodeDataResult)
    (h : encodeData env pme job n = some r) : EncodeDataSound pme job r := by
  have hfail : ∀ ret : Int, EncodeDataSound pme job
      { ret := ret, job := job, needNewSess := n, pme := pme, trace := [] } :=
    fun ret => ⟨EncodeFrame.refl _, rfl, rfl, by simp⟩
  unfold encodeData at h
  split at h
  · simp at h
  · simp only [] at h
    split at h
    · simp only [Option.some.injEq] at h; subst h; exact hfail _
    · split at h
      · simp only [Option.some.injEq] at h; subst h; exact hfail _
      · split at h
        · simp only [Option.some.injEq] at h; subst h; exact hfail _
        · split at h
          · simp only [Option.some.injEq] at h; subst h; exact hfail _
          · simp only [Option.some.injEq] at h
            subst h
            apply dispatch_sound
            intro e he
            apply isEncodeCall_of_isEncodePrep
            simp only [List.mem_append, List.mem_singleton, List.mem_cons] at he
            rcases he with (he | he) | he
            · rcases he with he | he
              · subst he; rfl
              · simp at he
            · exact rawImageCallbacks_prep _ _ _ e he
            · split at he
              · simp only [List.mem_singleton] at he; subst he; rfl
              · simp at he

/-! ## Releasing and flushing -/

/-- Function `releaseSuperBuf` makes no call into the jpeg interface. -/
theorem releaseSuperBuf_jpegCalls (env : Env) (pme : QCameraPostProcessor)
    (b : Option mm_camera_super_buf_t) :
    (releaseSuperBuf env pme b).filter Event.isJpegCall = [] := by
  unfold releaseSuperBuf
  repeat' split
  all_goals simp [Event.isJpegCall]

/-- Function `releaseJpegJobData` makes no call into the jpeg interface. -/
theorem releaseJpegJobData_jpegCalls (env : Env) (pme : QCameraPostProcessor)
    (job : qcamera_jpeg_data_t) :
    (releaseJpegJobData env pme job).filter Event.isJpegCall = [] := by
  unfold releaseJpegJobData
  simp only [List.filter_append, releaseSuperBuf_jpegCalls, List.nil_append]
  split <;> simp [Event.isJpegCall]

/-- A flush makes no call into the jpeg interface when its release callback makes none. -/
theorem flush_jpegCalls {α : Type} (release : α → List Event)
    (h : ∀ a, (release a).filter Event.isJpegCall = []) (q : List α) :
    (QCameraQueue.flush release q).filter Event.isJpegCall = [] := by
  induction q with
  | nil => rfl
  | cons a q ih => simp [QCameraQueue.flush, List.filter_append, h, ih]

/-- The calls the cancel loop makes into the jpeg interface: one `abort_job` per job, in
queue order. -/
theorem cancelJobs_jpegCalls (env : Env) (pme : QCameraPostProcessor)
    (q : List qcamera_jpeg_data_t) :
    (dataProcessRoutine.cancelJobs env pme q).filter Event.isJpegCall
      = q.map (fun job => Event.abort_job job.jobId) := by
  induction q with
  | nil => rfl
  | cons a q ih =>
    simp [dataProcessRoutine.cancelJobs, List.filter_append, releaseJpegJobData_jpegCalls, ih,
      Event.isJpegCall]

/-- A queue without its head is empty exactly when it held at most one item. -/
theorem tail_eq_nil_iff {α : Type} (q : List α) : q.tail = [] ↔ q.length ≤ 1 := by
  cases q with
  | nil => simp
  | cons a q => cases q <;> simp

/-- A wake-up of the inactive loop runs the inactive case. -/
theorem dataProcessRoutine_inactive (env : Env) (s : PostProcState)
    (hinactive : s.is_active = false) :
    dataProcessRoutine env camera_cmd_type_t.CAMERA_CMD_TYPE_DO_NEXT_JOB s
      = some (dataProcessRoutine.doNextJobInactive env s) := by
  simp [dataProcessRoutine, hinactive]

/-- Function `releaseSuperBuf` reads no member but `m_pReprocChannel`. -/
theorem releaseSuperBuf_congr (env : Env) (pme pme2 : QCameraPostProcessor)
    (h : pme2.m_pReprocChannel = pme.m_pReprocChannel) (b : Option mm_camera_super_buf_t) :
    releaseSuperBuf env pme2 b = releaseSuperBuf env pme b := by
  unfold releaseSuperBuf
  rw [h]

/-- Every call of `releaseSuperBuf` is the return of a buffer. -/
theorem releaseSuperBuf_isRelease (env : Env) (pme : QCameraPostProcessor)
    (b : Option mm_camera_super_buf_t) :
    ∀ e ∈ releaseSuperBuf env pme b, e.isRelease = true := by
  unfold releaseSuperBuf
  repeat' split
  all_goals simp [Event.isRelease]

/-- Function `releaseSuperBuf` makes one call for a buffer and none for `NULL`. -/
theorem releaseSuperBuf_length (env : Env) (pme : QCameraPostProcessor)
    (b : Option mm_camera_super_buf_t) :
    (releaseSuperBuf env pme b).length = b.toList.length := by
  unfold releaseSuperBuf
  repeat' split
  all_goals simp

/-- The return of a buffer is a release. -/
theorem isJobRelease_of_isRelease {e : Event} (h : e.isRelease = true) :
    e.isJobRelease = true := by
  cases e <;> simp_all [Event.isJobRelease, Event.isRelease]

/-- Every call of `releaseJpegJobData` is a release. -/
theorem releaseJpegJobData_isJobRelease (env : Env) (pme : QCameraPostProcessor)
    (job : qcamera_jpeg_data_t) :
    ∀ e ∈ releaseJpegJobData env pme job, e.isJobRelease = true := by
  intro e he
  unfold releaseJpegJobData at he
  simp only [List.mem_append] at he
  rcases he with (he | he) | he
  · exact isJobRelease_of_isRelease (releaseSuperBuf_isRelease _ _ _ e he)
  · exact isJobRelease_of_isRelease (releaseSuperBuf_isRelease _ _ _ e he)
  · split at he
    · simp only [List.mem_singleton] at he; subst he; rfl
    · simp at he

/-- A release is no callback to the notifier. -/
theorem isJobRelease_not_isNotifyCallback (e : Event) (h : e.isJobRelease = true) :
    e.isNotifyCallback = false := by
  cases e <;> simp_all [Event.isJobRelease, Event.isRelease, Event.isNotifyCallback]

/-- A release is no error notification. -/
theorem isJobRelease_not_isErrorNotify (e : Event) (h : e.isJobRelease = true) :
    e.isErrorNotify = false := by
  cases e <;> simp_all [Event.isJobRelease, Event.isRelease, Event.isErrorNotify]

/-- A release is no call of `encodeData`. -/
theorem isJobRelease_not_isEncodeCall (e : Event) (h : e.isJobRelease = true) :
    e.isEncodeCall = false := by
  cases e <;> simp_all [Event.isJobRelease, Event.isRelease, Event.isEncodeCall,
    Event.isEncodePrep]

/-- A list whose items all satisfy `q` has no item satisfying a `p` that excludes `q`. -/
theorem filter_eq_nil_of_forall {p q : Event → Bool} (hpq : ∀ e, q e = true → p e = false)
    {l : List Event} (hl : ∀ e ∈ l, q e = true) : l.filter p = [] := by
  rw [List.filter_eq_nil_iff]
  intro e he
  simp [hpq e (hl e he)]

/-! ## The three parts of an active wake-up -/

/-- Function `encodeData` leaves `m_inputJpegQ` alone. -/
theorem EncodeFrame.inputJpegQ {a b : QCameraPostProcessor} (h : EncodeFrame a b) :
    b.m_inputJpegQ = a.m_inputJpegQ := by
  have := congrArg QCameraPostProcessor.m_inputJpegQ h; simpa using this

/-- Function `encodeData` leaves `m_ongoingJpegQ` alone. -/
theorem EncodeFrame.ongoingJpegQ {a b : QCameraPostProcessor} (h : EncodeFrame a b) :
    b.m_ongoingJpegQ = a.m_ongoingJpegQ := by
  have := congrArg QCameraPostProcessor.m_ongoingJpegQ h; simpa using this

/-- Function `encodeData` leaves `m_inputRawQ` alone. -/
theorem EncodeFrame.inputRawQ {a b : QCameraPostProcessor} (h : EncodeFrame a b) :
    b.m_inputRawQ = a.m_inputRawQ := by
  have := congrArg QCameraPostProcessor.m_inputRawQ h; simpa using this

/-- Function `encodeData` leaves `m_inputPPQ` alone. -/
theorem EncodeFrame.inputPPQ {a b : QCameraPostProcessor} (h : EncodeFrame a b) :
    b.m_inputPPQ = a.m_inputPPQ := by
  have := congrArg QCameraPostProcessor.m_inputPPQ h; simpa using this

/-- Function `encodeData` leaves `m_pReprocChannel` alone. -/
theorem EncodeFrame.reprocChannel {a b : QCameraPostProcessor} (h : EncodeFrame a b) :
    b.m_pReprocChannel = a.m_pReprocChannel := by
  have := congrArg QCameraPostProcessor.m_pReprocChannel h; simpa using this

/-- Function `encodeData` leaves `mJpegClientHandle` alone. -/
theorem EncodeFrame.clientHandle {a b : QCameraPostProcessor} (h : EncodeFrame a b) :
    b.mJpegClientHandle = a.mJpegClientHandle := by
  have := congrArg QCameraPostProcessor.mJpegClientHandle h; simpa using this

/-- Function `encodeData` returns whenever the source frame of the job is set. -/
theorem encodeData_returns (env : Env) (pme : QCameraPostProcessor)
    (job : qcamera_jpeg_data_t) (n : Bool) (h : job.src_frame ≠ none) :
    ∃ r, encodeData env pme job n = some r := by
  unfold encodeData
  split
  · contradiction
  · simp only []
    repeat' split
    all_goals exact ⟨_, rfl⟩

/-- The encode part of a wake-up: it returns whenever the job at the head of
`m_inputJpegQ` has its source frame set, takes that job off `m_inputJpegQ` and
leaves the other input queues alone. -/
theorem doEncode_queues (env : Env) (s : PostProcState)
    (hwf : ∀ job, s.pme.m_inputJpegQ.head? = some job → job.src_frame ≠ none) :
    ∃ r1, dataProcessRoutine.doEncode env s = some r1 ∧
      r1.1.pme.m_inputJpegQ = s.pme.m_inputJpegQ.drop 1 ∧
      r1.1.pme.m_inputRawQ = s.pme.m_inputRawQ ∧
      r1.1.pme.m_inputPPQ = s.pme.m_inputPPQ := by
  unfold dataProcessRoutine.doEncode
  cases hq : s.pme.m_inputJpegQ with
  | nil => exact ⟨_, rfl, by simp [hq], rfl, rfl⟩
  | cons job rest =>
    obtain ⟨r, hr⟩ := encodeData_returns env
      { s.pme with m_inputJpegQ := rest,
                   m_ongoingJpegQ := QCameraQueue.enqueue s.pme.m_ongoingJpegQ job }
      job s.needNewSess (hwf job (by simp [hq]))
    have hs := (encodeData_sound _ _ _ _ _ hr).frame
    simp only [QCameraQueue.dequeue, if_true, List.head?_cons, List.tail_cons, hr]
    split
    · exact ⟨_, rfl, by simpa using hs.inputJpegQ, by simpa using hs.inputRawQ,
        by simpa using hs.inputPPQ⟩
    · exact ⟨_, rfl, by simpa using hs.inputJpegQ, by simpa using hs.inputRawQ,
        by simpa using hs.inputPPQ⟩

/-- Function `processRawImageImpl` writes no member but `mRawBurstCount`. -/
theorem processRawImageImpl_frame (env : Env) (pme : QCameraPostProcessor)
    (f : mm_camera_super_buf_t) :
    (processRawImageImpl env pme f).2.1
      = { pme with mRawBurstCount := (processRawImageImpl env pme f).2.1.mRawBurstCount } := by
  unfold processRawImageImpl
  simp only []
  repeat' split
  all_goals rfl

/-- The raw part of a wake-up takes the head off `m_inputRawQ` and leaves the other
queues alone. -/
theorem doRaw_queues (env : Env) (s : PostProcState) :
    (dataProcessRoutine.doRaw env s).1.pme.m_inputJpegQ = s.pme.m_inputJpegQ ∧
    (dataProcessRoutine.doRaw env s).1.pme.m_inputRawQ = s.pme.m_inputRawQ.drop 1 ∧
    (dataProcessRoutine.doRaw env s).1.pme.m_inputPPQ = s.pme.m_inputPPQ ∧
    (dataProcessRoutine.doRaw env s).1.pme.m_ongoingJpegQ = s.pme.m_ongoingJpegQ := by
  unfold dataProcessRoutine.doRaw
  cases hq : s.pme.m_inputRawQ with
  | nil => simp [QCameraQueue.dequeue, hq]
  | cons f rest =>
    simp only [QCameraQueue.dequeue, if_true, List.head?_cons, List.tail_cons]
    have h := processRawImageImpl_frame env { s.pme with m_inputRawQ := rest } f
    split <;> (simp only []; rw [h]; simp)

/-- The reprocess part of a wake-up takes the head off `m_inputPPQ` and leaves the
other input queues and `m_ongoingJpegQ` alone. -/
theorem doReproc_queues (env : Env) (s : PostProcState) :
    (dataProcessRoutine.doReproc env s).1.pme.m_inputJpegQ = s.pme.m_inputJpegQ ∧
    (dataProcessRoutine.doReproc env s).1.pme.m_inputRawQ = s.pme.m_inputRawQ ∧
    (dataProcessRoutine.doReproc env s).1.pme.m_inputPPQ = s.pme.m_inputPPQ.drop 1 ∧
    (dataProcessRoutine.doReproc env s).1.pme.m_ongoingJpegQ = s.pme.m_ongoingJpegQ := by
  unfold dataProcessRoutine.doReproc
  cases hq : s.pme.m_inputPPQ with
  | nil => simp [QCameraQueue.dequeue, hq]
  | cons f rest =>
    simp only [QCameraQueue.dequeue, if_true, List.head?_cons, List.tail_cons]
    repeat' split
    all_goals simp

/-- A call of `encodeData` returns no buffer. -/
theorem isEncodeCall_not_isRelease (e : Event) (h : e.isEncodeCall = true) :
    e.isRelease = false := by
  cases e <;> simp_all [Event.isRelease, Event.isEncodeCall, Event.isEncodePrep]

/-- A call of `encodeData` is no error notification. -/
theorem isEncodeCall_not_isErrorNotify (e : Event) (h : e.isEncodeCall = true) :
    e.isErrorNotify = false := by
  cases e <;> simp_all [Event.isErrorNotify, Event.isEncodeCall, Event.isEncodePrep]

/-- All calls of `releaseSuperBuf` are returns of a buffer. -/
theorem releaseSuperBuf_filter_isRelease (env : Env) (pme : QCameraPostProcessor)
    (b : Option mm_camera_super_buf_t) :
    (releaseSuperBuf env pme b).filter Event.isRelease = releaseSuperBuf env pme b := by
  rw [List.filter_eq_self]
  exact releaseSuperBuf_isRelease env pme b

/-- The buffers `releaseJpegJobData` returns: the pre-reprocess frame, then the source
frame. -/
theorem releaseJpegJobData_filter_isRelease (env : Env) (pme : QCameraPostProcessor)
    (job : qcamera_jpeg_data_t) :
    (releaseJpegJobData env pme job).filter Event.isRelease
      = releaseSuperBuf env pme job.src_reproc_frame ++ releaseSuperBuf env pme job.src_frame := by
  unfold releaseJpegJobData
  simp only [List.filter_append, releaseSuperBuf_filter_isRelease]
  split <;> simp [Event.isRelease]

/-- The encode part of a wake-up when `encodeData` fails on the job `J`. -/
theorem doEncode_failure (env : Env) (s : PostProcState)
    (J : qcamera_jpeg_data_t) (rest : List qcamera_jpeg_data_t) (r : EncodeDataResult)
    (hq : s.pme.m_inputJpegQ = J :: rest)
    (henc : encodeData env
      { s.pme with m_inputJpegQ := rest,
                   m_ongoingJpegQ := QCameraQueue.enqueue s.pme.m_ongoingJpegQ J }
      J s.needNewSess = some r)
    (hret : r.ret ≠ NO_ERROR) :
    ∃ s1 t1,
      dataProcessRoutine.doEncode env s = some (s1, t1) ∧
      s1.pme.m_ongoingJpegQ = s.pme.m_ongoingJpegQ ∧
      t1.filter Event.isRelease
        = releaseSuperBuf env s.pme J.src_reproc_frame ++ releaseSuperBuf env s.pme J.src_frame ∧
      t1.filter Event.isErrorNotify
        = [Event.sendEvtNotify camera_msg_t.CAMERA_MSG_ERROR UNKNOWN_ERROR 0] := by
  have hs := encodeData_sound _ _ _ _ _ henc
  have hne : (r.ret != NO_ERROR) = true := by simpa using hret
  have hong : (r.pme.m_ongoingJpegQ.dropLast ++ [r.job]).dropLast = s.pme.m_ongoingJpegQ := by
    rw [hs.frame.ongoingJpegQ]
    simp [QCameraQueue.enqueue]
  have hrel : ∀ b, releaseSuperBuf env
      { r.pme with m_ongoingJpegQ := (r.pme.m_ongoingJpegQ.dropLast ++ [r.job]).dropLast } b
      = releaseSuperBuf env s.pme b := by
    intro b
    apply releaseSuperBuf_congr
    simpa using hs.frame.reprocChannel
  refine ⟨{ s with
          pme := { r.pme with m_ongoingJpegQ := (r.pme.m_ongoingJpegQ.dropLast ++ [r.job]).dropLast },
          needNewSess := r.needNewSess },
        r.trace ++ releaseJpegJobData env
            { r.pme with m_ongoingJpegQ := (r.pme.m_ongoingJpegQ.dropLast ++ [r.job]).dropLast }
            r.job
          ++ sendEvtNotify camera_msg_t.CAMERA_MSG_ERROR UNKNOWN_ERROR 0, ?_, hong, ?_, ?_⟩
  · unfold dataProcessRoutine.doEncode
    simp only [QCameraQueue.dequeue, hq, if_true, List.head?_cons, List.tail_cons, henc, hne]
    simp
  · simp only [List.filter_append, releaseJpegJobData_filter_isRelease,
      filter_eq_nil_of_forall isEncodeCall_not_isRelease hs.calls, hrel, hs.src_frame,
      hs.src_reproc_frame]
    simp [sendEvtNotify, Event.isRelease]
  · simp only [List.filter_append,
      filter_eq_nil_of_forall isEncodeCall_not_isErrorNotify hs.calls,
      filter_eq_nil_of_forall isJobRelease_not_isErrorNotify
        (releaseJpegJobData_isJobRelease env _ r.job)]
    simp [sendEvtNotify, Event.isErrorNotify]

/-- The two ways `encodeData` returns: before any call is made, or through
`encodeData.dispatch` after the frame dumps and raw image callbacks. -/
theorem encodeData_cases (env : Env) (pme : QCameraPostProcessor)
    (job : qcamera_jpeg_data_t) (n : Bool) (r : EncodeDataResult)
    (h : encodeData env pme job n = some r) :
    r.trace = [] ∨
    ∃ f main thumb t, (∀ e ∈ t, e.isEncodePrep = true) ∧
      r = encodeData.dispatch env pme job n f main thumb t := by
  unfold encodeData at h
  split at h
  · simp at h
  · simp only [] at h
    split at h
    · simp only [Option.some.injEq] at h; subst h; exact Or.inl rfl
    · split at h
      · simp only [Option.some.injEq] at h; subst h; exact Or.inl rfl
      · split at h
        · simp only [Option.some.injEq] at h; subst h; exact Or.inl rfl
        · split at h
          · simp only [Option.some.injEq] at h; subst h; exact Or.inl rfl
          · simp only [Option.some.injEq] at h
            refine Or.inr ⟨_, _, _, _, ?_, h.symm⟩
            intro e he
            simp only [List.mem_append, List.mem_singleton, List.mem_cons] at he
            rcases he with (he | he) | he
            · rcases he with he | he
              · subst he; rfl
              · simp at he
            · exact rawImageCallbacks_prep _ _ _ e he
            · split at he
              · simp only [List.mem_singleton] at he; subst he; rfl
              · simp at he

/-- With `needNewSess` set and a valid client handle, `encodeData.dispatch` calls
`create_session`. -/
theorem dispatch_calls_create_session (env : Env) (pme : QCameraPostProcessor)
    (job : qcamera_jpeg_data_t) (f : mm_camera_super_buf_t) (main : StreamFrame)
    (thumb : Option StreamFrame) (t : List Event) (hc : pme.mJpegClientHandle ≠ 0) :
    Event.create_session pme.mJpegClientHandle
        (getJpegEncodingConfig env pme mm_jpeg_encode_params_t.zero main.1
          (thumb.map Prod.fst)).2.1
      ∈ (encodeData.dispatch env pme job true f main thumb t).trace := by
  simp only [encodeData.dispatch, hc, if_false, if_true]
  split
  · simp
  · simp [encodeData.startJob]

/-! ## Completion events -/

/-- Function `flushNodes` on a queue without a match releases nothing and keeps the
queue. -/
theorem flushNodes_no_match {α : Type} (release : α → List Event) (isMatch : α → Bool)
    (q : List α) (h : ∀ a ∈ q, isMatch a = false) :
    QCameraQueue.flushNodes release isMatch q = ([], q) := by
  induction q with
  | nil => rfl
  | cons a q ih =>
    have ha : isMatch a = false := h a (by simp)
    have hq := ih (fun b hb => h b (by simp [hb]))
    simp [QCameraQueue.flushNodes, ha, hq]

/-- Delivering a buffer that carries no frame releases no job. -/
theorem sendDataNotify_no_release (env : Env) (pme : QCameraPostProcessor)
    (msg : camera_msg_t) (mem : camera_memory_t) :
    (∀ e ∈ (sendDataNotify env pme msg (some mem) 0
        (some { data := some mem, frame := none, streamBufs := none, unlinkFile := false })).2,
      e.isJobRelease = false) := by
  unfold sendDataNotify
  simp only []
  repeat' split
  all_goals simp [releaseNotifyData, releaseSuperBuf, Event.isJobRelease, Event.isRelease]

/-- An event handled inline that matches no ongoing job: the object is left as it
is and the calls are those of the delivery. -/
theorem processJpegEvt_unmatched (env : Env) (pme : QCameraPostProcessor)
    (evt : qcamera_jpeg_evt_payload_t)
    (hinit : pme.m_bInited = true)
    (hinline : (pme.mUseSaveProc && env.m_parent.isLongshotEnabled) = false)
    (hnomatch : ∀ job ∈ pme.m_ongoingJpegQ, job.jobId ≠ evt.jobId) :
    processJpegEvt env pme evt
      = ((processJpegEvt.deliver env pme evt).1, pme,
          (processJpegEvt.deliver env pme evt).2.2
            ++ processJpegEvt.onEnd (processJpegEvt.deliver env pme evt)
            ++ [Event.sendCmd CmdThread.m_dataProcTh
                  camera_cmd_type_t.CAMERA_CMD_TYPE_DO_NEXT_JOB false false]) := by
  have hfl : QCameraQueue.flushNodes (releaseJpegData env pme) (matchJobId evt.jobId)
      pme.m_ongoingJpegQ = ([], pme.m_ongoingJpegQ) :=
    flushNodes_no_match _ _ _ (fun job hj => by simpa [matchJobId] using hnomatch job hj)
  unfold processJpegEvt
  rw [if_neg (by simp [hinit]), if_neg (by simp [hinline])]
  simp only [hfl, List.nil_append]

/-- The delivery part of `processJpegEvt` releases no job. -/
theorem deliver_no_release (env : Env) (pme : QCameraPostProcessor)
    (evt : qcamera_jpeg_evt_payload_t) :
    ∀ e ∈ (processJpegEvt.deliver env pme evt).2.2, e.isJobRelease = false := by
  unfold processJpegEvt.deliver
  simp only []
  repeat' split
  all_goals first
    | (intro e he
       simp only [List.mem_append, List.mem_singleton] at he
       rcases he with he | he
       · subst he; rfl
       · exact sendDataNotify_no_release _ _ _ _ e he)
    | simp [Event.isJobRelease, Event.isRelease]

/-- The label `end` of `processJpegEvt` releases no job. -/
theorem onEnd_no_release (d : Int × Option camera_memory_t × List Event) :
    ∀ e ∈ processJpegEvt.onEnd d, e.isJobRelease = false := by
  unfold processJpegEvt.onEnd
  repeat' split
  all_goals simp [sendEvtNotify, Event.isJobRelease, Event.isRelease]

/-! ## Runs never reach the null dereference -/

/-- The entry point `start` leaves `m_inputJpegQ` alone. -/
theorem start_inputJpegQ (env : Env) (pme : QCameraPostProcessor) :
    (start env pme).2.1.m_inputJpegQ = pme.m_inputJpegQ := by
  unfold start
  simp only []
  repeat' split
  all_goals rfl

/-- The entry point `processRawData` leaves `m_inputJpegQ` alone. -/
theorem processRawData_inputJpegQ (pme : QCameraPostProcessor) (f : mm_camera_super_buf_t) :
    (processRawData pme f).2.1.m_inputJpegQ = pme.m_inputJpegQ := by
  unfold processRawData
  split <;> rfl

/-- The entry point `processData` leaves `m_inputJpegQ` alone or appends a job whose
source frame is set. -/
theorem processData_inputJpegQ (env : Env) (pme : QCameraPostProcessor)
    (f : mm_camera_super_buf_t) :
    (processData env pme f).2.1.m_inputJpegQ = pme.m_inputJpegQ ∨
    ∃ job, job.src_frame ≠ none ∧
      (processData env pme f).2.1.m_inputJpegQ = pme.m_inputJpegQ ++ [job] := by
  unfold processData
  simp only []
  repeat' split
  all_goals first
    | exact Or.inl rfl
    | exact Or.inl (processRawData_inputJpegQ _ _)
    | exact Or.inr ⟨_, by simp, rfl⟩

/-- The entry point `processPPData` leaves `m_inputJpegQ` alone or appends a job whose
source frame is set. -/
theorem processPPData_inputJpegQ (env : Env) (pme : QCameraPostProcessor)
    (f : mm_camera_super_buf_t) :
    (processPPData env pme f).2.1.m_inputJpegQ = pme.m_inputJpegQ ∨
    ∃ job, job.src_frame ≠ none ∧
      (processPPData env pme f).2.1.m_inputJpegQ = pme.m_inputJpegQ ++ [job] := by
  unfold processPPData
  simp only []
  repeat' split
  all_goals first
    | exact Or.inl rfl
    | exact Or.inl (processRawData_inputJpegQ _ _)
    | exact Or.inr ⟨_, by simp, rfl⟩

/-- The entry point `processJpegEvt` leaves `m_inputJpegQ` alone. -/
theorem processJpegEvt_inputJpegQ (env : Env) (pme : QCameraPostProcessor)
    (evt : qcamera_jpeg_evt_payload_t) :
    (processJpegEvt env pme evt).2.1.m_inputJpegQ = pme.m_inputJpegQ := by
  unfold processJpegEvt
  simp only []
  repeat' split
  all_goals rfl

/-- The save loop leaves `m_inputJpegQ` alone. -/
theorem dataSaveRoutine_inputJpegQ (env : Env) (cmd : camera_cmd_type_t) (s : PostProcState) :
    (dataSaveRoutine env cmd s).1.pme.m_inputJpegQ = s.pme.m_inputJpegQ := by
  cases cmd <;> simp only [dataSaveRoutine, dataSaveRoutine.stop, dataSaveRoutine.doNextJob]
  repeat' split
  all_goals rfl

/-- The property is kept when the encode-input queue is unchanged. -/
theorem InputJobsHaveFrame.of_eq {s r : PostProcState} (h : InputJobsHaveFrame s)
    (he : r.pme.m_inputJpegQ = s.pme.m_inputJpegQ) : InputJobsHaveFrame r := by
  unfold InputJobsHaveFrame; rw [he]; exact h

/-- The property is kept when the encode-input queue loses its head. -/
theorem InputJobsHaveFrame.of_drop {s r : PostProcState} (h : InputJobsHaveFrame s)
    (he : r.pme.m_inputJpegQ = s.pme.m_inputJpegQ.drop 1) : InputJobsHaveFrame r := by
  unfold InputJobsHaveFrame; rw [he]
  exact fun job hj => h job (List.mem_of_mem_drop hj)

/-- The property is kept when a job with a source frame is appended. -/
theorem InputJobsHaveFrame.of_append {s r : PostProcState} (h : InputJobsHaveFrame s)
    (he : r.pme.m_inputJpegQ = s.pme.m_inputJpegQ ∨
      ∃ job, job.src_frame ≠ none ∧ r.pme.m_inputJpegQ = s.pme.m_inputJpegQ ++ [job]) :
    InputJobsHaveFrame r := by
  rcases he with he | ⟨job, hj, he⟩
  · exact h.of_eq he
  · unfold InputJobsHaveFrame; rw [he]
    intro j hin
    simp only [List.mem_append, List.mem_singleton] at hin
    rcases hin with hin | hin
    · exact h j hin
    · subst hin; exact hj

/-- Every action returns on a state whose queued encode jobs have their source
frame set, and leaves such a state. -/
theorem apply_returns (env : Env) (s : PostProcState) (a : Action)
    (h : InputJobsHaveFrame s) :
    ∃ r, a.apply env s = some r ∧ InputJobsHaveFrame r.1 := by
  cases a with
  | start => exact ⟨_, rfl, h.of_eq (start_inputJpegQ env s.pme)⟩
  | processData f => exact ⟨_, rfl, h.of_append (processData_inputJpegQ env s.pme f)⟩
  | processRawData f => exact ⟨_, rfl, h.of_eq (processRawData_inputJpegQ s.pme f)⟩
  | processPPData f => exact ⟨_, rfl, h.of_append (processPPData_inputJpegQ env s.pme f)⟩
  | processJpegEvt evt => exact ⟨_, rfl, h.of_eq (processJpegEvt_inputJpegQ env s.pme evt)⟩
  | dataSave cmd => exact ⟨_, rfl, h.of_eq (dataSaveRoutine_inputJpegQ env cmd s)⟩
  | dataProc cmd =>
    cases cmd with
    | CAMERA_CMD_TYPE_NONE => exact ⟨_, rfl, h⟩
    | CAMERA_CMD_TYPE_EXIT => exact ⟨_, rfl, h⟩
    | CAMERA_CMD_TYPE_START_DATA_PROC => exact ⟨_, rfl, h.of_eq rfl⟩
    | CAMERA_CMD_TYPE_STOP_DATA_PROC =>
      refine ⟨_, rfl, ?_⟩
      intro job hj
      simp [dataProcessRoutine.stop] at hj
    | CAMERA_CMD_TYPE_DO_NEXT_JOB =>
      cases hact : s.is_active with
      | true =>
        have hwf : ∀ job, s.pme.m_inputJpegQ.head? = some job → job.src_frame ≠ none :=
          fun job hj => h job (List.mem_of_mem_head? hj)
        obtain ⟨r1, h1, hj1, -, -⟩ := doEncode_queues env s hwf
        refine ⟨((dataProcessRoutine.doReproc env (dataProcessRoutine.doRaw env r1.1).1).1,
            r1.2 ++ (dataProcessRoutine.doRaw env r1.1).2
              ++ (dataProcessRoutine.doReproc env (dataProcessRoutine.doRaw env r1.1).1).2),
          by simp only [Action.apply, dataProcessRoutine, hact, if_true,
            dataProcessRoutine.doNextJobActive, h1], ?_⟩
        apply h.of_drop
        rw [(doReproc_queues env _).1, (doRaw_queues env _).1, hj1]
      | false =>
        refine ⟨_, dataProcessRoutine_inactive env s hact, ?_⟩
        apply h.of_drop
        simp [dataProcessRoutine.doNextJobInactive, QCameraQueue.dequeue]

/-- Every run from a state whose queued encode jobs have their source frame set
returns: the null dereference of `encodeData` is never reached. -/
theorem run_returns (acts : List (Env × Action)) :
    ∀ s, InputJobsHaveFrame s → ∃ r, run s acts = some r ∧ InputJobsHaveFrame r.1 := by
  induction acts with
  | nil => exact fun s h => ⟨_, rfl, h⟩
  | cons ea rest ih =>
    intro s h
    obtain ⟨r, hr, hi⟩ := apply_returns ea.1 s ea.2 h
    obtain ⟨r2, hr2, hi2⟩ := ih r.1 hi
    exact ⟨(r2.1, r.2 ++ r2.2), by simp [run, hr, hr2], hi2⟩

/-- Every run of a freshly launched post processor returns. -/
theorem run_launched_returns (env : Env) (acts : List (Env × Action)) :
    ∃ r, run (PostProcState.launch (init env QCameraPostProcessor.new).2) acts = some r ∧
      InputJobsHaveFrame r.1 := by
  apply run_returns
  intro job hj
  simp only [PostProcState.launch, init, QCameraPostProcessor.new] at hj
  split at hj <;> simp at hj

/-! ## Completion events with delivery enabled -/

/-- With JPEG delivery enabled, the delivery part of `processJpegEvt` hands a
callback to the notifier or ends with an error status. -/
theorem deliver_enabled (env : Env) (pme : QCameraPostProcessor)
    (evt : qcamera_jpeg_evt_payload_t)
    (hen : (env.m_parent.mDataCb &&
      env.m_parent.msgTypeEnabledWithLock camera_msg_t.CAMERA_MSG_COMPRESSED_IMAGE) = true) :
    (∃ cbArg, Event.notifyCallback cbArg ∈ (processJpegEvt.deliver env pme evt).2.2) ∨
    (processJpegEvt.deliver env pme evt).1 ≠ NO_ERROR := by
  have hdis : (!env.m_parent.mDataCb ||
      !env.m_parent.msgTypeEnabledWithLock camera_msg_t.CAMERA_MSG_COMPRESSED_IMAGE) = false := by
    cases h1 : env.m_parent.mDataCb <;>
      cases h2 : env.m_parent.msgTypeEnabledWithLock camera_msg_t.CAMERA_MSG_COMPRESSED_IMAGE <;>
      simp_all
  unfold processJpegEvt.deliver
  simp only [hdis, Bool.false_eq_true, if_false]
  split
  · exact Or.inr (by simp [FAILED_TRANSACTION, NO_ERROR])
  · split
    · exact Or.inr (by simp [NO_MEMORY, NO_ERROR])
    · simp only [sendDataNotify]
      split
      · exact Or.inr (by simp [NO_MEMORY, NO_ERROR])
      · split
        · exact Or.inl ⟨_, List.mem_append_right _ (List.mem_cons_self _ _)⟩
        · exact Or.inl ⟨_, List.mem_append_right _ (List.mem_cons_self _ _)⟩

/-! ## The path of `encodeData` to the job descriptor -/

/-- A return of `encodeData` that made a call went through all the frame checks: the
channel of the source frame resolves, the scan of the source frame found a main
frame with a memory object, the thumbnail is the one of the source frame or,
when it has none and the pre-reprocess frame is set, the one found in that frame
of a channel the HAL object resolves; the rest is `encodeData.dispatch`. -/
theorem encodeData_dispatched (env : Env) (pme : QCameraPostProcessor)
    (job : qcamera_jpeg_data_t) (n : Bool) (r : EncodeDataResult)
    (h : encodeData env pme job n = some r) (hne : r.trace ≠ []) :
    ∃ f pChannel main thumb memObj,
      job.src_frame = some f ∧
      Resolves env pme f.ch_id pChannel ∧
      (f.bufs.foldl (encodeData.scanBuf pChannel) (none, none)).1 = some main ∧
      main.2.mem_info = some memObj ∧
      (((f.bufs.foldl (encodeData.scanBuf pChannel) (none, none)).2 ≠ none ∧
          thumb = (f.bufs.foldl (encodeData.scanBuf pChannel) (none, none)).2) ∨
       ((f.bufs.foldl (encodeData.scanBuf pChannel) (none, none)).2 = none ∧
          job.src_reproc_frame = none ∧ thumb = none) ∨
       ((f.bufs.foldl (encodeData.scanBuf pChannel) (none, none)).2 = none ∧
          ∃ g ch, job.src_reproc_frame = some g ∧
            env.m_parent.getChannelByHandle g.ch_id = some ch ∧
            thumb = g.bufs.foldl (encodeData.scanReprocBuf ch) none)) ∧
      r = encodeData.dispatch env pme job n f main thumb
            (encodeData.prepTrace env main memObj thumb) := by
  unfold encodeData at h
  split at h
  · simp at h
  · rename_i f hf
    simp only [] at h
    split at h
    · simp only [Option.some.injEq] at h; subst h; exact absurd rfl hne
    · rename_i pChannel hch
      split at h
      · simp only [Option.some.injEq] at h; subst h; exact absurd rfl hne
      · rename_i main hmain
        split at h
        · simp only [Option.some.injEq] at h; subst h; exact absurd rfl hne
        · rename_i thumb hthumb
          split at h
          · simp only [Option.some.injEq] at h; subst h; exact absurd rfl hne
          · rename_i memObj hmem
            simp only [Option.some.injEq] at h
            refine ⟨f, pChannel, main, thumb, memObj, hf, ?_, hmain, hmem, ?_, h.symm⟩
            · unfold Resolves
              split at hch
              · rename_i c hc
                simp only [Option.some.injEq] at hch
                subst hch; exact Or.inl hc
              · rename_i hc
                split at hch
                · rename_i rc hrc
                  split at hch
                  · rename_i heq
                    simp only [Option.some.injEq] at hch
                    subst hch
                    exact Or.inr ⟨hc, hrc, by simpa using heq⟩
                  · simp at hch
                · simp at hch
            · split at hthumb
              · rename_i g hf2 hg
                split at hthumb
                · simp at hthumb
                · rename_i ch hch2
                  simp only [Option.some.injEq] at hthumb
                  exact Or.inr (Or.inr ⟨hf2, g, ch, hg, hch2, hthumb.symm⟩)
              · rename_i t x hnot
                simp only [Option.some.injEq] at hthumb
                by_cases hp : (f.bufs.foldl (encodeData.scanBuf pChannel) (none, none)).2 = none
                · refine Or.inr (Or.inl ⟨hp, ?_, by rw [← hthumb, hp]⟩)
                  cases hg : job.src_reproc_frame with
                  | none => rfl
                  | some g => exact absurd hg (fun hg => hnot g hp hg)
                · exact Or.inl ⟨hp, hthumb.symm⟩

/-- The calls before the `mJpegClientHandle` test are preparatory calls. -/
theorem prepTrace_prep (env : Env) (main : StreamFrame) (memObj : QCameraMemory)
    (thumb : Option StreamFrame) :
    ∀ e ∈ encodeData.prepTrace env main memObj thumb, e.isEncodePrep = true := by
  intro e he
  simp only [encodeData.prepTrace, List.mem_append, List.mem_singleton, List.mem_cons] at he
  rcases he with (he | he) | he
  · rcases he with he | he
    · subst he; rfl
    · simp at he
  · exact rawImageCallbacks_prep _ _ _ e he
  · split at he
    · simp only [List.mem_singleton] at he; subst he; rfl
    · simp at he

/-- A job descriptor that `encodeData.dispatch` hands to `start_job` is the one
`encodeData.fillJob` builds on the object the dispatch leaves, and the
new-session flag is then cleared. -/
theorem dispatch_start_job (env : Env) (pme : QCameraPostProcessor)
    (job : qcamera_jpeg_data_t) (n : Bool) (f : mm_camera_super_buf_t) (main : StreamFrame)
    (thumb : Option StreamFrame) (t : List Event) (ht : ∀ e ∈ t, e.isEncodePrep = true)
    (j : mm_jpeg_encode_job_t)
    (hj : Event.start_job j ∈ (encodeData.dispatch env pme job n f main thumb t).trace) :
    j = encodeData.fillJob env (encodeData.dispatch env pme job n f main thumb t).pme job f
          main thumb ∧
    (encodeData.dispatch env pme job n f main thumb t).needNewSess = false := by
  have hcfg := getJpegEncodingConfig_trace env pme mm_jpeg_encode_params_t.zero main.1
    (thumb.map Prod.fst)
  have hnot : ∀ l : List Event, (∀ e ∈ l, e.isEncodePrep = true) → Event.start_job j ∉ l :=
    fun l hl hm => by have := hl _ hm; simp [Event.isEncodePrep] at this
  unfold encodeData.dispatch at hj ⊢
  simp only [] at hj ⊢
  split
  · rename_i hc
    rw [if_pos hc] at hj
    exact absurd hj (hnot _ ht)
  · rename_i hc
    rw [if_neg hc] at hj
    split
    · rename_i hn
      rw [if_pos hn] at hj
      split
      · rename_i hr
        rw [if_pos hr] at hj
        simp only [List.mem_append, List.mem_singleton] at hj
        rcases hj with (hj | hj) | hj
        · exact absurd hj (hnot _ ht)
        · exact absurd hj (hnot _ hcfg)
        · simp at hj
      · rename_i hr
        rw [if_neg hr] at hj
        simp only [encodeData.startJob, List.mem_append, List.mem_singleton] at hj ⊢
        rcases hj with ((hj | hj) | hj) | hj
        · exact absurd hj (hnot _ ht)
        · exact absurd hj (hnot _ hcfg)
        · simp at hj
        · simp only [Event.start_job.injEq] at hj
          exact ⟨hj, trivial⟩
    · rename_i hn
      rw [if_neg hn] at hj
      simp only [encodeData.startJob, List.mem_append, List.mem_singleton] at hj ⊢
      rcases hj with hj | hj
      · exact absurd hj (hnot _ ht)
      · simp only [Event.start_job.injEq] at hj
        exact ⟨hj, trivial⟩

/-! ## The frame scans of `encodeData` -/

/-- The loop over the source frame leaves, in each slot, the last buffer of the
frame whose stream the slot accepts, and the slot as it was when there is none. -/
theorem foldl_scanBuf (ch : QCameraChannel) (bufs : List mm_camera_buf_def_t)
    (acc : Option StreamFrame × Option StreamFrame) :
    bufs.foldl (encodeData.scanBuf ch) acc =
      ((lastBufOf ch isMainStream bufs).or acc.1, (lastBufOf ch isThumbStream bufs).or acc.2) := by
  induction bufs generalizing acc with
  | nil => simp [lastBufOf]
  | cons buf rest ih =>
    rw [List.foldl_cons, ih]
    simp only [lastBufOf]
    cases h1 : lastBufOf ch isMainStream rest <;> cases h2 : lastBufOf ch isThumbStream rest <;>
      simp only [encodeData.scanBuf, isMainStream, isThumbStream, Option.or_some,
        Option.none_or, Option.or, Option.or_none] <;>
      cases h3 : ch.getStreamByHandle buf.stream_id <;> simp only [Option.none_or] <;>
      repeat' split <;> simp_all

/-- The loop over the pre-reprocess frame leaves the last buffer of that frame whose
stream is of preview or postview type, and the slot as it was when there is none. -/
theorem foldl_scanReprocBuf (ch : QCameraChannel) (bufs : List mm_camera_buf_def_t)
    (acc : Option StreamFrame) :
    bufs.foldl (encodeData.scanReprocBuf ch) acc =
      (lastBufOf ch isReprocThumbStream bufs).or acc := by
  induction bufs generalizing acc with
  | nil => simp [lastBufOf]
  | cons buf rest ih =>
    rw [List.foldl_cons, ih]
    simp only [lastBufOf]
    cases h1 : lastBufOf ch isReprocThumbStream rest with
    | some x => rfl
    | none =>
      simp only [encodeData.scanReprocBuf, isReprocThumbStream, Option.none_or]
      cases h3 : ch.getStreamByHandle buf.stream_id with
      | none => rfl
      | some st =>
        simp only []
        split <;> rfl

/-- When no stream of the channel accepted by `p` owns a buffer of the list, there is
no last such buffer. -/
theorem lastBufOf_eq_none (ch : QCameraChannel) (p : QCameraStream → Bool)
    (bufs : List mm_camera_buf_def_t)
    (h : ∀ buf ∈ bufs, ∀ s, ch.getStreamByHandle buf.stream_id = some s → p s = false) :
    lastBufOf ch p bufs = none := by
  induction bufs with
  | nil => rfl
  | cons buf rest ih =>
    have h1 := ih (fun b hb => h b (List.mem_cons_of_mem _ hb))
    have h2 := h buf (List.mem_cons_self _ _)
    simp only [lastBufOf, h1]
    cases h3 : ch.getStreamByHandle buf.stream_id with
    | none => rfl
    | some s => simp [h2 s h3]

/-- The last buffer accepted is a buffer of the list, and its stream is the one the
channel finds for it and is accepted. -/
theorem lastBufOf_some (ch : QCameraChannel) (p : QCameraStream → Bool)
    (bufs : List mm_camera_buf_def_t) (x : StreamFrame) (h : lastBufOf ch p bufs = some x) :
    x.2 ∈ bufs ∧ ch.getStreamByHandle x.2.stream_id = some x.1 ∧ p x.1 = true := by
  induction bufs with
  | nil => simp [lastBufOf] at h
  | cons buf rest ih =>
    simp only [lastBufOf] at h
    cases h1 : lastBufOf ch p rest with
    | some y =>
      rw [h1] at h
      simp only [Option.some.injEq] at h
      subst h
      have := ih h1
      exact ⟨List.mem_cons_of_mem _ this.1, this.2⟩
    | none =>
      rw [h1] at h
      simp only at h
      cases h3 : ch.getStreamByHandle buf.stream_id with
      | none => rw [h3] at h; simp at h
      | some s =>
        rw [h3] at h
        simp only at h
        split at h
        · rename_i hp
          simp only [Option.some.injEq] at h
          subst h
          exact ⟨List.mem_cons_self _ _, h3, hp⟩
        · simp at h

/-! ## The job descriptor -/

/-- A job descriptor that `encodeData` hands to `start_job`: the call went through
all frame checks, the descriptor is the one `encodeData.fillJob` builds on the
object the call leaves, and the new-session flag is cleared. -/
theorem encodeData_start_job (env : Env) (pme : QCameraPostProcessor)
    (job : qcamera_jpeg_data_t) (n : Bool) (r : EncodeDataResult)
    (h : encodeData env pme job n = some r) (j : mm_jpeg_encode_job_t)
    (hj : Event.start_job j ∈ r.trace) :
    ∃ f pChannel main thumb memObj,
      job.src_frame = some f ∧
      Resolves env pme f.ch_id pChannel ∧
      (f.bufs.foldl (encodeData.scanBuf pChannel) (none, none)).1 = some main ∧
      main.2.mem_info = some memObj ∧
      (((f.bufs.foldl (encodeData.scanBuf pChannel) (none, none)).2 ≠ none ∧
          thumb = (f.bufs.foldl (encodeData.scanBuf pChannel) (none, none)).2) ∨
       ((f.bufs.foldl (encodeData.scanBuf pChannel) (none, none)).2 = none ∧
          job.src_reproc_frame = none ∧ thumb = none) ∨
       ((f.bufs.foldl (encodeData.scanBuf pChannel) (none, none)).2 = none ∧
          ∃ g ch, job.src_reproc_frame = some g ∧
            env.m_parent.getChannelByHandle g.ch_id = some ch ∧
            thumb = g.bufs.foldl (encodeData.scanReprocBuf ch) none)) ∧
      r = encodeData.dispatch env pme job n f main thumb
            (encodeData.prepTrace env main memObj thumb) ∧
      j = encodeData.fillJob env r.pme job f main thumb ∧
      r.needNewSess = false := by
  have hne : r.trace ≠ [] := fun h0 => by rw [h0] at hj; simp at hj
  obtain ⟨f, pChannel, main, thumb, memObj, hf, hres, hmain, hmem, hthumb, hr⟩ :=
    encodeData_dispatched env pme job n r h hne
  have hd := dispatch_start_job env pme job n f main thumb
    (encodeData.prepTrace env main memObj thumb) (prepTrace_prep env main memObj thumb) j
    (by rw [← hr]; exact hj)
  rw [← hr] at hd
  exact ⟨f, pChannel, main, thumb, memObj, hf, hres, hmain, hmem, hthumb, hr, hd.1, hd.2⟩

/-- The main-image dimensions of the job descriptor. -/
theorem fillJob_main_dim (env : Env) (pme : QCameraPostProcessor) (job : qcamera_jpeg_data_t)
    (f : mm_camera_super_buf_t) (main : StreamFrame) (thumb : Option StreamFrame) :
    (encodeData.fillJob env pme job f main thumb).main_dim =
      { src_dim := main.1.dim,
        dst_dim :=
          { height := if env.m_parent.isHDROutputCropEnabled && main.1.crop.height != 0
              then main.1.crop.height else main.1.dim.height,
            width := if env.m_parent.isHDROutputCropEnabled && main.1.crop.width != 0
              then main.1.crop.width else main.1.dim.width },
        crop := main.1.crop } := by
  unfold encodeData.fillJob
  simp only []
  repeat' split
  all_goals rfl

/-- The session id, the source index of the job descriptor. -/
theorem fillJob_session_id (env : Env) (pme : QCameraPostProcessor) (job : qcamera_jpeg_data_t)
    (f : mm_camera_super_buf_t) (main : StreamFrame) (thumb : Option StreamFrame) :
    (encodeData.fillJob env pme job f main thumb).session_id = pme.mJpegSessionId ∧
    (encodeData.fillJob env pme job f main thumb).src_index = main.2.buf_idx := by
  unfold encodeData.fillJob
  simp only []
  repeat' split
  all_goals exact ⟨rfl, rfl⟩

/-- The metadata pointer of the job descriptor. -/
theorem fillJob_p_metadata (env : Env) (pme : QCameraPostProcessor) (job : qcamera_jpeg_data_t)
    (f : mm_camera_super_buf_t) (main : StreamFrame) (thumb : Option StreamFrame) :
    (encodeData.fillJob env pme job f main thumb).p_metadata =
      (encodeData.findMetaFrame job f).map fun b => b.buffer := by
  unfold encodeData.fillJob
  simp only []
  cases hm : encodeData.findMetaFrame job f with
  | none => simp only [Option.map_none']; repeat' split
            all_goals rfl
  | some b => simp only [Option.map_some']

/-- The rotation of the job descriptor. -/
theorem fillJob_rotation (env : Env) (pme : QCameraPostProcessor) (job : qcamera_jpeg_data_t)
    (f : mm_camera_super_buf_t) (main : StreamFrame) (thumb : Option StreamFrame) :
    (encodeData.fillJob env pme job f main thumb).rotation =
      if env.m_parent.needRotationReprocess then 0 else env.m_parent.getJpegRotation := by
  unfold encodeData.fillJob
  cases hr : env.m_parent.needRotationReprocess <;> cases env.m_parent.getExifData <;>
    cases encodeData.findMetaFrame job f <;> cases pme.m_bThumbnailNeeded <;>
    simp [mm_jpeg_encode_job_t.zero]

/-- The thumbnail fields of the job descriptor when a thumbnail is needed. -/
theorem fillJob_thumb (env : Env) (pme : QCameraPostProcessor) (job : qcamera_jpeg_data_t)
    (f : mm_camera_super_buf_t) (main : StreamFrame) (thumb : Option StreamFrame)
    (h : pme.m_bThumbnailNeeded = true) :
    (encodeData.fillJob env pme job f main thumb).thumb_index = (thumb.getD main).2.buf_idx ∧
    (encodeData.fillJob env pme job f main thumb).thumb_dim =
      { src_dim := (thumb.getD main).1.dim,
        dst_dim :=
          if (env.m_parent.getJpegRotation == 90 || env.m_parent.getJpegRotation == 270) &&
              (if env.m_parent.needRotationReprocess then (0 : Int)
                else env.m_parent.getJpegRotation) == 0 then
            { width := env.m_parent.getThumbnailSize.height,
              height := env.m_parent.getThumbnailSize.width }
          else env.m_parent.getThumbnailSize,
        crop := (thumb.getD main).1.crop } := by
  unfold encodeData.fillJob
  cases hr : env.m_parent.needRotationReprocess <;> cases env.m_parent.getExifData <;>
    cases encodeData.findMetaFrame job f <;> simp [h, mm_jpeg_encode_job_t.zero]

/-! ## Job descriptors of the concrete session -/

/-- The last call of `Example.zslDispatch` hands `Example.zslJobDesc` to `start_job`. -/
theorem zslDispatch_start_job :
    Event.start_job Example.zslJobDesc ∈ Example.zslDispatch.trace :=
  List.Mem.tail _ (List.Mem.tail _ (List.Mem.tail _ (List.Mem.head _)))

/-- The last call of `Example.croppedDispatch` hands `Example.croppedJobDesc` to
`start_job`. -/
theorem croppedDispatch_start_job :
    Event.start_job Example.croppedJobDesc ∈ Example.croppedDispatch.trace :=
  List.Mem.tail _ (List.Mem.tail _ (List.Mem.head _))

/-- The last call of `Example.rotatedDispatch` hands `Example.rotatedJobDesc` to
`start_job`. -/
theorem rotatedDispatch_start_job :
    Event.start_job Example.rotatedJobDesc ∈ Example.rotatedDispatch.trace :=
  List.Mem.tail _ (List.Mem.tail _ (List.Mem.tail _ (List.Mem.head _)))

/-! ## What `flushNodes` leaves -/

/-- The queue that `flushNodes` leaves holds the items the predicate rejects. -/
theorem flushNodes_rest {α : Type} (release : α → List Event) (isMatch : α → Bool)
    (q : List α) :
    (QCameraQueue.flushNodes release isMatch q).2 = q.filter (fun a => !isMatch a) := by
  induction q with
  | nil => rfl
  | cons a q ih =>
    cases ha : isMatch a <;> simp [QCameraQueue.flushNodes, ha, ih]

/-- The calls of `flushNodes` are calls of the release callback. -/
theorem flushNodes_calls {α : Type} (release : α → List Event) (isMatch : α → Bool)
    (p : Event → Bool) (h : ∀ a, ∀ e ∈ release a, p e = true) (q : List α) :
    ∀ e ∈ (QCameraQueue.flushNodes release isMatch q).1, p e = true := by
  induction q with
  | nil => intro e he; simp [QCameraQueue.flushNodes] at he
  | cons a q ih =>
    intro e he
    cases ha : isMatch a
    · simp only [QCameraQueue.flushNodes, ha] at he
      exact ih e he
    · simp only [QCameraQueue.flushNodes, ha, if_true, List.mem_append] at he
      rcases he with he | he
      · exact h a e he
      · exact ih e he

/-! ## The thumbnail source -/

/-- The thumbnail of a job descriptor that `encodeData.dispatch` hands to `start_job`
is taken from the thumbnail frame, and from the main frame when there is none. -/
theorem dispatch_thumbnailFrom (env : Env) (pme : QCameraPostProcessor)
    (job : qcamera_jpeg_data_t) (n : Bool) (f : mm_camera_super_buf_t) (main : StreamFrame)
    (thumb : Option StreamFrame) (t : List Event) (ht : ∀ e ∈ t, e.isEncodePrep = true) :
    ThumbnailFrom (encodeData.dispatch env pme job n f main thumb t) (thumb.getD main) ∧
    ∀ j, Event.start_job j ∈ (encodeData.dispatch env pme job n f main thumb t).trace →
      j.src_index = main.2.buf_idx := by
  refine ⟨fun j hj hth => ?_, fun j hj => ?_⟩
  · have hjob := (dispatch_start_job env pme job n f main thumb t ht j hj).1
    have h := fillJob_thumb env _ job f main thumb hth
    rw [← hjob] at h
    rw [h.2]
    exact ⟨h.1, rfl, rfl⟩
  · have hjob := (dispatch_start_job env pme job n f main thumb t ht j hj).1
    rw [hjob]
    exact (fillJob_session_id env _ job f main thumb).2

/-- A job whose frames pass the checks of `encodeData` gets as far as
`encodeData.dispatch`. -/
theorem encodeData_forward (env : Env) (pme : QCameraPostProcessor)
    (job : qcamera_jpeg_data_t) (n : Bool) (f : mm_camera_super_buf_t)
    (pChannel : QCameraChannel) (main : StreamFrame) (memObj : QCameraMemory)
    (thumb : Option StreamFrame)
    (hf : job.src_frame = some f) (hch : Resolves env pme f.ch_id pChannel)
    (hmain : (f.bufs.foldl (encodeData.scanBuf pChannel) (none, none)).1 = some main)
    (hmem : main.2.mem_info = some memObj)
    (hthumb :
      (∃ t, (f.bufs.foldl (encodeData.scanBuf pChannel) (none, none)).2 = some t ∧
          thumb = some t) ∨
       ((f.bufs.foldl (encodeData.scanBuf pChannel) (none, none)).2 = none ∧
          job.src_reproc_frame = none ∧ thumb = none) ∨
       ((f.bufs.foldl (encodeData.scanBuf pChannel) (none, none)).2 = none ∧
          ∃ g ch, job.src_reproc_frame = some g ∧
            env.m_parent.getChannelByHandle g.ch_id = some ch ∧
            thumb = g.bufs.foldl (encodeData.scanReprocBuf ch) none)) :
    encodeData env pme job n =
      some (encodeData.dispatch env pme job n f main thumb
        (encodeData.prepTrace env main memObj thumb)) := by
  unfold encodeData encodeData.prepTrace
  rcases hch with h | ⟨h1, h2, h3⟩
  · rcases hthumb with ⟨t, ht, hth⟩ | ⟨ht, hg, hth⟩ | ⟨ht, g, ch, hg, hgc, hth⟩
    · subst hth
      simp only [hf, h, hmain, ht, hmem]
    · subst hth
      simp only [hf, h, hmain, ht, hg, hmem]
    · subst hth
      simp only [hf, h, hmain, ht, hg, hgc, hmem]
  · rcases hthumb with ⟨t, ht, hth⟩ | ⟨ht, hg, hth⟩ | ⟨ht, g, ch, hg, hgc, hth⟩
    · subst hth
      simp only [hf, h1, h2, h3, beq_self_eq_true, if_true, hmain, ht, hmem]
    · subst hth
      simp only [hf, h1, h2, h3, beq_self_eq_true, if_true, hmain, ht, hg, hmem]
    · subst hth
      simp only [hf, h1, h2, h3, beq_self_eq_true, if_true, hmain, ht, hg, hgc, hmem]

/-- A job whose source frame has no thumbnail buffer and whose pre-reprocess frame is
of a channel the HAL object does not resolve is refused. -/
theorem encodeData_reproc_unresolved (env : Env) (pme : QCameraPostProcessor)
    (job : qcamera_jpeg_data_t) (n : Bool) (f g : mm_camera_super_buf_t)
    (pChannel : QCameraChannel) (main : StreamFrame)
    (hf : job.src_frame = some f) (hch : Resolves env pme f.ch_id pChannel)
    (hmain : (f.bufs.foldl (encodeData.scanBuf pChannel) (none, none)).1 = some main)
    (ht : (f.bufs.foldl (encodeData.scanBuf pChannel) (none, none)).2 = none)
    (hg : job.src_reproc_frame = some g)
    (hgc : env.m_parent.getChannelByHandle g.ch_id = none) :
    encodeData env pme job n =
      some { ret := BAD_VALUE, job := job, needNewSess := n, pme := pme, trace := [] } := by
  unfold encodeData
  rcases hch with h | ⟨h1, h2, h3⟩
  · simp only [hf, h, hmain, ht, hg, hgc]
  · simp only [hf, h1, h2, h3, beq_self_eq_true, if_true, hmain, ht, hg, hgc]

/-! ## The session of an activation -/

/-- The `on_error` exit leaves `mJpegSessionId` alone. -/
theorem on_error_sessionId (ret : Int) (p : mm_jpeg_encode_params_t)
    (pme : QCameraPostProcessor) (t : List Event) :
    (getJpegEncodingConfig.on_error ret p pme t).2.2.1.mJpegSessionId = pme.mJpegSessionId := by
  unfold getJpegEncodingConfig.on_error
  split <;> rfl

/-- The output buffer allocation leaves `mJpegSessionId` alone. -/
theorem allocOutput_sessionId (env : Env) (pme : QCameraPostProcessor)
    (p : mm_jpeg_encode_params_t) (o : cam_frame_len_offset_t) :
    (getJpegEncodingConfig.allocOutput env pme p o).2.2.1.mJpegSessionId
      = pme.mJpegSessionId := by
  unfold getJpegEncodingConfig.allocOutput
  simp only []
  repeat' split
  all_goals rfl

/-- Function `getJpegEncodingConfig` leaves `mJpegSessionId` alone. -/
theorem getJpegEncodingConfig_sessionId (env : Env) (pme : QCameraPostProcessor)
    (p : mm_jpeg_encode_params_t) (m : QCameraStream) (t : Option QCameraStream) :
    (getJpegEncodingConfig env pme p m t).2.2.1.mJpegSessionId = pme.mJpegSessionId := by
  unfold getJpegEncodingConfig
  simp only []
  repeat' split
  all_goals first
    | (rw [on_error_sessionId])
    | (rw [allocOutput_sessionId])

/-- A preparatory call is no `create_session` call. -/
theorem isEncodePrep_not_isCreateSession (e : Event) (h : e.isEncodePrep = true) :
    e.isCreateSession = false := by
  cases e <;> simp_all [Event.isEncodePrep, Event.isCreateSession]

/-- A list of preparatory calls has no `create_session` call. -/
theorem any_isCreateSession_prep (t : List Event) (ht : ∀ e ∈ t, e.isEncodePrep = true) :
    t.any Event.isCreateSession = false := by
  rw [List.any_eq_false]
  intro e he
  simp [isEncodePrep_not_isCreateSession e (ht e he)]

/-- The session part of `encodeData.dispatch`: without the new-session flag, or
without a client handle, no session is created and flag and object stay as
they are; with both, `create_session` is called, the session id is the one it
wrote, and the flag is cleared exactly when it succeeds. -/
theorem dispatch_session (env : Env) (pme : QCameraPostProcessor)
    (job : qcamera_jpeg_data_t) (n : Bool) (f : mm_camera_super_buf_t) (main : StreamFrame)
    (thumb : Option StreamFrame) (t : List Event) (ht : ∀ e ∈ t, e.isEncodePrep = true) :
    (pme.mJpegClientHandle = 0 →
      (encodeData.dispatch env pme job n f main thumb t).needNewSess = n ∧
      (encodeData.dispatch env pme job n f main thumb t).pme = pme ∧
      (encodeData.dispatch env pme job n f main thumb t).trace.any Event.isCreateSession
        = false) ∧
    (n = false →
      (encodeData.dispatch env pme job n f main thumb t).needNewSess = false ∧
      (encodeData.dispatch env pme job n f main thumb t).pme = pme ∧
      (encodeData.dispatch env pme job n f main thumb t).trace.any Event.isCreateSession
        = false) ∧
    (pme.mJpegClientHandle ≠ 0 → n = true →
      (encodeData.dispatch env pme job n f main thumb t).trace.any Event.isCreateSession
        = true ∧
      (encodeData.dispatch env pme job n f main thumb t).pme.mJpegSessionId =
        env.mJpegHandle.create_session.2.getD pme.mJpegSessionId ∧
      (encodeData.dispatch env pme job n f main thumb t).needNewSess =
        !(env.mJpegHandle.create_session.1 == NO_ERROR)) := by
  have hprep := any_isCreateSession_prep t ht
  refine ⟨fun hc => ?_, fun hn => ?_, fun hc hn => ?_⟩
  · unfold encodeData.dispatch
    rw [if_pos hc]
    exact ⟨rfl, rfl, hprep⟩
  · subst hn
    unfold encodeData.dispatch
    split
    · exact ⟨rfl, rfl, hprep⟩
    · simp [encodeData.startJob, hprep, Event.isCreateSession]
  · subst hn
    have hsid := getJpegEncodingConfig_sessionId env pme mm_jpeg_encode_params_t.zero main.1
      (thumb.map Prod.fst)
    unfold encodeData.dispatch
    rw [if_neg hc]
    simp only [if_true]
    split
    · rename_i hr
      refine ⟨by simp [Event.isCreateSession], by simp [hsid], ?_⟩
      simpa using hr
    · rename_i hr
      refine ⟨by simp [encodeData.startJob, Event.isCreateSession],
        by simp [encodeData.startJob, hsid], ?_⟩
      simpa [encodeData.startJob] using hr

/-- The trace of `encodeData.dispatch` extends the trace it is given. -/
theorem dispatch_trace_ne_nil (env : Env) (pme : QCameraPostProcessor)
    (job : qcamera_jpeg_data_t) (n : Bool) (f : mm_camera_super_buf_t) (main : StreamFrame)
    (thumb : Option StreamFrame) (t : List Event) (ht : t ≠ []) :
    (encodeData.dispatch env pme job n f main thumb t).trace ≠ [] := by
  unfold encodeData.dispatch
  simp only []
  repeat' split
  all_goals simp [encodeData.startJob, ht]

/-- A return of `encodeData` without a call is an early exit: flag, object and job are
as they were. -/
theorem encodeData_early (env : Env) (pme : QCameraPostProcessor)
    (job : qcamera_jpeg_data_t) (n : Bool) (r : EncodeDataResult)
    (h : encodeData env pme job n = some r) (htr : r.trace = []) :
    r.needNewSess = n ∧ r.pme = pme ∧ r.job = job := by
  unfold encodeData at h
  split at h
  · simp at h
  · simp only [] at h
    split at h
    · simp only [Option.some.injEq] at h; subst h; exact ⟨rfl, rfl, rfl⟩
    · split at h
      · simp only [Option.some.injEq] at h; subst h; exact ⟨rfl, rfl, rfl⟩
      · split at h
        · simp only [Option.some.injEq] at h; subst h; exact ⟨rfl, rfl, rfl⟩
        · split at h
          · simp only [Option.some.injEq] at h; subst h; exact ⟨rfl, rfl, rfl⟩
          · simp only [Option.some.injEq] at h
            subst h
            exact absurd htr (dispatch_trace_ne_nil _ _ _ _ _ _ _ _ (by simp))

/-- The session part of `encodeData`.  Called without the new-session flag it
creates no session and leaves flag and session id.  Called with the flag it
calls `create_session` exactly when it gets past the frame checks with a
client handle; the session id is then the one `create_session` wrote and the
flag is cleared exactly when that call succeeds.  Every job handed to
`start_job` carries the session id the call leaves. -/
theorem encodeData_session (env : Env) (pme : QCameraPostProcessor)
    (job : qcamera_jpeg_data_t) (n : Bool) (r : EncodeDataResult)
    (h : encodeData env pme job n = some r) :
    (n = false →
      r.needNewSess = false ∧ r.pme.mJpegSessionId = pme.mJpegSessionId ∧
      r.trace.any Event.isCreateSession = false) ∧
    (r.trace.any Event.isCreateSession = false →
      r.needNewSess = n ∧ r.pme.mJpegSessionId = pme.mJpegSessionId) ∧
    (r.trace.any Event.isCreateSession = true →
      n = true ∧ r.trace ≠ [] ∧ pme.mJpegClientHandle ≠ 0 ∧
      r.pme.mJpegSessionId = env.mJpegHandle.create_session.2.getD pme.mJpegSessionId ∧
      r.needNewSess = !(env.mJpegHandle.create_session.1 == NO_ERROR)) ∧
    (n = true → r.trace ≠ [] → pme.mJpegClientHandle ≠ 0 →
      r.trace.any Event.isCreateSession = true) ∧
    (∀ j, Event.start_job j ∈ r.trace →
      j.session_id = r.pme.mJpegSessionId ∧ r.needNewSess = false) := by
  have hjob : ∀ j, Event.start_job j ∈ r.trace →
      j.session_id = r.pme.mJpegSessionId ∧ r.needNewSess = false := by
    intro j hj
    obtain ⟨f, pChannel, main, thumb, memObj, -, -, -, -, -, -, hjob, hflag⟩ :=
      encodeData_start_job env pme job n r h j hj
    rw [hjob]
    exact ⟨(fillJob_session_id env r.pme job f main thumb).1, hflag⟩
  by_cases htr : r.trace = []
  · obtain ⟨h1, h2, -⟩ := encodeData_early env pme job n r h htr
    refine ⟨fun hn => ⟨by rw [h1, hn], by rw [h2], by rw [htr]; rfl⟩,
      fun _ => ⟨h1, by rw [h2]⟩, fun hc => ?_, fun _ hne _ => absurd htr hne, hjob⟩
    rw [htr] at hc
    simp at hc
  · obtain ⟨f, pChannel, main, thumb, memObj, -, -, -, -, -, hr⟩ :=
      encodeData_dispatched env pme job n r h htr
    have hd := dispatch_session env pme job n f main thumb
      (encodeData.prepTrace env main memObj thumb) (prepTrace_prep env main memObj thumb)
    rw [← hr] at hd
    obtain ⟨hd1, hd2, hd3⟩ := hd
    refine ⟨fun hn => ?_, fun hc => ?_, fun hc => ?_, fun hn _ hne => (hd3 hne hn).1, hjob⟩
    · obtain ⟨a, b, c⟩ := hd2 hn
      exact ⟨a, by rw [b], c⟩
    · by_cases hcl : pme.mJpegClientHandle = 0
      · obtain ⟨a, b, -⟩ := hd1 hcl
        exact ⟨a, by rw [b]⟩
      · cases n with
        | false =>
          obtain ⟨a, b, -⟩ := hd2 rfl
          exact ⟨a, by rw [b]⟩
        | true =>
          have := (hd3 hcl rfl).1
          rw [hc] at this
          simp at this
    · have hcl : pme.mJpegClientHandle ≠ 0 := by
        intro hcl
        have := (hd1 hcl).2.2
        rw [hc] at this
        simp at this
      have hn : n = true := by
        cases n with
        | true => rfl
        | false =>
          have := (hd2 rfl).2.2
          rw [hc] at this
          simp at this
      exact ⟨hn, htr, hcl, (hd3 hcl hn).2⟩

/-- The entry point `start` leaves `mJpegSessionId` alone. -/
theorem start_sessionId (env : Env) (pme : QCameraPostProcessor) :
    (start env pme).2.1.mJpegSessionId = pme.mJpegSessionId := by
  unfold start
  simp only []
  repeat' split
  all_goals rfl

/-- The entry point `processRawData` leaves `mJpegSessionId` alone. -/
theorem processRawData_sessionId (pme : QCameraPostProcessor) (f : mm_camera_super_buf_t) :
    (processRawData pme f).2.1.mJpegSessionId = pme.mJpegSessionId := by
  unfold processRawData
  split <;> rfl

/-- The entry point `processData` leaves `mJpegSessionId` alone. -/
theorem processData_sessionId (env : Env) (pme : QCameraPostProcessor)
    (f : mm_camera_super_buf_t) :
    (processData env pme f).2.1.mJpegSessionId = pme.mJpegSessionId := by
  unfold processData
  simp only []
  repeat' split
  all_goals first
    | rfl
    | exact processRawData_sessionId _ _

/-- The entry point `processPPData` leaves `mJpegSessionId` alone. -/
theorem processPPData_sessionId (env : Env) (pme : QCameraPostProcessor)
    (f : mm_camera_super_buf_t) :
    (processPPData env pme f).2.1.mJpegSessionId = pme.mJpegSessionId := by
  unfold processPPData
  simp only []
  repeat' split
  all_goals first
    | rfl
    | exact processRawData_sessionId _ _

/-- The entry point `processJpegEvt` leaves `mJpegSessionId` alone. -/
theorem processJpegEvt_sessionId (env : Env) (pme : QCameraPostProcessor)
    (evt : qcamera_jpeg_evt_payload_t) :
    (processJpegEvt env pme evt).2.1.mJpegSessionId = pme.mJpegSessionId := by
  unfold processJpegEvt
  simp only []
  repeat' split
  all_goals rfl

/-- The save loop leaves the new-session flag and `mJpegSessionId` alone. -/
theorem dataSaveRoutine_session (env : Env) (cmd : camera_cmd_type_t) (s : PostProcState) :
    SessionKept s (dataSaveRoutine env cmd s).1 := by
  unfold SessionKept
  cases cmd <;> simp only [dataSaveRoutine, dataSaveRoutine.stop, dataSaveRoutine.doNextJob]
  all_goals repeat' split
  all_goals first
    | exact ⟨rfl, rfl⟩
    | trivial

/-- The raw part of a wake-up leaves the new-session flag and `mJpegSessionId`
alone. -/
theorem doRaw_session (env : Env) (s : PostProcState) :
    SessionKept s (dataProcessRoutine.doRaw env s).1 := by
  unfold SessionKept dataProcessRoutine.doRaw
  cases hq : s.pme.m_inputRawQ with
  | nil => simp [QCameraQueue.dequeue, hq]
  | cons f rest =>
    simp only [QCameraQueue.dequeue, if_true, List.head?_cons, List.tail_cons]
    have h := processRawImageImpl_frame env { s.pme with m_inputRawQ := rest } f
    split <;> (simp only []; rw [h]; simp)

/-- The reprocess part of a wake-up leaves the new-session flag and `mJpegSessionId`
alone. -/
theorem doReproc_session (env : Env) (s : PostProcState) :
    SessionKept s (dataProcessRoutine.doReproc env s).1 := by
  unfold SessionKept dataProcessRoutine.doReproc
  cases hq : s.pme.m_inputPPQ with
  | nil => simp [QCameraQueue.dequeue, hq]
  | cons f rest =>
    simp only [QCameraQueue.dequeue, if_true, List.head?_cons, List.tail_cons]
    repeat' split
    all_goals simp

/-- An inactive wake-up leaves the new-session flag and `mJpegSessionId` alone. -/
theorem doNextJobInactive_session (env : Env) (s : PostProcState) :
    SessionKept s (dataProcessRoutine.doNextJobInactive env s).1 :=
  ⟨rfl, rfl⟩

/-- Keeping flag and session id composes. -/
theorem SessionKept.then_kept {a b c : PostProcState} (h1 : SessionKept a b)
    (h2 : SessionKept b c) : SessionKept a c :=
  ⟨h2.1.trans h1.1, h2.2.trans h1.2⟩

/-- The encode part of an active wake-up: without a queued job nothing is
dispatched and flag and session id stay; with one, `encodeData` is called with
the flag and session id of the state and leaves those of the next state. -/
theorem doEncode_dispatch (env : Env) (s : PostProcState) (hact : s.is_active = true) :
    (dataProcessRoutine.doEncode env s = none ∧
      Action.dispatch env s (Action.dataProc camera_cmd_type_t.CAMERA_CMD_TYPE_DO_NEXT_JOB)
        = none) ∨
    (∃ r, dataProcessRoutine.doEncode env s = some r ∧
      Action.dispatch env s (Action.dataProc camera_cmd_type_t.CAMERA_CMD_TYPE_DO_NEXT_JOB)
        = none ∧ SessionKept s r.1) ∨
    (∃ r d, dataProcessRoutine.doEncode env s = some r ∧
      Action.dispatch env s (Action.dataProc camera_cmd_type_t.CAMERA_CMD_TYPE_DO_NEXT_JOB)
        = some d ∧ d.Links s r.1) := by
  unfold dataProcessRoutine.doEncode Action.dispatch
  simp only [hact, if_true]
  cases hq : s.pme.m_inputJpegQ with
  | nil => exact Or.inr (Or.inl ⟨_, rfl, rfl, rfl, rfl⟩)
  | cons job rest =>
    simp only [QCameraQueue.dequeue, if_true, List.head?_cons, List.tail_cons]
    cases he : encodeData env
        { s.pme with m_inputJpegQ := rest,
                     m_ongoingJpegQ := QCameraQueue.enqueue s.pme.m_ongoingJpegQ job }
        job s.needNewSess with
    | none => exact Or.inl ⟨rfl, rfl⟩
    | some r =>
      refine Or.inr (Or.inr ?_)
      simp only [Option.map_some']
      split
      · exact ⟨_, _, rfl, rfl, he, rfl, rfl, rfl, rfl⟩
      · exact ⟨_, _, rfl, rfl, he, rfl, rfl, rfl, rfl⟩

/-- One action within an activation.  It either does not return, with no dispatch;
or it returns without a dispatch and keeps flag and session id; or it returns
with a dispatch, which is called with the flag and session id of the state and
leaves those of the next state. -/
theorem apply_dispatch (env : Env) (s : PostProcState) (a : Action)
    (ha : a.withinActivation = true) :
    (a.apply env s = none ∧ a.dispatch env s = none) ∨
    (∃ r, a.apply env s = some r ∧ a.dispatch env s = none ∧ SessionKept s r.1) ∨
    (∃ r d, a.apply env s = some r ∧ a.dispatch env s = some d ∧ d.Links s r.1) := by
  cases a with
  | start => exact Or.inr (Or.inl ⟨_, rfl, rfl, rfl, start_sessionId env s.pme⟩)
  | processData f => exact Or.inr (Or.inl ⟨_, rfl, rfl, rfl, processData_sessionId env s.pme f⟩)
  | processRawData f =>
    exact Or.inr (Or.inl ⟨_, rfl, rfl, rfl, processRawData_sessionId s.pme f⟩)
  | processPPData f =>
    exact Or.inr (Or.inl ⟨_, rfl, rfl, rfl, processPPData_sessionId env s.pme f⟩)
  | processJpegEvt evt =>
    exact Or.inr (Or.inl ⟨_, rfl, rfl, rfl, processJpegEvt_sessionId env s.pme evt⟩)
  | dataSave cmd => exact Or.inr (Or.inl ⟨_, rfl, rfl, dataSaveRoutine_session env cmd s⟩)
  | dataProc cmd =>
    cases cmd with
    | CAMERA_CMD_TYPE_NONE => exact Or.inr (Or.inl ⟨_, rfl, rfl, rfl, rfl⟩)
    | CAMERA_CMD_TYPE_EXIT => exact Or.inr (Or.inl ⟨_, rfl, rfl, rfl, rfl⟩)
    | CAMERA_CMD_TYPE_START_DATA_PROC => simp [Action.withinActivation] at ha
    | CAMERA_CMD_TYPE_STOP_DATA_PROC => simp [Action.withinActivation] at ha
    | CAMERA_CMD_TYPE_DO_NEXT_JOB =>
      cases hact : s.is_active with
      | false =>
        refine Or.inr (Or.inl ⟨(dataProcessRoutine.doNextJobInactive env s), ?_, ?_,
          doNextJobInactive_session env s⟩)
        · simp [Action.apply, dataProcessRoutine, hact]
        · simp [Action.dispatch, hact]
      | true =>
        have happ : Action.apply env s
            (Action.dataProc camera_cmd_type_t.CAMERA_CMD_TYPE_DO_NEXT_JOB)
            = dataProcessRoutine.doNextJobActive env s := by
          simp [Action.apply, dataProcessRoutine, hact]
        rw [happ]
        unfold dataProcessRoutine.doNextJobActive
        rcases doEncode_dispatch env s hact with ⟨h1, h2⟩ | ⟨r, h1, h2, h3⟩ | ⟨r, d, h1, h2, h3⟩
        · rw [h1]
          exact Or.inl ⟨rfl, h2⟩
        · rw [h1]
          refine Or.inr (Or.inl ⟨_, rfl, h2, ?_⟩)
          exact (h3.then_kept (doRaw_session env r.1)).then_kept (doReproc_session env _)
        · rw [h1]
          refine Or.inr (Or.inr ⟨_, d, rfl, h2, ?_⟩)
          have hk := (doRaw_session env r.1).then_kept
            (doReproc_session env (dataProcessRoutine.doRaw env r.1).1)
          obtain ⟨l1, l2, l3, l4, l5⟩ := h3
          exact ⟨l1, l2, l3, hk.1.trans l4, hk.2.trans l5⟩

/-- The dispatches of a run within one activation.  Each is a call of `encodeData`.
From a state without the flag every dispatch is called without the flag and
with the session id of the state.  From a state with the flag a dispatch is
called with the flag as long as no earlier one created a session; and a
dispatch after one that created a session is called without the flag and with
the session id that one left. -/
theorem dispatches_session (acts : List (Env × Action)) :
    ∀ s : PostProcState, (∀ x ∈ acts, x.2.withinActivation = true) →
    ∀ pre d post, dispatches s acts = pre ++ d :: post →
      encodeData d.env d.pme d.job d.needNewSess = some d.result ∧
      (s.needNewSess = false →
        d.needNewSess = false ∧ d.pme.mJpegSessionId = s.pme.mJpegSessionId) ∧
      (s.needNewSess = true → (∀ x ∈ pre, x.createSucceeds = false) →
        d.needNewSess = true) ∧
      (∀ x ∈ pre, x.createSucceeds = true →
        d.needNewSess = false ∧ d.pme.mJpegSessionId = x.result.pme.mJpegSessionId) := by
  induction acts with
  | nil =>
    intro s _ pre d post h
    simp [dispatches] at h
  | cons ea rest ih =>
    intro s hin pre d post h
    obtain ⟨env, a⟩ := ea
    have ha : a.withinActivation = true := hin (env, a) (List.mem_cons_self _ _)
    have hrest : ∀ x ∈ rest, x.2.withinActivation = true :=
      fun x hx => hin x (List.mem_cons_of_mem _ hx)
    simp only [dispatches] at h
    rcases apply_dispatch env s a ha with ⟨h1, h2⟩ | ⟨r, h1, h2, h3⟩ | ⟨r, d0, h1, h2, h3⟩
    · rw [h1, h2] at h
      simp at h
    · rw [h1, h2] at h
      simp only [Option.toList, List.nil_append] at h
      obtain ⟨i1, i2, i3, i4⟩ := ih r.1 hrest pre d post h
      refine ⟨i1, fun hs => ?_, fun hs hp => ?_, i4⟩
      · have := i2 (by rw [h3.1]; exact hs)
        exact ⟨this.1, this.2.trans h3.2⟩
      · exact i3 (by rw [h3.1]; exact hs) hp
    · rw [h1, h2] at h
      simp only [Option.toList, List.singleton_append] at h
      obtain ⟨l1, l2, l3, l4, l5⟩ := h3
      have hsess := encodeData_session d0.env d0.pme d0.job d0.needNewSess d0.result l1
      cases pre with
      | nil =>
        simp only [List.nil_append, List.cons.injEq] at h
        obtain ⟨hd, -⟩ := h
        subst hd
        refine ⟨l1, fun hs => ⟨by rw [l2]; exact hs, l3⟩, fun hs _ => by rw [l2]; exact hs,
          fun x hx => by simp at hx⟩
      | cons x pre2 =>
        simp only [List.cons_append, List.cons.injEq] at h
        obtain ⟨hx, h⟩ := h
        subst hx
        obtain ⟨i1, i2, i3, i4⟩ := ih r.1 hrest pre2 d post h
        refine ⟨i1, fun hs => ?_, fun hs hp => ?_, fun x hx hc => ?_⟩
        · obtain ⟨a1, a2, -⟩ := hsess.1 (by rw [l2]; exact hs)
          have := i2 (by rw [l4]; exact a1)
          exact ⟨this.1, this.2.trans (l5.trans (a2.trans l3))⟩
        · have hfail : d0.createSucceeds = false := hp d0 (List.mem_cons_self _ _)
          have hflag : d0.result.needNewSess = true := by
            cases hcc : d0.result.trace.any Event.isCreateSession with
            | false =>
              rw [(hsess.2.1 hcc).1, l2]
              exact hs
            | true =>
              have h5 := (hsess.2.2.1 hcc).2.2.2.2
              simp only [Dispatch.createSucceeds, Dispatch.callsCreate, hcc,
                Bool.true_and] at hfail
              rw [h5, hfail]
              rfl
          exact i3 (by rw [l4]; exact hflag) (fun y hy => hp y (List.mem_cons_of_mem _ hy))
        · simp only [List.mem_cons] at hx
          rcases hx with hx | hx
          · subst hx
            simp only [Dispatch.createSucceeds, Dispatch.callsCreate, Bool.and_eq_true] at hc
            have h5 := (hsess.2.2.1 hc.1).2.2.2.2
            rw [hc.2] at h5
            have := i2 (by rw [l4, h5]; rfl)
            exact ⟨this.1, this.2.trans l5⟩
          · exact i4 x hx hc

/-! ## Completion events handled inline -/

/-- What `processJpegEvt` does with an event handled inline: the matching jobs are
flushed, then the delivery is tried and the label `end` is reached. -/
theorem processJpegEvt_inline (env : Env) (pme : QCameraPostProcessor)
    (evt : qcamera_jpeg_evt_payload_t) (hinit : pme.m_bInited = true)
    (hinline : (pme.mUseSaveProc && env.m_parent.isLongshotEnabled) = false) :
    processJpegEvt env pme evt =
      ((processJpegEvt.deliver env
          { pme with m_ongoingJpegQ := (QCameraQueue.flushNodes (releaseJpegData env pme)
            (matchJobId evt.jobId) pme.m_ongoingJpegQ).2 } evt).1,
        { pme with m_ongoingJpegQ := (QCameraQueue.flushNodes (releaseJpegData env pme)
            (matchJobId evt.jobId) pme.m_ongoingJpegQ).2 },
        (QCameraQueue.flushNodes (releaseJpegData env pme) (matchJobId evt.jobId)
            pme.m_ongoingJpegQ).1
          ++ (processJpegEvt.deliver env
              { pme with m_ongoingJpegQ := (QCameraQueue.flushNodes (releaseJpegData env pme)
                (matchJobId evt.jobId) pme.m_ongoingJpegQ).2 } evt).2.2
          ++ processJpegEvt.onEnd (processJpegEvt.deliver env
              { pme with m_ongoingJpegQ := (QCameraQueue.flushNodes (releaseJpegData env pme)
                (matchJobId evt.jobId) pme.m_ongoingJpegQ).2 } evt)
          ++ [Event.sendCmd CmdThread.m_dataProcTh
                camera_cmd_type_t.CAMERA_CMD_TYPE_DO_NEXT_JOB false false]) := by
  unfold processJpegEvt
  rw [if_neg (by simp [hinit]), if_neg (by simp [hinline])]

/-- The calls of `flushNodes` on the ongoing-encode queue are neither callbacks nor
error notifications. -/
theorem flushNodes_jpeg_silent (env : Env) (pme : QCameraPostProcessor) (id : Nat)
    (q : List qcamera_jpeg_data_t) :
    (QCameraQueue.flushNodes (releaseJpegData env pme) (matchJobId id) q).1.filter
        Event.isNotifyCallback = [] ∧
    (QCameraQueue.flushNodes (releaseJpegData env pme) (matchJobId id) q).1.filter
        Event.isErrorNotify = [] :=
  ⟨filter_eq_nil_of_forall isJobRelease_not_isNotifyCallback
      (flushNodes_calls (releaseJpegData env pme) (matchJobId id) Event.isJobRelease
        (releaseJpegJobData_isJobRelease env pme) q),
    filter_eq_nil_of_forall isJobRelease_not_isErrorNotify
      (flushNodes_calls (releaseJpegData env pme) (matchJobId id) Event.isJobRelease
        (releaseJpegJobData_isJobRelease env pme) q)⟩

/-- A completion event handled inline whose delivery buffer is allocated and whose
hand-off to the notifier fails.  When the callback record cannot be allocated the
buffer is released once, at the label `end`.  When the notifier refuses the
callback the buffer is released by `releaseNotifyData` and again at the label
`end`.  One error notification is sent either way. -/
theorem processJpegEvt_handoff_fails (env : Env) (pme : QCameraPostProcessor)
    (evt : qcamera_jpeg_evt_payload_t)
    (hinit : pme.m_bInited = true)
    (hinline : (pme.mUseSaveProc && env.m_parent.isLongshotEnabled) = false)
    (hcb : env.m_parent.mDataCb = true)
    (hen : env.m_parent.msgTypeEnabledWithLock camera_msg_t.CAMERA_MSG_COMPRESSED_IMAGE = true)
    (hst : evt.status ≠ jpeg_job_status_t.JPEG_JOB_STATUS_ERROR)
    (hmem : env.m_parent.mGetMemory = true) :
    (env.malloc_data_cb = false →
      (processJpegEvt env pme evt).1 = NO_MEMORY ∧
      (processJpegEvt env pme evt).2.2.count
          (Event.memRelease
            { data := evt.out_data.buf_vaddr.take evt.out_data.buf_filled_len,
              size := evt.out_data.buf_filled_len }) = 1 ∧
      (processJpegEvt env pme evt).2.2.filter Event.isErrorNotify
        = [Event.sendEvtNotify camera_msg_t.CAMERA_MSG_ERROR UNKNOWN_ERROR 0]) ∧
    (env.malloc_data_cb = true → env.m_parent.notifyCallback ≠ NO_ERROR →
      (processJpegEvt env pme evt).1 = UNKNOWN_ERROR ∧
      (processJpegEvt env pme evt).2.2.count
          (Event.memRelease
            { data := evt.out_data.buf_vaddr.take evt.out_data.buf_filled_len,
              size := evt.out_data.buf_filled_len }) = 2 ∧
      (processJpegEvt env pme evt).2.2.filter Event.isErrorNotify
        = [Event.sendEvtNotify camera_msg_t.CAMERA_MSG_ERROR UNKNOWN_ERROR 0]) := by
  obtain ⟨-, hs2⟩ := flushNodes_jpeg_silent env pme evt.jobId pme.m_ongoingJpegQ
  have hcount : (QCameraQueue.flushNodes (releaseJpegData env pme) (matchJobId evt.jobId)
      pme.m_ongoingJpegQ).1.count
        (Event.memRelease
          { data := evt.out_data.buf_vaddr.take evt.out_data.buf_filled_len,
            size := evt.out_data.buf_filled_len }) = 0 := by
    rw [List.count_eq_zero]
    intro hm
    have := flushNodes_calls (releaseJpegData env pme) (matchJobId evt.jobId)
      Event.isJobRelease (releaseJpegJobData_isJobRelease env pme) pme.m_ongoingJpegQ _ hm
    simp [Event.isJobRelease, Event.isRelease] at this
  rw [processJpegEvt_inline env pme evt hinit hinline]
  refine ⟨fun halloc => ?_, fun halloc hfail => ?_⟩
  · have hd : ∀ p : QCameraPostProcessor, processJpegEvt.deliver env p evt =
        (NO_MEMORY,
          some { data := evt.out_data.buf_vaddr.take evt.out_data.buf_filled_len,
                 size := evt.out_data.buf_filled_len },
          [Event.dumpJpegToFile evt.out_data.buf_vaddr evt.out_data.buf_filled_len
            evt.jobId]) := by
      intro p
      simp [processJpegEvt.deliver, sendDataNotify, hcb, hen, hst, hmem, halloc]
    simp only [hd, processJpegEvt.onEnd, List.filter_append, hs2, List.count_append, hcount]
    refine ⟨by first | rfl | trivial, ?_, ?_⟩
    · simp [NO_MEMORY, NO_ERROR, sendEvtNotify]
    · simp [NO_MEMORY, NO_ERROR, sendEvtNotify, Event.isErrorNotify]
  · have hd : ∀ p : QCameraPostProcessor, processJpegEvt.deliver env p evt =
        (UNKNOWN_ERROR,
          some { data := evt.out_data.buf_vaddr.take evt.out_data.buf_filled_len,
                 size := evt.out_data.buf_filled_len },
          [Event.dumpJpegToFile evt.out_data.buf_vaddr evt.out_data.buf_filled_len
            evt.jobId,
           Event.notifyCallback
            { cb_type := qcamera_callback_type_m.QCAMERA_DATA_SNAPSHOT_CALLBACK,
              msg_type := camera_msg_t.CAMERA_MSG_COMPRESSED_IMAGE, ext1 := 0, ext2 := 0,
              data := some { data := evt.out_data.buf_vaddr.take evt.out_data.buf_filled_len,
                             size := evt.out_data.buf_filled_len },
              index := 0,
              user_data := some
                { msg_type := camera_msg_t.CAMERA_MSG_COMPRESSED_IMAGE,
                  data := some
                    { data := evt.out_data.buf_vaddr.take evt.out_data.buf_filled_len,
                      size := evt.out_data.buf_filled_len },
                  index := 0,
                  release_data :=
                    { data := some
                        { data := evt.out_data.buf_vaddr.take evt.out_data.buf_filled_len,
                          size := evt.out_data.buf_filled_len },
                      frame := none, streamBufs := none, unlinkFile := false } },
              release_cb := true },
           Event.memRelease
            { data := evt.out_data.buf_vaddr.take evt.out_data.buf_filled_len,
              size := evt.out_data.buf_filled_len }]) := by
      intro p
      have h0 : ¬ env.m_parent.notifyCallback = 0 := hfail
      simp [processJpegEvt.deliver, sendDataNotify, hcb, hen, hst, hmem, halloc, NO_ERROR, h0,
        releaseNotifyData, releaseSuperBuf]
    simp only [hd, processJpegEvt.onEnd, List.filter_append, hs2, List.count_append, hcount]
    refine ⟨by first | rfl | trivial, ?_, ?_⟩
    · simp [UNKNOWN_ERROR, NO_ERROR, sendEvtNotify]
    · simp [UNKNOWN_ERROR, NO_ERROR, sendEvtNotify, Event.isErrorNotify]

/-! ## The raw and reprocess parts of a wake-up -/

/-- Function `encodeData` leaves `m_ongoingPPQ` alone. -/
theorem EncodeFrame.ongoingPPQ {a b : QCameraPostProcessor} (h : EncodeFrame a b) :
    b.m_ongoingPPQ = a.m_ongoingPPQ := by
  have := congrArg QCameraPostProcessor.m_ongoingPPQ h; simpa using this

/-- The encode part of a wake-up leaves `m_ongoingPPQ` and `m_pReprocChannel` alone. -/
theorem doEncode_reproc (env : Env) (s : PostProcState) (r1 : PostProcState × List Event)
    (h : dataProcessRoutine.doEncode env s = some r1) :
    r1.1.pme.m_ongoingPPQ = s.pme.m_ongoingPPQ ∧
    r1.1.pme.m_pReprocChannel = s.pme.m_pReprocChannel := by
  unfold dataProcessRoutine.doEncode at h
  cases hq : s.pme.m_inputJpegQ with
  | nil =>
    simp only [QCameraQueue.dequeue, hq, if_true, List.head?_nil, List.tail_nil,
      Option.some.injEq] at h
    subst h
    exact ⟨rfl, rfl⟩
  | cons job rest =>
    simp only [QCameraQueue.dequeue, hq, if_true, List.head?_cons, List.tail_cons] at h
    cases he : encodeData env
        { s.pme with m_inputJpegQ := rest,
                     m_ongoingJpegQ := QCameraQueue.enqueue s.pme.m_ongoingJpegQ job }
        job s.needNewSess with
    | none => rw [he] at h; simp at h
    | some r =>
      rw [he] at h
      have hs := (encodeData_sound _ _ _ _ _ he).frame
      simp only [] at h
      split at h
      · simp only [Option.some.injEq] at h
        subst h
        exact ⟨by simpa using hs.ongoingPPQ, by simpa using hs.reprocChannel⟩
      · simp only [Option.some.injEq] at h
        subst h
        exact ⟨by simpa using hs.ongoingPPQ, by simpa using hs.reprocChannel⟩

/-- The raw part of a wake-up leaves `m_ongoingPPQ` and `m_pReprocChannel` alone. -/
theorem doRaw_reproc (env : Env) (s : PostProcState) :
    (dataProcessRoutine.doRaw env s).1.pme.m_ongoingPPQ = s.pme.m_ongoingPPQ ∧
    (dataProcessRoutine.doRaw env s).1.pme.m_pReprocChannel = s.pme.m_pReprocChannel := by
  unfold dataProcessRoutine.doRaw
  cases hq : s.pme.m_inputRawQ with
  | nil => simp [QCameraQueue.dequeue, hq]
  | cons f rest =>
    simp only [QCameraQueue.dequeue, if_true, List.head?_cons, List.tail_cons]
    have h := processRawImageImpl_frame env { s.pme with m_inputRawQ := rest } f
    split <;> (simp only []; rw [h]; simp)

/-- The reprocess part of a wake-up on a state with the frame `f` at the head of the
reprocess-input queue. -/
theorem doReproc_cases (env : Env) (s : PostProcState) (f : mm_camera_super_buf_t)
    (rest : List mm_camera_super_buf_t) (hq : s.pme.m_inputPPQ = f :: rest) :
    ((env.malloc_pp_job = false ∨ s.pme.m_pReprocChannel = none ∨
        env.doReprocess ≠ NO_ERROR) →
      (dataProcessRoutine.doReproc env s).1.pme.m_ongoingPPQ = s.pme.m_ongoingPPQ ∧
      (dataProcessRoutine.doReproc env s).2.filter Event.isRelease
        = releaseSuperBuf env s.pme (some f) ∧
      (dataProcessRoutine.doReproc env s).2.filter Event.isErrorNotify
        = [Event.sendEvtNotify camera_msg_t.CAMERA_MSG_ERROR UNKNOWN_ERROR 0]) ∧
    (env.malloc_pp_job = true → s.pme.m_pReprocChannel ≠ none →
        env.doReprocess = NO_ERROR →
      (dataProcessRoutine.doReproc env s).1.pme.m_ongoingPPQ
        = s.pme.m_ongoingPPQ ++ [{ src_frame := some f }] ∧
      (dataProcessRoutine.doReproc env s).2 = [Event.doReprocess f]) := by
  have hrel : ∀ (p : QCameraPostProcessor), p.m_pReprocChannel = s.pme.m_pReprocChannel →
      (releaseSuperBuf env p (some f)).filter Event.isRelease
        = releaseSuperBuf env s.pme (some f) := by
    intro p hp
    rw [releaseSuperBuf_filter_isRelease, releaseSuperBuf_congr env s.pme p hp]
  have hnot : ∀ (p : QCameraPostProcessor),
      (releaseSuperBuf env p (some f)).filter Event.isErrorNotify = [] := fun p =>
    filter_eq_nil_of_forall (q := Event.isRelease)
      (fun e he => by cases e <;> simp_all [Event.isRelease, Event.isErrorNotify])
      (releaseSuperBuf_isRelease env p (some f))
  have hev1 : (sendEvtNotify camera_msg_t.CAMERA_MSG_ERROR UNKNOWN_ERROR 0).filter
      Event.isRelease = [] := rfl
  have hev2 : (sendEvtNotify camera_msg_t.CAMERA_MSG_ERROR UNKNOWN_ERROR 0).filter
      Event.isErrorNotify
        = [Event.sendEvtNotify camera_msg_t.CAMERA_MSG_ERROR UNKNOWN_ERROR 0] := rfl
  unfold dataProcessRoutine.doReproc
  simp only [QCameraQueue.dequeue, hq, if_true, List.head?_cons, List.tail_cons]
  refine ⟨fun hfail => ?_, fun hm hch hok => ?_⟩
  · cases hm : env.malloc_pp_job with
    | false =>
      simp only [Bool.false_eq_true, if_false, List.nil_append, List.filter_append, hnot,
        hev1, hev2, List.append_nil]
      refine ⟨by first | rfl | trivial, ?_, by first | rfl | trivial⟩
      exact hrel _ rfl
    | true =>
      simp only [if_true]
      cases hch : s.pme.m_pReprocChannel with
      | none =>
        simp only [List.nil_append, List.filter_append, hnot, hev1, hev2, List.append_nil]
        refine ⟨by first | rfl | trivial, ?_, by first | rfl | trivial⟩
        rw [releaseSuperBuf_filter_isRelease]
        exact releaseSuperBuf_congr env _ _ (by simp [hch]) (some f)
      | some ch =>
        have hne : env.doReprocess ≠ NO_ERROR := by
          rcases hfail with h | h | h
          · rw [hm] at h; simp at h
          · rw [hch] at h; simp at h
          · exact h
        simp only []
        rw [if_pos (by simpa using hne)]
        simp only [List.filter_append, hnot, hev1, hev2, List.append_nil]
        refine ⟨?_, ?_, ?_⟩
        · simp [QCameraQueue.dequeue, QCameraQueue.enqueue]
        · rw [releaseSuperBuf_filter_isRelease]
          have : (List.filter Event.isRelease [Event.doReprocess f]) = [] := rfl
          rw [this, List.nil_append]
          exact releaseSuperBuf_congr env _ _ (by simp [hch]) (some f)
        · rfl
  · simp only [hm, if_true]
    cases hc : s.pme.m_pReprocChannel with
    | none => exact absurd hc hch
    | some ch =>
      simp only []
      rw [if_neg (by simp [hok])]
      exact ⟨rfl, rfl⟩

/-- The buffers returned by the raw part of a wake-up whose `processRawImageImpl` call
fails: those returned inside `processRawImageImpl`, then the frame once more. -/
theorem doRaw_failure_releases (env : Env) (s : PostProcState) (f : mm_camera_super_buf_t)
    (rest : List mm_camera_super_buf_t) (hq : s.pme.m_inputRawQ = f :: rest)
    (hfail : (processRawImageImpl env { s.pme with m_inputRawQ := rest } f).1 ≠ NO_ERROR) :
    (dataProcessRoutine.doRaw env s).2.filter Event.isRelease
      = (processRawImageImpl env { s.pme with m_inputRawQ := rest } f).2.2.filter
          Event.isRelease
        ++ releaseSuperBuf env s.pme (some f) := by
  unfold dataProcessRoutine.doRaw
  simp only [QCameraQueue.dequeue, hq, if_true, List.head?_cons, List.tail_cons]
  rw [if_pos (by simpa using hfail)]
  have h := processRawImageImpl_frame env { s.pme with m_inputRawQ := rest } f
  have hc : (processRawImageImpl env { s.pme with m_inputRawQ := rest } f).2.1.m_pReprocChannel
      = s.pme.m_pReprocChannel := by rw [h]
  simp only [List.filter_append, releaseSuperBuf_filter_isRelease,
    releaseSuperBuf_congr env s.pme _ hc]
  simp [sendEvtNotify, Event.isRelease]

/-! ## The status of a dispatch -/

/-- The status `encodeData.dispatch` returns when it is called with the new-session
flag and a client handle: that of `create_session` when it fails, else that of
`start_job`.  The status of `getJpegEncodingConfig` plays no part. -/
theorem dispatch_ret (env : Env) (pme : QCameraPostProcessor)
    (job : qcamera_jpeg_data_t) (f : mm_camera_super_buf_t) (main : StreamFrame)
    (thumb : Option StreamFrame) (t : List Event) (hc : pme.mJpegClientHandle ≠ 0) :
    (encodeData.dispatch env pme job true f main thumb t).ret =
      if env.mJpegHandle.create_session.1 != NO_ERROR then env.mJpegHandle.create_session.1
      else env.mJpegHandle.start_job.1 := by
  simp only [encodeData.dispatch, hc, if_false, if_true]
  split <;> rfl

/-! ## The exif table -/

/-- A call on a full table changes nothing. -/
theorem addEntry_full (cap : Nat) (malloc : Option Nat) (self : QCameraExif) (tagid : Nat)
    (type : exif_tag_type_t) (count : Nat) (data : List Nat)
    (h : cap ≤ self.m_nNumEntries) :
    QCameraExif.addEntry cap malloc self tagid type count data
      = some { rc := NO_MEMORY, exif := self, allocated := none } := by
  unfold QCameraExif.addEntry
  rw [if_pos h]

/-- The three ways a call of `addEntry` on a table that is not full returns.  A single
value of one of the six numeric types is stored inline, without a block.
Otherwise `malloc` is called: when it answers `NULL` the payload of the slot stays
as it was and the call returns `NO_MEMORY`; when it answers a block, the first
`count` elements of the input are copied to it (followed by a 0 for
`EXIF_ASCII`) and the block is stored in the slot. -/
theorem addEntry_cases (cap : Nat) (malloc : Option Nat) (self : QCameraExif) (tagid : Nat)
    (type : exif_tag_type_t) (count : Nat) (data : List Nat) (r : AddEntryResult)
    (hn : self.m_nNumEntries < cap)
    (h : QCameraExif.addEntry cap malloc self tagid type count data = some r) :
    ∃ d,
      r.exif =
        { m_Entries := self.m_Entries.set self.m_nNumEntries
            { tag_id := tagid,
              tag_entry := { type := some type, count := count, copy := 1, data := d } },
          m_nNumEntries := self.m_nNumEntries + 1 } ∧
      ((type.isNumeric = true ∧ count ≤ 1 ∧ r.rc = NO_ERROR ∧ r.allocated = none ∧
          ∃ v, data.head? = some v ∧ d = exif_tag_data_t.scalar v) ∨
       ((type.isNumeric = false ∨ 1 < count) ∧ malloc = none ∧ r.rc = NO_MEMORY ∧
          r.allocated = none ∧
          d = (self.m_Entries.getD self.m_nNumEntries QEXIF_INFO_DATA.zero).tag_entry.data) ∨
       ((type.isNumeric = false ∨ 1 < count) ∧ r.rc = NO_ERROR ∧ count ≤ data.length ∧
          ∃ a, malloc = some a ∧ r.allocated = some a ∧
            d = exif_tag_data_t.array a
              (if type = exif_tag_type_t.EXIF_ASCII then data.take count ++ [0]
               else data.take count))) := by
  unfold QCameraExif.addEntry at h
  rw [if_neg (by omega)] at h
  simp only [] at h
  cases type <;> simp only [] at h <;> (repeat' split at h) <;>
    first
    | (simp at h; done)
    | (simp only [Option.some.injEq] at h
       subst h
       refine ⟨_, rfl, ?_⟩
       simp_all [exif_tag_type_t.isNumeric]
       try omega)

/-- The table the constructor leaves is valid. -/
theorem new_valid (cap : Nat) : QCameraExif.Valid cap (QCameraExif.new cap) := by
  refine ⟨by simp [QCameraExif.new], Nat.zero_le _, fun i _ hi => ?_⟩
  simp [QCameraExif.new, List.getD_eq_getElem?_getD, hi]

/-- A call of `addEntry` keeps the table valid. -/
theorem addEntry_valid (cap : Nat) (malloc : Option Nat) (self : QCameraExif) (tagid : Nat)
    (type : exif_tag_type_t) (count : Nat) (data : List Nat) (r : AddEntryResult)
    (hv : QCameraExif.Valid cap self)
    (h : QCameraExif.addEntry cap malloc self tagid type count data = some r) :
    QCameraExif.Valid cap r.exif := by
  by_cases hn : self.m_nNumEntries < cap
  · obtain ⟨d, hr, -⟩ := addEntry_cases cap malloc self tagid type count data r hn h
    rw [hr]
    refine ⟨by simpa using hv.1, hn, fun i hi hic => ?_⟩
    have := hv.2.2 i (by simp only [] at hi; omega) hic
    simp only [] at hi
    rw [List.getD_eq_getElem?_getD] at this ⊢
    rw [List.getElem?_set_ne (by omega)]
    exact this
  · rw [addEntry_full cap malloc self tagid type count data (by omega)] at h
    simp only [Option.some.injEq] at h
    subst h
    exact hv

/-- The loop of the destructor over a list of entries followed by one more. -/
theorem freeEntries_append (l : List QEXIF_INFO_DATA) (e : QEXIF_INFO_DATA) (fs a : List Nat)
    (hl : QCameraExif.freeEntries l = some fs) (he : QCameraExif.freeEntry e = some a) :
    QCameraExif.freeEntries (l ++ [e]) = some (fs ++ a) := by
  induction l generalizing fs with
  | nil =>
    simp only [QCameraExif.freeEntries, Option.some.injEq] at hl
    subst hl
    simp [QCameraExif.freeEntries, he]
  | cons x l ih =>
    simp only [QCameraExif.freeEntries] at hl
    cases hx : QCameraExif.freeEntry x with
    | none => rw [hx] at hl; simp at hl
    | some fx =>
      cases hr : QCameraExif.freeEntries l with
      | none => rw [hx, hr] at hl; simp at hl
      | some fr =>
        rw [hx, hr] at hl
        simp only [Option.some.injEq] at hl
        subst hl
        simp [QCameraExif.freeEntries, hx, ih fr hr, List.append_assoc]

/-- Writing slot `n` of an array leaves the slots before it as they are. -/
theorem take_set_self {α : Type} (l : List α) (n : Nat) (e : α) :
    (l.set n e).take n = l.take n := by
  induction l generalizing n with
  | nil => simp
  | cons x l ih =>
    cases n with
    | zero => simp
    | succ n => simp [ih]

/-- The destructor after one more call of `addEntry` on a valid table frees what it
would have freed before, and then the block that call allocated, if any. -/
theorem destroy_addEntry (cap : Nat) (malloc : Option Nat) (self : QCameraExif) (tagid : Nat)
    (type : exif_tag_type_t) (count : Nat) (data : List Nat) (r : AddEntryResult)
    (fs : List Nat) (hv : QCameraExif.Valid cap self)
    (h : QCameraExif.addEntry cap malloc self tagid type count data = some r)
    (hd : self.destroy = some fs) :
    r.exif.destroy = some (fs ++ r.allocated.toList) := by
  by_cases hn : self.m_nNumEntries < cap
  · obtain ⟨d, hr, hcase⟩ := addEntry_cases cap malloc self tagid type count data r hn h
    have hlen : self.m_nNumEntries < self.m_Entries.length := by rw [hv.1]; exact hn
    have hold : (self.m_Entries.getD self.m_nNumEntries QEXIF_INFO_DATA.zero).tag_entry.data
        = exif_tag_data_t.zeroed := by
      rw [hv.2.2 _ (Nat.le_refl _) hn]
      rfl
    have htake : ∀ e : QEXIF_INFO_DATA,
        (self.m_Entries.set self.m_nNumEntries e).take (self.m_nNumEntries + 1)
          = self.m_Entries.take self.m_nNumEntries ++ [e] := by
      intro e
      rw [List.take_succ, take_set_self]
      simp [hlen]
    rw [hr]
    unfold QCameraExif.destroy at hd ⊢
    simp only [htake]
    apply freeEntries_append _ _ _ _ hd
    rcases hcase with ⟨hnum, hc, -, ha, v, -, hdv⟩ | ⟨hty, -, -, ha, hdo⟩ |
      ⟨hty, -, -, a, -, ha, hda⟩
    · rw [ha, hdv]
      have hc2 : ¬ 1 < count := by omega
      cases type <;> simp_all [QCameraExif.freeEntry, exif_tag_type_t.isNumeric]
    · rw [ha, hdo, hold]
      cases type <;> simp [QCameraExif.freeEntry]
    · rw [ha, hda]
      cases type <;> simp_all [QCameraExif.freeEntry, exif_tag_type_t.isNumeric]
  · rw [addEntry_full cap malloc self tagid type count data (by omega)] at h
    simp only [Option.some.injEq] at h
    subst h
    simpa using hd

/-- A sequence of `addEntry` calls on a valid table leaves a valid table, of which the
destructor frees what it would have freed before and then the blocks the calls
allocated, in order. -/
theorem addEntries_valid (cap : Nat) (calls : List ExifCall) :
    ∀ (self : QCameraExif) (t : QCameraExif) (rcs : List Int) (blocks fs : List Nat),
      QCameraExif.Valid cap self →
      QCameraExif.addEntries cap self calls = some (t, rcs, blocks) →
      self.destroy = some fs →
      QCameraExif.Valid cap t ∧ t.destroy = some (fs ++ blocks) := by
  induction calls with
  | nil =>
    intro self t rcs blocks fs hv h hd
    simp only [QCameraExif.addEntries, Option.some.injEq, Prod.mk.injEq] at h
    obtain ⟨h1, -, h3⟩ := h
    subst h1
    subst h3
    exact ⟨hv, by simpa using hd⟩
  | cons c rest ih =>
    intro self t rcs blocks fs hv h hd
    simp only [QCameraExif.addEntries] at h
    cases hc : QCameraExif.addEntry cap c.malloc self c.tagid c.type c.count c.data with
    | none => rw [hc] at h; simp at h
    | some r =>
      rw [hc] at h
      simp only [] at h
      cases hr : QCameraExif.addEntries cap r.exif rest with
      | none => rw [hr] at h; simp at h
      | some x =>
        obtain ⟨t2, rcs2, blocks2⟩ := x
        rw [hr] at h
        simp only [Option.some.injEq, Prod.mk.injEq] at h
        obtain ⟨h1, -, h3⟩ := h
        subst h1
        subst h3
        have hv2 := addEntry_valid cap c.malloc self c.tagid c.type c.count c.data r hv hc
        have hd2 := destroy_addEntry cap c.malloc self c.tagid c.type c.count c.data r fs hv
          hc hd
        obtain ⟨a, b⟩ := ih r.exif t2 rcs2 blocks2 _ hv2 hr hd2
        exact ⟨a, by rw [b, List.append_assoc]⟩

/-- A call of `addEntry` on a table that is not full for which `malloc` is called and
answers `NULL`: the call returns `NO_MEMORY`, the slot `m_nNumEntries` has the tag,
the type and the count written and its payload as it was, and the number of
entries goes up by one. -/
theorem addEntry_allocation_failure (cap : Nat) (self : QCameraExif) (tagid : Nat)
    (type : exif_tag_type_t) (count : Nat) (data : List Nat)
    (hn : self.m_nNumEntries < cap) (hcall : type.isNumeric = false ∨ 1 < count) :
    QCameraExif.addEntry cap none self tagid type count data =
      some
        { rc := NO_MEMORY,
          exif :=
            { m_Entries := self.m_Entries.set self.m_nNumEntries
                { tag_id := tagid,
                  tag_entry :=
                    { type := some type, count := count, copy := 1,
                      data := (self.m_Entries.getD self.m_nNumEntries
                        QEXIF_INFO_DATA.zero).tag_entry.data } },
              m_nNumEntries := self.m_nNumEntries + 1 },
          allocated := none } := by
  unfold QCameraExif.addEntry
  rw [if_neg (by omega)]
  cases type <;> simp_all [exif_tag_type_t.isNumeric]

/-! ## The ongoing-encode queue along a run -/

/-- The entry point `start` leaves `m_ongoingJpegQ` alone. -/
theorem start_ongoingJpegQ (env : Env) (pme : QCameraPostProcessor) :
    (start env pme).2.1.m_ongoingJpegQ = pme.m_ongoingJpegQ := by
  unfold start
  simp only []
  repeat' split
  all_goals rfl

/-- The entry point `processRawData` leaves `m_ongoingJpegQ` alone. -/
theorem processRawData_ongoingJpegQ (pme : QCameraPostProcessor) (f : mm_camera_super_buf_t) :
    (processRawData pme f).2.1.m_ongoingJpegQ = pme.m_ongoingJpegQ := by
  unfold processRawData
  split <;> rfl

/-- The entry point `processData` leaves `m_ongoingJpegQ` alone. -/
theorem processData_ongoingJpegQ (env : Env) (pme : QCameraPostProcessor)
    (f : mm_camera_super_buf_t) :
    (processData env pme f).2.1.m_ongoingJpegQ = pme.m_ongoingJpegQ := by
  unfold processData
  simp only []
  repeat' split
  all_goals first
    | rfl
    | exact processRawData_ongoingJpegQ _ _

/-- The entry point `processPPData` leaves `m_ongoingJpegQ` alone. -/
theorem processPPData_ongoingJpegQ (env : Env) (pme : QCameraPostProcessor)
    (f : mm_camera_super_buf_t) :
    (processPPData env pme f).2.1.m_ongoingJpegQ = pme.m_ongoingJpegQ := by
  unfold processPPData
  simp only []
  repeat' split
  all_goals first
    | rfl
    | exact processRawData_ongoingJpegQ _ _

/-- The entry point `processJpegEvt` adds no job to `m_ongoingJpegQ`. -/
theorem processJpegEvt_ongoingJpegQ (env : Env) (pme : QCameraPostProcessor)
    (evt : qcamera_jpeg_evt_payload_t) :
    (processJpegEvt env pme evt).2.1.m_ongoingJpegQ.length ≤ pme.m_ongoingJpegQ.length := by
  have hrest := flushNodes_rest (releaseJpegData env pme) (matchJobId evt.jobId)
    pme.m_ongoingJpegQ
  unfold processJpegEvt
  simp only []
  repeat' split
  all_goals first
    | exact Nat.le_refl _
    | (simp only [hrest]; exact List.length_filter_le _ _)

/-- The save loop adds no job to `m_ongoingJpegQ`. -/
theorem dataSaveRoutine_ongoingJpegQ (env : Env) (cmd : camera_cmd_type_t)
    (s : PostProcState) :
    (dataSaveRoutine env cmd s).1.pme.m_ongoingJpegQ.length ≤ s.pme.m_ongoingJpegQ.length := by
  have hrest : ∀ id, (QCameraQueue.flushNodes (releaseJpegData env s.pme) (matchJobId id)
      s.pme.m_ongoingJpegQ).2.length ≤ s.pme.m_ongoingJpegQ.length := by
    intro id
    rw [flushNodes_rest]
    exact List.length_filter_le _ _
  cases cmd <;> simp only [dataSaveRoutine, dataSaveRoutine.stop, dataSaveRoutine.doNextJob]
  repeat' split
  all_goals first
    | exact Nat.le_refl _
    | exact hrest _

/-- The encode part of a wake-up leaves `m_ongoingJpegQ` as it was, unless
`encodeData` returns `NO_ERROR` for the head of `m_inputJpegQ`: then the job, as
`encodeData` left it, has been added at the tail. -/
theorem doEncode_ongoing (env : Env) (s : PostProcState) (r : PostProcState × List Event)
    (h : dataProcessRoutine.doEncode env s = some r) :
    r.1.pme.m_ongoingJpegQ = s.pme.m_ongoingJpegQ ∨
    ∃ job rest d, s.pme.m_inputJpegQ = job :: rest ∧
      encodeData env
        { s.pme with m_inputJpegQ := rest,
                     m_ongoingJpegQ := QCameraQueue.enqueue s.pme.m_ongoingJpegQ job }
        job s.needNewSess = some d ∧
      d.ret = NO_ERROR ∧ r.2 = d.trace ∧
      r.1.pme.m_ongoingJpegQ = s.pme.m_ongoingJpegQ ++ [d.job] := by
  cases hq : s.pme.m_inputJpegQ with
  | nil =>
    unfold dataProcessRoutine.doEncode at h
    simp only [QCameraQueue.dequeue, hq, if_true, List.head?_nil] at h
    simp only [Option.some.injEq] at h
    subst h
    exact Or.inl rfl
  | cons job rest =>
    cases he : encodeData env
        { s.pme with m_inputJpegQ := rest,
                     m_ongoingJpegQ := QCameraQueue.enqueue s.pme.m_ongoingJpegQ job }
        job s.needNewSess with
    | none =>
      unfold dataProcessRoutine.doEncode at h
      simp only [QCameraQueue.dequeue, hq, if_true, List.head?_cons, List.tail_cons, he] at h
      simp at h
    | some d =>
      by_cases hret : d.ret = NO_ERROR
      · refine Or.inr ⟨job, rest, d, rfl, he, hret, ?_, ?_⟩
        · unfold dataProcessRoutine.doEncode at h
          simp only [QCameraQueue.dequeue, hq, if_true, List.head?_cons, List.tail_cons, he,
            hret] at h
          simp only [bne_self_eq_false, Bool.false_eq_true, if_false, Option.some.injEq] at h
          subst h
          rfl
        · have hs := encodeData_sound _ _ _ _ _ he
          unfold dataProcessRoutine.doEncode at h
          simp only [QCameraQueue.dequeue, hq, if_true, List.head?_cons, List.tail_cons, he,
            hret] at h
          simp only [bne_self_eq_false, Bool.false_eq_true, if_false, Option.some.injEq] at h
          subst h
          show d.pme.m_ongoingJpegQ.dropLast ++ [d.job] = _
          rw [hs.frame.ongoingJpegQ]
          simp [QCameraQueue.enqueue]
      · obtain ⟨s1, t1, h1, h2, -, -⟩ := doEncode_failure env s job rest d hq he hret
        rw [h1] at h
        simp only [Option.some.injEq] at h
        subst h
        exact Or.inl h2

/-- A return of `encodeData` with `NO_ERROR` has called `start_job`. -/
theorem encodeData_ok_start_job (env : Env) (pme : QCameraPostProcessor)
    (job : qcamera_jpeg_data_t) (n : Bool) (r : EncodeDataResult)
    (h : encodeData env pme job n = some r) (hret : r.ret = NO_ERROR) :
    ∃ j, Event.start_job j ∈ r.trace := by
  have hstart : ∀ p f main thumb t,
      ∃ j, Event.start_job j ∈ (encodeData.startJob env p job f main thumb t).trace := by
    intro p f main thumb t
    exact ⟨encodeData.fillJob env p job f main thumb, by simp [encodeData.startJob]⟩
  have hdisp : ∀ f main thumb t,
      (encodeData.dispatch env pme job n f main thumb t).ret = NO_ERROR →
      ∃ j, Event.start_job j ∈ (encodeData.dispatch env pme job n f main thumb t).trace := by
    intro f main thumb t hr
    by_cases hc : pme.mJpegClientHandle = 0
    · simp [encodeData.dispatch, hc, UNKNOWN_ERROR, NO_ERROR] at hr
    · cases n with
      | false =>
        simp only [encodeData.dispatch, hc, if_false, Bool.false_eq_true]
        exact hstart _ _ _ _ _
      | true =>
        by_cases hcs : (env.mJpegHandle.create_session.1 != NO_ERROR) = true
        · simp only [encodeData.dispatch, hc, if_false, if_true, hcs] at hr
          simp only [bne_iff_ne, ne_eq] at hcs
          exact absurd hr hcs
        · simp only [encodeData.dispatch, hc, if_false, if_true, hcs]
          exact hstart _ _ _ _ _
  unfold encodeData at h
  split at h
  · simp at h
  · simp only [] at h
    repeat' split at h
    all_goals first
      | (simp only [Option.some.injEq] at h; subst h; exact hdisp _ _ _ _ hret)
      | (simp only [Option.some.injEq] at h; subst h; exfalso;
          simp [BAD_VALUE, NO_ERROR, UNKNOWN_ERROR, NO_MEMORY] at hret)

/-- One action adds at most one job to `m_ongoingJpegQ`, and only a
`CAMERA_CMD_TYPE_DO_NEXT_JOB` command of the process loop adds one. -/
theorem apply_ongoing_length (env : Env) (s : PostProcState) (a : Action)
    (r : PostProcState × List Event) (h : a.apply env s = some r) :
    r.1.pme.m_ongoingJpegQ.length ≤ s.pme.m_ongoingJpegQ.length + wakeUps [(env, a)] := by
  cases a with
  | start =>
    simp only [Action.apply, Option.some.injEq] at h; subst h
    exact Nat.le_add_right_of_le (Nat.le_of_eq (congrArg _ (start_ongoingJpegQ env s.pme)))
  | processData f =>
    simp only [Action.apply, Option.some.injEq] at h; subst h
    exact Nat.le_add_right_of_le
      (Nat.le_of_eq (congrArg _ (processData_ongoingJpegQ env s.pme f)))
  | processRawData f =>
    simp only [Action.apply, Option.some.injEq] at h; subst h
    exact Nat.le_add_right_of_le
      (Nat.le_of_eq (congrArg _ (processRawData_ongoingJpegQ s.pme f)))
  | processPPData f =>
    simp only [Action.apply, Option.some.injEq] at h; subst h
    exact Nat.le_add_right_of_le
      (Nat.le_of_eq (congrArg _ (processPPData_ongoingJpegQ env s.pme f)))
  | processJpegEvt evt =>
    simp only [Action.apply, Option.some.injEq] at h; subst h
    exact Nat.le_add_right_of_le (processJpegEvt_ongoingJpegQ env s.pme evt)
  | dataSave cmd =>
    simp only [Action.apply, Option.some.injEq] at h; subst h
    exact Nat.le_add_right_of_le (dataSaveRoutine_ongoingJpegQ env cmd s)
  | dataProc cmd =>
    cases cmd with
    | CAMERA_CMD_TYPE_NONE =>
      simp only [Action.apply, dataProcessRoutine, Option.some.injEq] at h; subst h
      exact Nat.le_add_right _ _
    | CAMERA_CMD_TYPE_EXIT =>
      simp only [Action.apply, dataProcessRoutine, Option.some.injEq] at h; subst h
      exact Nat.le_add_right _ _
    | CAMERA_CMD_TYPE_START_DATA_PROC =>
      simp only [Action.apply, dataProcessRoutine, Option.some.injEq] at h; subst h
      exact Nat.le_add_right _ _
    | CAMERA_CMD_TYPE_STOP_DATA_PROC =>
      simp only [Action.apply, dataProcessRoutine, Option.some.injEq] at h; subst h
      simp [dataProcessRoutine.stop]
    | CAMERA_CMD_TYPE_DO_NEXT_JOB =>
      have hw : wakeUps [(env,
          Action.dataProc camera_cmd_type_t.CAMERA_CMD_TYPE_DO_NEXT_JOB)] = 1 := by
        simp [wakeUps]
      rw [hw]
      cases hact : s.is_active with
      | false =>
        simp only [Action.apply, dataProcessRoutine, hact, Bool.false_eq_true, if_false,
          Option.some.injEq] at h
        subst h
        exact Nat.le_add_right _ _
      | true =>
        simp only [Action.apply, dataProcessRoutine, hact, if_true] at h
        unfold dataProcessRoutine.doNextJobActive at h
        cases h1 : dataProcessRoutine.doEncode env s with
        | none => simp [h1] at h
        | some r1 =>
          simp only [h1, Option.some.injEq] at h
          subst h
          simp only [(doReproc_queues env _).2.2.2, (doRaw_queues env _).2.2.2]
          rcases doEncode_ongoing env s r1 h1 with h2 | ⟨job, rest, d, -, -, -, -, h2⟩
          · rw [h2]; exact Nat.le_add_right _ _
          · rw [h2]; simp

/-- Along a run `m_ongoingJpegQ` gains at most one job per
`CAMERA_CMD_TYPE_DO_NEXT_JOB` command of the process loop. -/
theorem run_ongoing_length (acts : List (Env × Action)) :
    ∀ (s : PostProcState) (r : PostProcState × List Event), run s acts = some r →
      r.1.pme.m_ongoingJpegQ.length ≤ s.pme.m_ongoingJpegQ.length + wakeUps acts := by
  induction acts with
  | nil =>
    intro s r h
    simp only [run, Option.some.injEq] at h
    subst h
    exact Nat.le_add_right _ _
  | cons ea rest ih =>
    intro s r h
    obtain ⟨env, a⟩ := ea
    simp only [run] at h
    cases h1 : a.apply env s with
    | none => simp [h1] at h
    | some r1 =>
      simp only [h1] at h
      cases h2 : run r1.1 rest with
      | none => simp [h2] at h
      | some r2 =>
        simp only [h2, Option.some.injEq] at h
        subst h
        have ha := apply_ongoing_length env s a r1 h1
        have hr := ih r1.1 r2 h2
        have hw : wakeUps ((env, a) :: rest) = wakeUps [(env, a)] + wakeUps rest := by
          simp only [wakeUps, List.countP_cons, List.countP_nil]
          omega
        rw [hw]
        show r2.1.pme.m_ongoingJpegQ.length ≤ _
        omega

/-! ## C1: jobs outstanding with the encode backend -/

/-- C1 fails as stated: after Start, two frames are submitted with `processData`, each
followed by the `DoNextJob` wake-up it asked for, and no completion event arrives.
The claim says the ongoing-encode queue holds at most one job and the second job
waits in the encode-input queue; here both jobs end on the ongoing-encode queue, the
encode-input queue is empty and `start_job` was called for both. -/
theorem C1_counterexample_second_job_dispatched_before_first_completes :
    ∃ s tr p j1 j2, run Example.launched Example.twoSubmissions = some (s, tr) ∧
      s.pme.m_ongoingJpegQ
        = [{ Example.job 0 with jobId := 1 }, { Example.job 1 with jobId := 2 }] ∧
      s.pme.m_inputJpegQ = [] ∧
      tr.filter Event.isJpegCall
        = [Event.create_session 1 p, Event.start_job j1, Event.start_job j2] ∧
      j1.src_index = 0 ∧ j2.src_index = 1 :=
  ⟨_, _, _, _, _, rfl, rfl, rfl, rfl, rfl, rfl⟩

/-- C1 as amended: the ongoing-encode queue is not limited to one job; along every run
it gains at most one job per `DoNextJob` wake-up of the process loop. A
`processData` submission adds no job to the ongoing-encode queue and leaves the
encode-input queue as it was or with the job of the submitted frame added at its
tail, and a completion event leaves the encode-input queue as it was. A `DoNextJob`
wake-up taken while the loop is active, with the job `job` at the head of the
encode-input queue, returns, takes that job off the encode-input queue and hands it
to `encodeData` whatever the ongoing-encode queue holds: when `encodeData` returns
`NO_ERROR` then `start_job` has been called and the ongoing-encode queue is the one
before with the job added at its tail, and otherwise the ongoing-encode queue is the
one before. -/
theorem C1_wakeup_dispatches_head_whatever_is_ongoing (env : Env) (s : PostProcState)
    (job : qcamera_jpeg_data_t) (rest : List qcamera_jpeg_data_t)
    (hact : s.is_active = true) (hq : s.pme.m_inputJpegQ = job :: rest)
    (hwf : job.src_frame ≠ none) :
    (∃ s1 tr d,
      dataProcessRoutine env camera_cmd_type_t.CAMERA_CMD_TYPE_DO_NEXT_JOB s = some (s1, tr) ∧
      encodeData env
        { s.pme with m_inputJpegQ := rest,
                     m_ongoingJpegQ := QCameraQueue.enqueue s.pme.m_ongoingJpegQ job }
        job s.needNewSess = some d ∧
      s1.pme.m_inputJpegQ = rest ∧
      (d.ret = NO_ERROR →
        s1.pme.m_ongoingJpegQ = s.pme.m_ongoingJpegQ ++ [d.job] ∧
        d.job.src_frame = job.src_frame ∧
        ∃ j, Event.start_job j ∈ tr) ∧
      (d.ret ≠ NO_ERROR → s1.pme.m_ongoingJpegQ = s.pme.m_ongoingJpegQ)) ∧
    (∀ (env2 : Env) (pme : QCameraPostProcessor) (frame : mm_camera_super_buf_t),
      (processData env2 pme frame).2.1.m_ongoingJpegQ = pme.m_ongoingJpegQ ∧
      ((processData env2 pme frame).2.1.m_inputJpegQ = pme.m_inputJpegQ ∨
        (processData env2 pme frame).2.1.m_inputJpegQ
          = pme.m_inputJpegQ ++
              [{ jobId := 0, src_frame := some frame, src_reproc_frame := none,
                 pJpegExifObj := none }])) ∧
    (∀ (env2 : Env) (pme : QCameraPostProcessor) (evt : qcamera_jpeg_evt_payload_t),
      (processJpegEvt env2 pme evt).2.1.m_inputJpegQ = pme.m_inputJpegQ ∧
      (processJpegEvt env2 pme evt).2.1.m_ongoingJpegQ.length ≤ pme.m_ongoingJpegQ.length) ∧
    (∀ (s0 : PostProcState) (acts : List (Env × Action)) (r : PostProcState × List Event),
      run s0 acts = some r →
      r.1.pme.m_ongoingJpegQ.length ≤ s0.pme.m_ongoingJpegQ.length + wakeUps acts) := by
  refine ⟨?_, fun env2 pme frame => ⟨processData_ongoingJpegQ env2 pme frame, ?_⟩,
    fun env2 pme evt =>
      ⟨processJpegEvt_inputJpegQ env2 pme evt, processJpegEvt_ongoingJpegQ env2 pme evt⟩,
    fun s0 acts r h => run_ongoing_length acts s0 r h⟩
  · obtain ⟨d, hd⟩ := encodeData_returns env
      { s.pme with m_inputJpegQ := rest,
                   m_ongoingJpegQ := QCameraQueue.enqueue s.pme.m_ongoingJpegQ job }
      job s.needNewSess hwf
    have hs := encodeData_sound _ _ _ _ _ hd
    have hhead : ∀ j, s.pme.m_inputJpegQ.head? = some j → j.src_frame ≠ none := by
      intro j hj
      rw [hq] at hj
      simp only [List.head?_cons, Option.some.injEq] at hj
      subst hj
      exact hwf
    obtain ⟨r1, h1, hin, -, -⟩ := doEncode_queues env s hhead
    have hrun : dataProcessRoutine env camera_cmd_type_t.CAMERA_CMD_TYPE_DO_NEXT_JOB s
        = some ((dataProcessRoutine.doReproc env (dataProcessRoutine.doRaw env r1.1).1).1,
            r1.2 ++ (dataProcessRoutine.doRaw env r1.1).2
              ++ (dataProcessRoutine.doReproc env (dataProcessRoutine.doRaw env r1.1).1).2) := by
      simp only [dataProcessRoutine, hact, if_true, dataProcessRoutine.doNextJobActive, h1]
    have hin2 : (dataProcessRoutine.doReproc env
        (dataProcessRoutine.doRaw env r1.1).1).1.pme.m_inputJpegQ = rest := by
      rw [(doReproc_queues env _).1, (doRaw_queues env _).1, hin, hq]
      rfl
    have hong : (dataProcessRoutine.doReproc env
        (dataProcessRoutine.doRaw env r1.1).1).1.pme.m_ongoingJpegQ
        = r1.1.pme.m_ongoingJpegQ := by
      rw [(doReproc_queues env _).2.2.2, (doRaw_queues env _).2.2.2]
    refine ⟨_, _, d, hrun, hd, hin2, fun hok => ?_, fun hbad => ?_⟩
    · rcases doEncode_ongoing env s r1 h1 with h2 | ⟨job2, rest2, d2, hq2, hd2, -, htr, h2⟩
      · exfalso
        unfold dataProcessRoutine.doEncode at h1
        simp only [QCameraQueue.dequeue, hq, if_true, List.head?_cons, List.tail_cons, hd,
          hok] at h1
        simp only [bne_self_eq_false, Bool.false_eq_true, if_false, Option.some.injEq] at h1
        subst h1
        have hlen := congrArg List.length h2
        simp only [hs.frame.ongoingJpegQ, QCameraQueue.enqueue] at hlen
        simp at hlen
      · rw [hq] at hq2
        simp only [List.cons.injEq] at hq2
        obtain ⟨hj, hr⟩ := hq2
        subst hj
        subst hr
        rw [hd] at hd2
        simp only [Option.some.injEq] at hd2
        subst hd2
        refine ⟨by rw [hong, h2], hs.src_frame, ?_⟩
        obtain ⟨j, hj⟩ := encodeData_ok_start_job env _ _ _ _ hd hok
        exact ⟨j, by rw [htr]; simp [hj]⟩
    · obtain ⟨s1, t1, hf1, hf2, -, -⟩ := doEncode_failure env s job rest d hq hd hbad
      rw [hf1] at h1
      simp only [Option.some.injEq] at h1
      subst h1
      rw [hong]
      exact hf2
  · unfold processData
    simp only []
    repeat' split
    all_goals first
      | exact Or.inl rfl
      | exact Or.inl (processRawData_inputJpegQ _ _)
      | exact Or.inr rfl

/-- C1 as amended is not vacuous: on `Example.activeQueued`, where job 4 is on the
ongoing-encode queue, an active wake-up dispatches the head of the encode-input
queue and leaves two jobs on the ongoing-encode queue. -/
theorem C1_witness :
    Example.activeQueued.is_active = true ∧
    Example.activeQueued.pme.m_inputJpegQ = [Example.job 0, Example.job 1] ∧
    Example.activeQueued.pme.m_ongoingJpegQ = [{ Example.job 9 with jobId := 4 }] ∧
    (∃ s1 tr, dataProcessRoutine (Example.env 1) camera_cmd_type_t.CAMERA_CMD_TYPE_DO_NEXT_JOB
        Example.activeQueued = some (s1, tr) ∧
      s1.pme.m_ongoingJpegQ
        = [{ Example.job 9 with jobId := 4 }, { Example.job 0 with jobId := 1 }]) ∧
    (∃ s1 tr d, dataProcessRoutine (Example.env 1)
        camera_cmd_type_t.CAMERA_CMD_TYPE_DO_NEXT_JOB Example.activeQueued = some (s1, tr) ∧
      encodeData (Example.env 1) Example.dispatching (Example.job 0)
        Example.activeQueued.needNewSess = some d ∧
      s1.pme.m_inputJpegQ = [Example.job 1] ∧
      (d.ret = NO_ERROR →
        s1.pme.m_ongoingJpegQ = Example.activeQueued.pme.m_ongoingJpegQ ++ [d.job] ∧
        d.job.src_frame = (Example.job 0).src_frame ∧
        ∃ j, Event.start_job j ∈ tr) ∧
      (d.ret ≠ NO_ERROR →
        s1.pme.m_ongoingJpegQ = Example.activeQueued.pme.m_ongoingJpegQ)) :=
  ⟨rfl, rfl, rfl, ⟨_, _, rfl, rfl⟩,
    (C1_wakeup_dispatches_head_whatever_is_ongoing (Example.env 1) Example.activeQueued
      (Example.job 0) [Example.job 1] rfl rfl (by decide)).1⟩

/-! ## C2: completion events that match no job -/

/-- C2 fails as stated: a completion event handled inline whose jobId (2) matches no job
on the ongoing-encode queue is still delivered, as one `CAMERA_MSG_COMPRESSED_IMAGE`
callback carrying the first `buf_filled_len` bytes of its output buffer. -/
theorem C2_counterexample_unmatched_event_is_delivered :
    Example.activeQueued.pme.m_bInited = true ∧
    (Example.activeQueued.pme.mUseSaveProc && (Example.env 1).m_parent.isLongshotEnabled)
      = false ∧
    (∀ job ∈ Example.activeQueued.pme.m_ongoingJpegQ, job.jobId ≠ Example.lateEvt.jobId) ∧
    ∃ cbArg,
      ((processJpegEvt (Example.env 1) Example.activeQueued.pme Example.lateEvt).2.2.filter
        Event.isNotifyCallback) = [Event.notifyCallback cbArg] ∧
      cbArg.msg_type = camera_msg_t.CAMERA_MSG_COMPRESSED_IMAGE ∧
      cbArg.data = some { data := [255, 216, 255, 217], size := 4 } := by
  refine ⟨rfl, rfl, by decide, _, rfl, rfl, rfl⟩

/-- C2 as amended: for every completion event handled inline by `processJpegEvt` whose
jobId matches no job on the ongoing-encode queue, the post processor object (its
queues included) is left unchanged and no job is released (no buffer returned, no
exif object deleted).  When JPEG delivery is disabled the event returns `NO_ERROR`
and makes no call but the wake-up of the process loop, so no delivery and no error
notification is sent; when JPEG delivery is enabled the event is handled like any
other and hands a callback to the notifier or sends the error notification. -/
theorem C2_unmatched_event_releases_nothing (env : Env) (pme : QCameraPostProcessor)
    (evt : qcamera_jpeg_evt_payload_t)
    (hinit : pme.m_bInited = true)
    (hinline : (pme.mUseSaveProc && env.m_parent.isLongshotEnabled) = false)
    (hnomatch : ∀ job ∈ pme.m_ongoingJpegQ, job.jobId ≠ evt.jobId) :
    (processJpegEvt env pme evt).2.1 = pme ∧
    (∀ e ∈ (processJpegEvt env pme evt).2.2, e.isJobRelease = false) ∧
    ((env.m_parent.mDataCb &&
        env.m_parent.msgTypeEnabledWithLock camera_msg_t.CAMERA_MSG_COMPRESSED_IMAGE) = false →
      (processJpegEvt env pme evt).1 = NO_ERROR ∧
      (processJpegEvt env pme evt).2.2
        = [Event.sendCmd CmdThread.m_dataProcTh
            camera_cmd_type_t.CAMERA_CMD_TYPE_DO_NEXT_JOB false false]) ∧
    ((env.m_parent.mDataCb &&
        env.m_parent.msgTypeEnabledWithLock camera_msg_t.CAMERA_MSG_COMPRESSED_IMAGE) = true →
      (∃ cbArg, Event.notifyCallback cbArg ∈ (processJpegEvt env pme evt).2.2) ∨
      Event.sendEvtNotify camera_msg_t.CAMERA_MSG_ERROR UNKNOWN_ERROR 0
        ∈ (processJpegEvt env pme evt).2.2) := by
  rw [processJpegEvt_unmatched env pme evt hinit hinline hnomatch]
  refine ⟨rfl, ?_, ?_, ?_⟩
  · intro e he
    simp only [List.mem_append, List.mem_singleton] at he
    rcases he with (he | he) | he
    · exact deliver_no_release _ _ _ e he
    · exact onEnd_no_release _ e he
    · subst he; rfl
  · intro hdis
    have hdis2 : (!env.m_parent.mDataCb ||
        !env.m_parent.msgTypeEnabledWithLock camera_msg_t.CAMERA_MSG_COMPRESSED_IMAGE) = true := by
      cases h1 : env.m_parent.mDataCb <;>
        cases h2 : env.m_parent.msgTypeEnabledWithLock camera_msg_t.CAMERA_MSG_COMPRESSED_IMAGE <;>
        simp_all
    have hd : processJpegEvt.deliver env pme evt = (NO_ERROR, none, []) := by
      unfold processJpegEvt.deliver
      rw [if_pos hdis2]
    rw [hd]
    exact ⟨rfl, rfl⟩
  · intro hen
    rcases deliver_enabled env pme evt hen with ⟨cbArg, hcb⟩ | hrc
    · exact Or.inl ⟨cbArg, List.mem_append_left _ (List.mem_append_left _ hcb)⟩
    · refine Or.inr (List.mem_append_left _ (List.mem_append_right _ ?_))
      have hne : ((processJpegEvt.deliver env pme evt).1 != NO_ERROR) = true := by
        simpa using hrc
      simp [processJpegEvt.onEnd, hne, sendEvtNotify]

/-- C2 as amended is not vacuous: its hypotheses hold for the event `Example.lateEvt` on
`Example.activeQueued` with JPEG delivery disabled. -/
theorem C2_witness :
    Example.activeQueued.pme.m_bInited = true ∧
    (Example.activeQueued.pme.mUseSaveProc && Example.envNoDelivery.m_parent.isLongshotEnabled)
      = false ∧
    (∀ job ∈ Example.activeQueued.pme.m_ongoingJpegQ, job.jobId ≠ Example.lateEvt.jobId) ∧
    (processJpegEvt Example.envNoDelivery Example.activeQueued.pme Example.lateEvt).2.1
      = Example.activeQueued.pme ∧
    (∀ e ∈ (processJpegEvt Example.envNoDelivery Example.activeQueued.pme Example.lateEvt).2.2,
      e.isJobRelease = false) ∧
    ((Example.envNoDelivery.m_parent.mDataCb &&
        Example.envNoDelivery.m_parent.msgTypeEnabledWithLock
          camera_msg_t.CAMERA_MSG_COMPRESSED_IMAGE) = false →
      (processJpegEvt Example.envNoDelivery Example.activeQueued.pme Example.lateEvt).1
        = NO_ERROR ∧
      (processJpegEvt Example.envNoDelivery Example.activeQueued.pme Example.lateEvt).2.2
        = [Event.sendCmd CmdThread.m_dataProcTh
            camera_cmd_type_t.CAMERA_CMD_TYPE_DO_NEXT_JOB false false]) ∧
    ((Example.envNoDelivery.m_parent.mDataCb &&
        Example.envNoDelivery.m_parent.msgTypeEnabledWithLock
          camera_msg_t.CAMERA_MSG_COMPRESSED_IMAGE) = true →
      (∃ cbArg, Event.notifyCallback cbArg
        ∈ (processJpegEvt Example.envNoDelivery Example.activeQueued.pme Example.lateEvt).2.2) ∨
      Event.sendEvtNotify camera_msg_t.CAMERA_MSG_ERROR UNKNOWN_ERROR 0
        ∈ (processJpegEvt Example.envNoDelivery Example.activeQueued.pme Example.lateEvt).2.2) :=
  ⟨rfl, rfl, by decide,
    C2_unmatched_event_releases_nothing Example.envNoDelivery Example.activeQueued.pme
      Example.lateEvt rfl rfl (by decide)⟩

/-! ## C3: the state after Stop -/

/-- C3: for every state, handling Stop in the process loop returns, and afterwards the
ongoing-encode, ongoing-reprocess, encode-input, reprocess-input and raw-input
queues are empty, the encode session id is 0, the reprocessing channel is absent,
the loop is inactive and the new-session flag is set. -/
theorem C3_stop_empties_pipeline (env : Env) (s : PostProcState) :
    ∃ s' tr, dataProcessRoutine env camera_cmd_type_t.CAMERA_CMD_TYPE_STOP_DATA_PROC s
        = some (s', tr) ∧
      s'.pme.m_ongoingJpegQ = [] ∧ s'.pme.m_ongoingPPQ = [] ∧ s'.pme.m_inputJpegQ = [] ∧
      s'.pme.m_inputPPQ = [] ∧ s'.pme.m_inputRawQ = [] ∧ s'.pme.mJpegSessionId = 0 ∧
      s'.pme.m_pReprocChannel = none ∧ s'.is_active = false ∧ s'.needNewSess = true :=
  ⟨_, _, rfl, rfl, rfl, rfl, rfl, rfl, rfl, rfl, rfl, rfl⟩

/-! ## C4: Stop aborts every ongoing job before destroying the session -/

/-- C4: for every state, the calls that handling Stop makes into the jpeg interface are
exactly one `abort_job` per job of the ongoing-encode queue, with the jobId of that
job and in queue order, followed by `destroy_session` when, and only when, the
session id is greater than 0. -/
theorem C4_stop_aborts_then_destroys (env : Env) (s : PostProcState) :
    ∃ s' tr, dataProcessRoutine env camera_cmd_type_t.CAMERA_CMD_TYPE_STOP_DATA_PROC s
        = some (s', tr) ∧
      tr.filter Event.isJpegCall
        = s.pme.m_ongoingJpegQ.map (fun job => Event.abort_job job.jobId)
          ++ (if 0 < s.pme.mJpegSessionId then [Event.destroy_session s.pme.mJpegSessionId]
              else []) := by
  refine ⟨_, _, rfl, ?_⟩
  simp only [dataProcessRoutine.stop, dataSaveRoutine.stop, List.filter_append,
    cancelJobs_jpegCalls]
  rw [flush_jpegCalls (releaseOngoingPPData env _) (fun a => releaseSuperBuf_jpegCalls _ _ _),
    flush_jpegCalls (releaseJpegData env _) (fun a => releaseJpegJobData_jpegCalls _ _ _),
    flush_jpegCalls (releasePPInputData env _) (fun a => releaseSuperBuf_jpegCalls _ _ _),
    flush_jpegCalls (releaseRawData env _) (fun a => releaseSuperBuf_jpegCalls _ _ _)]
  cases s.pme.m_pJpegOutputMem <;> cases s.pme.m_pJpegExifObj <;>
    cases s.pme.m_pReprocChannel <;> by_cases h : 0 < s.pme.mJpegSessionId <;>
    simp [Event.isJpegCall, h]

/-! ## C5: Stop after Stop -/

/-- C5: handling Stop in the state left by a previous Stop leaves that state unchanged
and makes no call but the Stop forwarded to the save loop: no `abort_job`, no
`destroy_session`, no buffer release. -/
theorem C5_stop_idempotent (env env2 : Env) (s : PostProcState) :
    ∃ s1 t1, dataProcessRoutine env camera_cmd_type_t.CAMERA_CMD_TYPE_STOP_DATA_PROC s
        = some (s1, t1) ∧
      dataProcessRoutine env2 camera_cmd_type_t.CAMERA_CMD_TYPE_STOP_DATA_PROC s1
        = some (s1, [Event.sendCmd CmdThread.m_saveProcTh
            camera_cmd_type_t.CAMERA_CMD_TYPE_STOP_DATA_PROC true true]) := by
  refine ⟨_, _, rfl, ?_⟩
  simp [dataProcessRoutine, dataProcessRoutine.stop, dataSaveRoutine.stop,
    dataProcessRoutine.cancelJobs, QCameraQueue.flush]

/-! ## C6: an active wake-up takes one item from each input queue -/

/-- C6: when the loop is active and the job at the head of the encode-input queue has
its source frame set, a `DoNextJob` wake-up returns; it is the encode part, then the
raw part, then the reprocess part, each run on the state the previous one left and
their calls following each other in that order; each part removes the head, if any,
of its own input queue and leaves the other two input queues as they are, so that in
the end each of the three queues has lost `min(1, length)` items from its head and
keeps the rest in order. -/
theorem C6_active_wakeup_takes_one_from_each (env : Env) (s : PostProcState)
    (hactive : s.is_active = true)
    (hwf : ∀ job, s.pme.m_inputJpegQ.head? = some job → job.src_frame ≠ none) :
    ∃ r1 r2 r3 : PostProcState × List Event,
      dataProcessRoutine.doEncode env s = some r1 ∧
      dataProcessRoutine.doRaw env r1.1 = r2 ∧
      dataProcessRoutine.doReproc env r2.1 = r3 ∧
      dataProcessRoutine env camera_cmd_type_t.CAMERA_CMD_TYPE_DO_NEXT_JOB s
        = some (r3.1, r1.2 ++ r2.2 ++ r3.2) ∧
      (r1.1.pme.m_inputJpegQ = s.pme.m_inputJpegQ.drop 1 ∧
        r1.1.pme.m_inputRawQ = s.pme.m_inputRawQ ∧
        r1.1.pme.m_inputPPQ = s.pme.m_inputPPQ) ∧
      (r2.1.pme.m_inputJpegQ = s.pme.m_inputJpegQ.drop 1 ∧
        r2.1.pme.m_inputRawQ = s.pme.m_inputRawQ.drop 1 ∧
        r2.1.pme.m_inputPPQ = s.pme.m_inputPPQ) ∧
      (r3.1.pme.m_inputJpegQ = s.pme.m_inputJpegQ.drop 1 ∧
        r3.1.pme.m_inputRawQ = s.pme.m_inputRawQ.drop 1 ∧
        r3.1.pme.m_inputPPQ = s.pme.m_inputPPQ.drop 1) := by
  obtain ⟨r1, h1, hj1, hr1, hp1⟩ := doEncode_queues env s hwf
  obtain ⟨hj2, hr2, hp2, -⟩ := doRaw_queues env r1.1
  obtain ⟨hj3, hr3, hp3, -⟩ := doReproc_queues env (dataProcessRoutine.doRaw env r1.1).1
  refine ⟨r1, _, _, h1, rfl, rfl, ?_, ⟨hj1, hr1, hp1⟩, ⟨?_, ?_, ?_⟩, ⟨?_, ?_, ?_⟩⟩
  · simp [dataProcessRoutine, hactive, dataProcessRoutine.doNextJobActive, h1]
  · rw [hj2, hj1]
  · rw [hr2, hr1]
  · rw [hp2, hp1]
  · rw [hj3, hj2, hj1]
  · rw [hr3, hr2, hr1]
  · rw [hp3, hp2, hp1]

/-- C6 is not vacuous: its hypotheses hold for `Example.activeQueued`. -/
theorem C6_witness :
    Example.activeQueued.is_active = true ∧
    (∀ job, Example.activeQueued.pme.m_inputJpegQ.head? = some job → job.src_frame ≠ none) ∧
    ∃ r1 r2 r3 : PostProcState × List Event,
      dataProcessRoutine.doEncode (Example.env 1) Example.activeQueued = some r1 ∧
      dataProcessRoutine.doRaw (Example.env 1) r1.1 = r2 ∧
      dataProcessRoutine.doReproc (Example.env 1) r2.1 = r3 ∧
      dataProcessRoutine (Example.env 1) camera_cmd_type_t.CAMERA_CMD_TYPE_DO_NEXT_JOB
          Example.activeQueued
        = some (r3.1, r1.2 ++ r2.2 ++ r3.2) ∧
      (r1.1.pme.m_inputJpegQ = Example.activeQueued.pme.m_inputJpegQ.drop 1 ∧
        r1.1.pme.m_inputRawQ = Example.activeQueued.pme.m_inputRawQ ∧
        r1.1.pme.m_inputPPQ = Example.activeQueued.pme.m_inputPPQ) ∧
      (r2.1.pme.m_inputJpegQ = Example.activeQueued.pme.m_inputJpegQ.drop 1 ∧
        r2.1.pme.m_inputRawQ = Example.activeQueued.pme.m_inputRawQ.drop 1 ∧
        r2.1.pme.m_inputPPQ = Example.activeQueued.pme.m_inputPPQ) ∧
      (r3.1.pme.m_inputJpegQ = Example.activeQueued.pme.m_inputJpegQ.drop 1 ∧
        r3.1.pme.m_inputRawQ = Example.activeQueued.pme.m_inputRawQ.drop 1 ∧
        r3.1.pme.m_inputPPQ = Example.activeQueued.pme.m_inputPPQ.drop 1) :=
  ⟨rfl, fun job h => by cases h; decide,
    C6_active_wakeup_takes_one_from_each (Example.env 1) Example.activeQueued rfl
      (fun job h => by cases h; decide)⟩

/-! ## C7: dispatch failure -/

/-- C7: when the loop is active and `encodeData` returns a non-zero status for the job
`J` taken from the head of the encode-input queue, then after the encode part, and
after the whole wake-up, the ongoing-encode queue is exactly what it was before (`J`
is not on it); the buffers returned by the encode part are those of one
`releaseSuperBuf` call on the pre-reprocess frame of `J` and one on its source
frame, one return per frame that is not `NULL`; and the encode part sends exactly
one `CAMERA_MSG_ERROR` notification. -/
theorem C7_dispatch_failure_cleanup (env : Env) (s : PostProcState)
    (J : qcamera_jpeg_data_t) (rest : List qcamera_jpeg_data_t) (r : EncodeDataResult)
    (hactive : s.is_active = true)
    (hq : s.pme.m_inputJpegQ = J :: rest)
    (henc : encodeData env
      { s.pme with m_inputJpegQ := rest,
                   m_ongoingJpegQ := QCameraQueue.enqueue s.pme.m_ongoingJpegQ J }
      J s.needNewSess = some r)
    (hret : r.ret ≠ NO_ERROR) :
    ∃ s1 t1 s2 t2,
      dataProcessRoutine.doEncode env s = some (s1, t1) ∧
      dataProcessRoutine env camera_cmd_type_t.CAMERA_CMD_TYPE_DO_NEXT_JOB s = some (s2, t1 ++ t2) ∧
      s1.pme.m_ongoingJpegQ = s.pme.m_ongoingJpegQ ∧
      s2.pme.m_ongoingJpegQ = s.pme.m_ongoingJpegQ ∧
      t1.filter Event.isRelease
        = releaseSuperBuf env s.pme J.src_reproc_frame ++ releaseSuperBuf env s.pme J.src_frame ∧
      (t1.filter Event.isRelease).length
        = J.src_reproc_frame.toList.length + J.src_frame.toList.length ∧
      t1.filter Event.isErrorNotify
        = [Event.sendEvtNotify camera_msg_t.CAMERA_MSG_ERROR UNKNOWN_ERROR 0] := by
  obtain ⟨s1, t1, h1, hong, hfr, herr⟩ := doEncode_failure env s J rest r hq henc hret
  refine ⟨s1, t1, (dataProcessRoutine.doReproc env (dataProcessRoutine.doRaw env s1).1).1,
    (dataProcessRoutine.doRaw env s1).2
      ++ (dataProcessRoutine.doReproc env (dataProcessRoutine.doRaw env s1).1).2,
    h1, ?_, hong, ?_, hfr, ?_, herr⟩
  · simp only [dataProcessRoutine, hactive, if_true, dataProcessRoutine.doNextJobActive, h1,
      List.append_assoc]
  · rw [(doReproc_queues env _).2.2.2, (doRaw_queues env _).2.2.2]
    exact hong
  · rw [hfr, List.length_append, releaseSuperBuf_length, releaseSuperBuf_length]

/-- C7 is not vacuous: its hypotheses hold for `Example.activeQueued` when the backend
refuses to create a session. -/
theorem C7_witness :
    Example.activeQueued.is_active = true ∧
    Example.activeQueued.pme.m_inputJpegQ = Example.job 0 :: [Example.job 1] ∧
    encodeData Example.envCreateFails Example.dispatching (Example.job 0)
        Example.activeQueued.needNewSess = some Example.failedDispatch ∧
    Example.failedDispatch.ret ≠ NO_ERROR ∧
    ∃ s1 t1 s2 t2,
      dataProcessRoutine.doEncode Example.envCreateFails Example.activeQueued = some (s1, t1) ∧
      dataProcessRoutine Example.envCreateFails camera_cmd_type_t.CAMERA_CMD_TYPE_DO_NEXT_JOB
          Example.activeQueued = some (s2, t1 ++ t2) ∧
      s1.pme.m_ongoingJpegQ = Example.activeQueued.pme.m_ongoingJpegQ ∧
      s2.pme.m_ongoingJpegQ = Example.activeQueued.pme.m_ongoingJpegQ ∧
      t1.filter Event.isRelease
        = releaseSuperBuf Example.envCreateFails Example.activeQueued.pme
            (Example.job 0).src_reproc_frame
          ++ releaseSuperBuf Example.envCreateFails Example.activeQueued.pme
            (Example.job 0).src_frame ∧
      (t1.filter Event.isRelease).length
        = (Example.job 0).src_reproc_frame.toList.length
          + (Example.job 0).src_frame.toList.length ∧
      t1.filter Event.isErrorNotify
        = [Event.sendEvtNotify camera_msg_t.CAMERA_MSG_ERROR UNKNOWN_ERROR 0] :=
  ⟨rfl, rfl, rfl, by decide,
    C7_dispatch_failure_cleanup Example.envCreateFails Example.activeQueued (Example.job 0)
      [Example.job 1] Example.failedDispatch rfl rfl rfl (by decide)⟩

/-! ## C8: an inactive wake-up and the depth of the input queues -/

/-- C8 fails as stated: with two raw frames submitted while the loop is inactive, one
`DoNextJob` wake-up leaves the second frame on the raw-input queue. -/
theorem C8_counterexample_inactive_wakeup_leaves_items :
    ∃ s tr, run Example.launched Example.twoRawWhileInactive = some (s, tr) ∧
      s.is_active = false ∧ s.pme.m_inputRawQ = [Example.frame 1] ∧ s.pme.m_inputRawQ ≠ [] :=
  ⟨_, _, rfl, rfl, rfl, by decide⟩

/-- C8 as amended: for every inactive state, one `DoNextJob` wake-up removes the head,
if any, of each of the encode-input, raw-input and reprocess-input queues and keeps
the rest in order; a queue is empty afterwards exactly when it held at most one item
before. -/
theorem C8_inactive_wakeup_takes_head_only (env : Env) (s : PostProcState)
    (hinactive : s.is_active = false) :
    ∃ s' tr, dataProcessRoutine env camera_cmd_type_t.CAMERA_CMD_TYPE_DO_NEXT_JOB s
        = some (s', tr) ∧
      s'.pme.m_inputJpegQ = s.pme.m_inputJpegQ.drop 1 ∧
      s'.pme.m_inputRawQ = s.pme.m_inputRawQ.drop 1 ∧
      s'.pme.m_inputPPQ = s.pme.m_inputPPQ.drop 1 ∧
      (s'.pme.m_inputJpegQ = [] ↔ s.pme.m_inputJpegQ.length ≤ 1) ∧
      (s'.pme.m_inputRawQ = [] ↔ s.pme.m_inputRawQ.length ≤ 1) ∧
      (s'.pme.m_inputPPQ = [] ↔ s.pme.m_inputPPQ.length ≤ 1) := by
  refine ⟨_, _, (dataProcessRoutine_inactive env s hinactive).trans rfl, ?_⟩
  simp [dataProcessRoutine.doNextJobInactive, QCameraQueue.dequeue, tail_eq_nil_iff]

/-- C8 as amended is not vacuous: its hypothesis holds for `Example.inactiveQueued`. -/
theorem C8_witness :
    Example.inactiveQueued.is_active = false ∧
    ∃ s' tr, dataProcessRoutine (Example.env 1) camera_cmd_type_t.CAMERA_CMD_TYPE_DO_NEXT_JOB
          Example.inactiveQueued = some (s', tr) ∧
      s'.pme.m_inputJpegQ = Example.inactiveQueued.pme.m_inputJpegQ.drop 1 ∧
      s'.pme.m_inputRawQ = Example.inactiveQueued.pme.m_inputRawQ.drop 1 ∧
      s'.pme.m_inputPPQ = Example.inactiveQueued.pme.m_inputPPQ.drop 1 ∧
      (s'.pme.m_inputJpegQ = [] ↔ Example.inactiveQueued.pme.m_inputJpegQ.length ≤ 1) ∧
      (s'.pme.m_inputRawQ = [] ↔ Example.inactiveQueued.pme.m_inputRawQ.length ≤ 1) ∧
      (s'.pme.m_inputPPQ = [] ↔ Example.inactiveQueued.pme.m_inputPPQ.length ≤ 1) :=
  ⟨rfl, C8_inactive_wakeup_takes_head_only (Example.env 1) Example.inactiveQueued rfl⟩

/-! ## C9: an inactive wake-up only releases -/

/-- C9: for every inactive state, a `DoNextJob` wake-up returns and changes nothing but
the three input queues, each losing its head; its calls are exactly one
`releaseSuperBuf` on the pre-reprocess frame and one on the source frame of the
encode job removed (followed by the deletion of its exif object if it has one), one
on the raw frame removed and one on the reprocess frame removed, a `NULL` frame
giving no call; so it makes none of the calls of `encodeData`, `processRawImageImpl`
or `doReprocess`, sends no callback to the notifier and no error notification. -/
theorem C9_inactive_wakeup_only_releases (env : Env) (s : PostProcState)
    (hinactive : s.is_active = false) :
    ∃ s' tr, dataProcessRoutine env camera_cmd_type_t.CAMERA_CMD_TYPE_DO_NEXT_JOB s
        = some (s', tr) ∧
      s' = { s with pme := { s.pme with
                m_inputJpegQ := s.pme.m_inputJpegQ.drop 1,
                m_inputRawQ := s.pme.m_inputRawQ.drop 1,
                m_inputPPQ := s.pme.m_inputPPQ.drop 1 } } ∧
      tr = (match s.pme.m_inputJpegQ.head? with
            | some job =>
              releaseSuperBuf env s.pme job.src_reproc_frame
                ++ releaseSuperBuf env s.pme job.src_frame
                ++ (match job.pJpegExifObj with
                    | some p => [Event.deleteExif p]
                    | none => [])
            | none => [])
          ++ releaseSuperBuf env s.pme s.pme.m_inputRawQ.head?
          ++ releaseSuperBuf env s.pme s.pme.m_inputPPQ.head? ∧
      (∀ e ∈ tr, e.isJobRelease = true) ∧
      tr.filter Event.isNotifyCallback = [] ∧
      tr.filter Event.isErrorNotify = [] ∧
      tr.filter Event.isEncodeCall = [] ∧
      (∀ f, Event.doReprocess f ∉ tr) ∧ Event.playShutter ∉ tr := by
  have hall : ∀ e ∈ (dataProcessRoutine.doNextJobInactive env s).2, e.isJobRelease = true := by
    intro e he
    simp only [dataProcessRoutine.doNextJobInactive, List.mem_append] at he
    rcases he with (he | he) | he
    · split at he
      · exact releaseJpegJobData_isJobRelease _ _ _ e he
      · simp at he
    · split at he
      · exact isJobRelease_of_isRelease (releaseSuperBuf_isRelease _ _ _ e he)
      · simp at he
    · split at he
      · exact isJobRelease_of_isRelease (releaseSuperBuf_isRelease _ _ _ e he)
      · simp at he
  refine ⟨_, _, (dataProcessRoutine_inactive env s hinactive).trans rfl, ?_, ?_, hall,
    filter_eq_nil_of_forall ?_ hall, filter_eq_nil_of_forall ?_ hall,
    filter_eq_nil_of_forall ?_ hall, ?_, ?_⟩
  · simp [dataProcessRoutine.doNextJobInactive, QCameraQueue.dequeue]
  · simp only [dataProcessRoutine.doNextJobInactive, QCameraQueue.dequeue, if_true]
    cases s.pme.m_inputJpegQ.head? <;> cases s.pme.m_inputRawQ.head? <;>
      cases s.pme.m_inputPPQ.head? <;> simp [releaseJpegJobData, releaseSuperBuf]
  · exact isJobRelease_not_isNotifyCallback
  · exact isJobRelease_not_isErrorNotify
  · exact isJobRelease_not_isEncodeCall
  · intro f hf; exact absurd (hall _ hf) (by simp [Event.isJobRelease, Event.isRelease])
  · intro hf; exact absurd (hall _ hf) (by simp [Event.isJobRelease, Event.isRelease])

/-- C9 is not vacuous: its hypothesis holds for `Example.inactiveQueued`. -/
theorem C9_witness :
    Example.inactiveQueued.is_active = false ∧
    ∃ s' tr, dataProcessRoutine (Example.env 1) camera_cmd_type_t.CAMERA_CMD_TYPE_DO_NEXT_JOB
          Example.inactiveQueued = some (s', tr) ∧
      s' = { Example.inactiveQueued with pme := { Example.inactiveQueued.pme with
                m_inputJpegQ := Example.inactiveQueued.pme.m_inputJpegQ.drop 1,
                m_inputRawQ := Example.inactiveQueued.pme.m_inputRawQ.drop 1,
                m_inputPPQ := Example.inactiveQueued.pme.m_inputPPQ.drop 1 } } ∧
      tr = (match Example.inactiveQueued.pme.m_inputJpegQ.head? with
            | some job =>
              releaseSuperBuf (Example.env 1) Example.inactiveQueued.pme job.src_reproc_frame
                ++ releaseSuperBuf (Example.env 1) Example.inactiveQueued.pme job.src_frame
                ++ (match job.pJpegExifObj with
                    | some p => [Event.deleteExif p]
                    | none => [])
            | none => [])
          ++ releaseSuperBuf (Example.env 1) Example.inactiveQueued.pme
              Example.inactiveQueued.pme.m_inputRawQ.head?
          ++ releaseSuperBuf (Example.env 1) Example.inactiveQueued.pme
              Example.inactiveQueued.pme.m_inputPPQ.head? ∧
      (∀ e ∈ tr, e.isJobRelease = true) ∧
      tr.filter Event.isNotifyCallback = [] ∧
      tr.filter Event.isErrorNotify = [] ∧
      tr.filter Event.isEncodeCall = [] ∧
      (∀ f, Event.doReprocess f ∉ tr) ∧ Event.playShutter ∉ tr :=
  ⟨rfl, C9_inactive_wakeup_only_releases (Example.env 1) Example.inactiveQueued rfl⟩

/-! ## C10: session creation failure -/

/-- C10: for every `encodeData` call entered with the new-session flag set that gets as
far as calling `create_session`, if `create_session` returns a non-zero status then
`encodeData` returns that status, the new-session flag is still set, `start_job` is
not called and the job (its jobId included) is unchanged; and whatever job is
dispatched next on the object and flag it left, `create_session` is called again
once that dispatch reaches the session stage. -/
theorem C10_create_session_failure (env : Env) (pme : QCameraPostProcessor)
    (job : qcamera_jpeg_data_t) (r : EncodeDataResult)
    (h : encodeData env pme job true = some r)
    (hreach : ∃ c p, Event.create_session c p ∈ r.trace)
    (hfail : env.mJpegHandle.create_session.1 ≠ NO_ERROR) :
    r.ret = env.mJpegHandle.create_session.1 ∧
    r.needNewSess = true ∧
    (∀ j, Event.start_job j ∉ r.trace) ∧
    r.job = job ∧
    (∀ (env2 : Env) (job2 : qcamera_jpeg_data_t) (f : mm_camera_super_buf_t)
        (main : StreamFrame) (thumb : Option StreamFrame) (t : List Event),
      ∃ p, Event.create_session r.pme.mJpegClientHandle p
        ∈ (encodeData.dispatch env2 r.pme job2 r.needNewSess f main thumb t).trace) := by
  obtain ⟨c, p, hcp⟩ := hreach
  have hne : (env.mJpegHandle.create_session.1 != NO_ERROR) = true := by simpa using hfail
  rcases encodeData_cases env pme job true r h with h0 | ⟨f, main, thumb, t, ht, hr⟩
  · rw [h0] at hcp; simp at hcp
  · by_cases hc : pme.mJpegClientHandle = 0
    · have : r.trace = t := by rw [hr]; simp [encodeData.dispatch, hc]
      rw [this] at hcp
      have := ht _ hcp
      simp [Event.isEncodePrep] at this
    · have hcfg := getJpegEncodingConfig_trace env pme mm_jpeg_encode_params_t.zero main.1
        (thumb.map Prod.fst)
      have hd : encodeData.dispatch env pme job true f main thumb t
          = { ret := env.mJpegHandle.create_session.1, job := job, needNewSess := true,
              pme :=
                { (getJpegEncodingConfig env pme mm_jpeg_encode_params_t.zero main.1
                    (thumb.map Prod.fst)).2.2.1 with
                  mJpegSessionId := env.mJpegHandle.create_session.2.getD
                    (getJpegEncodingConfig env pme mm_jpeg_encode_params_t.zero main.1
                      (thumb.map Prod.fst)).2.2.1.mJpegSessionId },
              trace := t ++ (getJpegEncodingConfig env pme mm_jpeg_encode_params_t.zero main.1
                  (thumb.map Prod.fst)).2.2.2
                ++ [Event.create_session pme.mJpegClientHandle
                    (getJpegEncodingConfig env pme mm_jpeg_encode_params_t.zero main.1
                      (thumb.map Prod.fst)).2.1] } := by
        simp [encodeData.dispatch, hc, hne]
      rw [hd] at hr
      subst hr
      have hc2 : (getJpegEncodingConfig env pme mm_jpeg_encode_params_t.zero main.1
          (thumb.map Prod.fst)).2.2.1.mJpegClientHandle ≠ 0 := by
        rw [(getJpegEncodingConfig_frame env pme _ _ _).clientHandle]; exact hc
      refine ⟨rfl, rfl, ?_, rfl, ?_⟩
      · intro j hj
        simp only [List.mem_append, List.mem_singleton] at hj
        rcases hj with (hj | hj) | hj
        · have := ht _ hj; simp [Event.isEncodePrep] at this
        · have := hcfg _ hj; simp [Event.isEncodePrep] at this
        · simp at hj
      · intro env2 job2 f2 main2 thumb2 t2
        exact ⟨_, dispatch_calls_create_session env2 _ job2 f2 main2 thumb2 t2 hc2⟩

/-- C10 is not vacuous: its hypotheses hold for the head job of `Example.activeQueued`
when the backend refuses to create a session. -/
theorem C10_witness :
    encodeData Example.envCreateFails Example.dispatching (Example.job 0) true
      = some Example.failedDispatch ∧
    (∃ c p, Event.create_session c p ∈ Example.failedDispatch.trace) ∧
    Example.envCreateFails.mJpegHandle.create_session.1 ≠ NO_ERROR ∧
    Example.failedDispatch.ret = Example.envCreateFails.mJpegHandle.create_session.1 ∧
    Example.failedDispatch.needNewSess = true ∧
    (∀ j, Event.start_job j ∉ Example.failedDispatch.trace) ∧
    Example.failedDispatch.job = Example.job 0 ∧
    (∀ (env2 : Env) (job2 : qcamera_jpeg_data_t) (f : mm_camera_super_buf_t)
        (main : StreamFrame) (thumb : Option StreamFrame) (t : List Event),
      ∃ p, Event.create_session Example.failedDispatch.pme.mJpegClientHandle p
        ∈ (encodeData.dispatch env2 Example.failedDispatch.pme job2
            Example.failedDispatch.needNewSess f main thumb t).trace) :=
  ⟨rfl, ⟨_, _, List.Mem.tail _ (List.Mem.head _)⟩, by decide,
    C10_create_session_failure Example.envCreateFails Example.dispatching (Example.job 0)
      Example.failedDispatch rfl ⟨_, _, List.Mem.tail _ (List.Mem.head _)⟩ (by decide)⟩

/-! ## C11: the session is created once per activation -/

/-- C11 fails as stated: in an activation whose first frame is of a channel the HAL
object does not know, the first dispatch returns `BAD_VALUE` without calling
`create_session`, although no session has been created yet; the session is created
on the second dispatch. -/
theorem C11_counterexample_dispatch_refused_before_session :
    (∀ x ∈ Example.strayThenGood, x.2.withinActivation = true) ∧
    (dispatches (dataProcessRoutine.start Example.launched).1 Example.strayThenGood).map
        (fun d => (d.result.ret, d.callsCreate, d.createSucceeds))
      = [(BAD_VALUE, false, false), (NO_ERROR, true, true)] :=
  ⟨by decide, rfl⟩

/-- C11 as amended: within one activation (the run that follows a Start command of the
process loop and holds no further Start or Stop command), for every dispatch of
`encodeData` in the run: when `create_session` succeeded on no earlier dispatch, the
dispatch calls `create_session` exactly when it gets as far as the session stage
(its frames pass the checks and the client handle is not 0); when `create_session`
succeeded on an earlier dispatch, the dispatch does not call it and every job it
submits with `start_job` carries the session id which that creation produced; and
every job submitted by a dispatch on which `create_session` succeeds carries the
session id produced there. -/
theorem C11_session_created_once_per_activation (s : PostProcState)
    (acts : List (Env × Action)) (hin : ∀ x ∈ acts, x.2.withinActivation = true)
    (pre : List Dispatch) (d : Dispatch) (post : List Dispatch)
    (hd : dispatches (dataProcessRoutine.start s).1 acts = pre ++ d :: post) :
    ((∀ x ∈ pre, x.createSucceeds = false) → d.callsCreate = d.atSessionStage) ∧
    (∀ x ∈ pre, x.createSucceeds = true →
      d.callsCreate = false ∧
      (∀ j, Event.start_job j ∈ d.result.trace →
        j.session_id = x.result.pme.mJpegSessionId) ∧
      x.result.pme.mJpegSessionId =
        x.env.mJpegHandle.create_session.2.getD x.pme.mJpegSessionId) ∧
    (d.createSucceeds = true →
      (∀ j, Event.start_job j ∈ d.result.trace →
        j.session_id = d.result.pme.mJpegSessionId) ∧
      d.result.pme.mJpegSessionId =
        d.env.mJpegHandle.create_session.2.getD d.pme.mJpegSessionId) := by
  obtain ⟨hv, -, h3, h4⟩ := dispatches_session acts (dataProcessRoutine.start s).1 hin pre d post hd
  have hsess := encodeData_session d.env d.pme d.job d.needNewSess d.result hv
  have hown : ∀ y : Dispatch, encodeData y.env y.pme y.job y.needNewSess = some y.result →
      y.createSucceeds = true →
      y.result.pme.mJpegSessionId =
        y.env.mJpegHandle.create_session.2.getD y.pme.mJpegSessionId := by
    intro y hy hc
    simp only [Dispatch.createSucceeds, Dispatch.callsCreate, Bool.and_eq_true] at hc
    exact ((encodeData_session y.env y.pme y.job y.needNewSess y.result hy).2.2.1
      hc.1).2.2.2.1
  refine ⟨fun hp => ?_, fun x hx hc => ?_, fun hc => ⟨fun j hj => (hsess.2.2.2.2 j hj).1,
    hown d hv hc⟩⟩
  · have hn : d.needNewSess = true := h3 rfl hp
    cases hst : d.atSessionStage with
    | true =>
      simp only [Dispatch.atSessionStage, Bool.and_eq_true, Bool.not_eq_true',
        List.isEmpty_eq_false, bne_iff_ne] at hst
      exact hsess.2.2.2.1 hn hst.1 hst.2
    | false =>
      cases hcc : d.callsCreate with
      | false => rfl
      | true =>
        have := hsess.2.2.1 hcc
        have hst2 : d.atSessionStage = true := by
          simp only [Dispatch.atSessionStage, Bool.and_eq_true, Bool.not_eq_true',
            List.isEmpty_eq_false, bne_iff_ne]
          exact ⟨this.2.1, this.2.2.1⟩
        rw [hst] at hst2
        exact absurd hst2 (by simp)
  · obtain ⟨hf, hid⟩ := h4 x hx hc
    obtain ⟨-, a2, a3⟩ := hsess.1 hf
    refine ⟨a3, fun j hj => ?_, ?_⟩
    · rw [(hsess.2.2.2.2 j hj).1, a2, hid]
    · obtain ⟨pre1, post1, hsplit⟩ := List.append_of_mem hx
      have hd2 : dispatches (dataProcessRoutine.start s).1 acts
          = pre1 ++ x :: (post1 ++ d :: post) := by
        rw [hd, hsplit]
        simp
      exact hown x (dispatches_session acts _ hin pre1 x _ hd2).1 hc

/-- C11 as amended is not vacuous: in the run `Example.twoGood` the first dispatch
creates session 7 and the second one submits its job under session 7 without
creating a session. -/
theorem C11_witness :
    (∀ x ∈ Example.twoGood, x.2.withinActivation = true) ∧
    dispatches (dataProcessRoutine.start Example.launched).1 Example.twoGood
      = [Example.firstDispatch] ++ Example.secondDispatch :: [] ∧
    Example.firstDispatch.createSucceeds = true ∧
    Example.secondDispatch.callsCreate = false ∧
    (∀ j, Event.start_job j ∈ Example.secondDispatch.result.trace → j.session_id = 7) ∧
    Example.firstDispatch.result.pme.mJpegSessionId = 7 :=
  ⟨by decide, rfl, rfl,
    ((C11_session_created_once_per_activation Example.launched Example.twoGood (by decide)
      [Example.firstDispatch] Example.secondDispatch [] rfl).2.1 Example.firstDispatch
      (List.mem_singleton.mpr rfl) rfl).1,
    ((C11_session_created_once_per_activation Example.launched Example.twoGood (by decide)
      [Example.firstDispatch] Example.secondDispatch [] rfl).2.1 Example.firstDispatch
      (List.mem_singleton.mpr rfl) rfl).2.1,
    rfl⟩

/-! ## C12: destination dimensions of the main image -/

/-- C12 fails as stated: with HDR output crop enabled and a crop rectangle of width 0
and height 360 on a stream of 640 by 480, the destination in the job descriptor is
640 by 360, one frame dimension and one crop dimension. -/
theorem C12_counterexample_mixed_destination :
    encodeData Example.envThumb Example.launched.pme Example.croppedJob true
      = some Example.croppedDispatch ∧
    Event.start_job Example.croppedJobDesc ∈ Example.croppedDispatch.trace ∧
    Example.envThumb.m_parent.isHDROutputCropEnabled = true ∧
    Example.croppedStream.crop = { left := 0, top := 60, width := 0, height := 360 } ∧
    Example.croppedStream.dim = { width := 640, height := 480 } ∧
    Example.croppedJobDesc.main_dim.dst_dim = { width := 640, height := 360 } :=
  ⟨rfl, croppedDispatch_start_job, rfl, rfl, rfl, rfl⟩

/-- C12 as amended: for every job descriptor that `encodeData` hands to `start_job`,
with `main` the last snapshot buffer of the source frame and its stream, each
destination dimension of the main image is chosen on its own: the width is the crop
width when HDR output crop is enabled and the crop width is not 0, and the frame
width of the stream otherwise, and likewise the height.  So the destination is the
crop (width, height) when HDR output crop is enabled and both crop dimensions are
not 0, the full frame (width, height) when HDR output crop is disabled or both crop
dimensions are 0, and a mix of one crop and one frame dimension when HDR output crop
is enabled and exactly one crop dimension is 0. -/
theorem C12_destination_chosen_per_dimension (env : Env) (pme : QCameraPostProcessor)
    (job : qcamera_jpeg_data_t) (n : Bool) (r : EncodeDataResult) (j : mm_jpeg_encode_job_t)
    (h : encodeData env pme job n = some r) (hj : Event.start_job j ∈ r.trace) :
    ∃ f pChannel main,
      job.src_frame = some f ∧ Resolves env pme f.ch_id pChannel ∧
      lastBufOf pChannel isMainStream f.bufs = some main ∧
      j.main_dim.src_dim = main.1.dim ∧ j.main_dim.crop = main.1.crop ∧
      j.main_dim.dst_dim.width =
        (if env.m_parent.isHDROutputCropEnabled = true ∧ main.1.crop.width ≠ 0
          then main.1.crop.width else main.1.dim.width) ∧
      j.main_dim.dst_dim.height =
        (if env.m_parent.isHDROutputCropEnabled = true ∧ main.1.crop.height ≠ 0
          then main.1.crop.height else main.1.dim.height) ∧
      (env.m_parent.isHDROutputCropEnabled = true → main.1.crop.width ≠ 0 →
        main.1.crop.height ≠ 0 →
        j.main_dim.dst_dim = { width := main.1.crop.width, height := main.1.crop.height }) ∧
      (env.m_parent.isHDROutputCropEnabled = false ∨
          (main.1.crop.width = 0 ∧ main.1.crop.height = 0) →
        j.main_dim.dst_dim = main.1.dim) ∧
      (env.m_parent.isHDROutputCropEnabled = true → main.1.crop.width = 0 →
        main.1.crop.height ≠ 0 →
        j.main_dim.dst_dim = { width := main.1.dim.width, height := main.1.crop.height }) ∧
      (env.m_parent.isHDROutputCropEnabled = true → main.1.crop.width ≠ 0 →
        main.1.crop.height = 0 →
        j.main_dim.dst_dim = { width := main.1.crop.width, height := main.1.dim.height }) := by
  obtain ⟨f, pChannel, main, thumb, memObj, hf, hres, hmain, -, -, -, hjob, -⟩ :=
    encodeData_start_job env pme job n r h j hj
  rw [foldl_scanBuf] at hmain
  simp only [Option.or_none] at hmain
  refine ⟨f, pChannel, main, hf, hres, hmain, ?_⟩
  rw [hjob, fillJob_main_dim]
  cases hh : env.m_parent.isHDROutputCropEnabled <;>
    by_cases hw : main.1.crop.width = 0 <;> by_cases hht : main.1.crop.height = 0 <;>
    simp [hw, hht]

/-- C12 as amended is not vacuous: its hypotheses hold for the job descriptor of
`Example.zslDispatch`. -/
theorem C12_witness :
    encodeData Example.envThumb Example.launched.pme Example.zslJob true
      = some Example.zslDispatch ∧
    Event.start_job Example.zslJobDesc ∈ Example.zslDispatch.trace ∧
    ∃ f pChannel main,
      Example.zslJob.src_frame = some f ∧
      Resolves Example.envThumb Example.launched.pme f.ch_id pChannel ∧
      lastBufOf pChannel isMainStream f.bufs = some main ∧
      Example.zslJobDesc.main_dim.src_dim = main.1.dim ∧
      Example.zslJobDesc.main_dim.dst_dim.width =
        (if Example.envThumb.m_parent.isHDROutputCropEnabled = true ∧ main.1.crop.width ≠ 0
          then main.1.crop.width else main.1.dim.width) :=
  ⟨rfl, zslDispatch_start_job,
    (C12_destination_chosen_per_dimension Example.envThumb Example.launched.pme Example.zslJob
      true Example.zslDispatch Example.zslJobDesc rfl zslDispatch_start_job).elim
      fun f hf => hf.elim fun pChannel hp => hp.elim fun main hm =>
        ⟨f, pChannel, main, hm.1, hm.2.1, hm.2.2.1, hm.2.2.2.1, hm.2.2.2.2.2.1⟩⟩

/-! ## C13: destination dimensions of the thumbnail -/

/-- C13 fails as stated: with a JPEG rotation of 90, `needRotationReprocess` false and a
requested thumbnail size of 320 by 240, the job descriptor has rotation 90 and the
thumbnail destination 320 by 240, not swapped. -/
theorem C13_counterexample_rotation_left_to_encoder :
    encodeData Example.envThumb Example.launched.pme Example.zslJob true
      = some Example.zslDispatch ∧
    Event.start_job Example.zslJobDesc ∈ Example.zslDispatch.trace ∧
    Example.zslDispatch.pme.m_bThumbnailNeeded = true ∧
    Example.envThumb.m_parent.getJpegRotation = 90 ∧
    Example.envThumb.m_parent.needRotationReprocess = false ∧
    Example.envThumb.m_parent.getThumbnailSize = { width := 320, height := 240 } ∧
    Example.zslJobDesc.rotation = 90 ∧
    Example.zslJobDesc.thumb_dim.dst_dim = { width := 320, height := 240 } :=
  ⟨rfl, zslDispatch_start_job, rfl, rfl, rfl, rfl, rfl, rfl⟩

/-- C13 as amended: for every job descriptor that `encodeData` hands to `start_job` with
a thumbnail needed, the thumbnail destination (width, height) is the requested
thumbnail size with width and height swapped exactly when the JPEG rotation is 90 or
270 and the rotation has already been applied upstream (`needRotationReprocess` is
true, so that the rotation of the descriptor is 0), and is the requested size
unswapped in every other case. -/
theorem C13_thumbnail_swapped_when_rotated_upstream (env : Env) (pme : QCameraPostProcessor)
    (job : qcamera_jpeg_data_t) (n : Bool) (r : EncodeDataResult) (j : mm_jpeg_encode_job_t)
    (h : encodeData env pme job n = some r) (hj : Event.start_job j ∈ r.trace)
    (hth : r.pme.m_bThumbnailNeeded = true) :
    (((env.m_parent.getJpegRotation = 90 ∨ env.m_parent.getJpegRotation = 270) ∧
        env.m_parent.needRotationReprocess = true) →
      j.thumb_dim.dst_dim =
        { width := env.m_parent.getThumbnailSize.height,
          height := env.m_parent.getThumbnailSize.width }) ∧
    (¬ ((env.m_parent.getJpegRotation = 90 ∨ env.m_parent.getJpegRotation = 270) ∧
        env.m_parent.needRotationReprocess = true) →
      j.thumb_dim.dst_dim = env.m_parent.getThumbnailSize) ∧
    (env.m_parent.needRotationReprocess = true → j.rotation = 0) ∧
    (env.m_parent.needRotationReprocess = false →
      j.rotation = env.m_parent.getJpegRotation) := by
  obtain ⟨f, pChannel, main, thumb, memObj, -, -, -, -, -, -, hjob, -⟩ :=
    encodeData_start_job env pme job n r h j hj
  have ht := (fillJob_thumb env r.pme job f main thumb hth).2
  have hrot := fillJob_rotation env r.pme job f main thumb
  rw [← hjob] at ht hrot
  rw [ht, hrot]
  cases hn : env.m_parent.needRotationReprocess
  · refine ⟨fun hc => by simp at hc, fun _ => ?_, fun hc => by simp at hc, fun _ => by simp⟩
    by_cases h90 : env.m_parent.getJpegRotation = 90
    · simp [h90]
    · by_cases h270 : env.m_parent.getJpegRotation = 270
      · simp [h270]
      · simp [h90, h270]
  · refine ⟨fun hc => ?_, fun hc => ?_, fun _ => by simp, fun hc => by simp at hc⟩
    · rcases hc.1 with h90 | h270
      · simp [h90]
      · simp [h270]
    · have h90 : env.m_parent.getJpegRotation ≠ 90 := fun hx => hc ⟨Or.inl hx, rfl⟩
      have h270 : env.m_parent.getJpegRotation ≠ 270 := fun hx => hc ⟨Or.inr hx, rfl⟩
      simp [h90, h270]

/-- C13 as amended is not vacuous: under `Example.envRotated` (rotation 90, done
upstream) the thumbnail destination of the job descriptor is 240 by 320. -/
theorem C13_witness :
    encodeData Example.envRotated Example.launched.pme Example.zslJob true
      = some Example.rotatedDispatch ∧
    Event.start_job Example.rotatedJobDesc ∈ Example.rotatedDispatch.trace ∧
    Example.rotatedDispatch.pme.m_bThumbnailNeeded = true ∧
    Example.envRotated.m_parent.getJpegRotation = 90 ∧
    Example.envRotated.m_parent.needRotationReprocess = true ∧
    Example.rotatedJobDesc.thumb_dim.dst_dim = { width := 240, height := 320 } :=
  ⟨rfl, rotatedDispatch_start_job, rfl, rfl, rfl,
    (C13_thumbnail_swapped_when_rotated_upstream Example.envRotated Example.launched.pme
      Example.zslJob true Example.rotatedDispatch Example.rotatedJobDesc rfl
      rotatedDispatch_start_job rfl).1 ⟨Or.inl rfl, rfl⟩⟩

/-! ## C14: a frame without snapshot buffer -/

/-- C14: for every job whose source frame resolves to a channel but holds no buffer of a
stream of snapshot type, now or originally, `encodeData` returns `BAD_VALUE`, makes
no call at all (so no `create_session` and no `start_job` call) and leaves the job
(its jobId included), the new-session flag and the object unchanged. -/
theorem C14_no_snapshot_buffer_is_bad_value (env : Env) (pme : QCameraPostProcessor)
    (job : qcamera_jpeg_data_t) (n : Bool) (f : mm_camera_super_buf_t)
    (pChannel : QCameraChannel) (hf : job.src_frame = some f)
    (hch : Resolves env pme f.ch_id pChannel)
    (hno : ∀ buf ∈ f.bufs, ∀ s, pChannel.getStreamByHandle buf.stream_id = some s →
      (s.isTypeOf cam_stream_type_t.CAM_STREAM_TYPE_SNAPSHOT ||
        s.isOrignalTypeOf cam_stream_type_t.CAM_STREAM_TYPE_SNAPSHOT) = false) :
    ∃ r, encodeData env pme job n = some r ∧ r.ret = BAD_VALUE ∧
      (∀ c p, Event.create_session c p ∉ r.trace) ∧ (∀ j, Event.start_job j ∉ r.trace) ∧
      r.trace = [] ∧ r.job = job ∧ r.job.jobId = job.jobId ∧ r.needNewSess = n ∧
      r.pme = pme := by
  have hmain : (f.bufs.foldl (encodeData.scanBuf pChannel) (none, none)).1 = none := by
    rw [foldl_scanBuf, lastBufOf_eq_none pChannel isMainStream f.bufs hno]
    rfl
  refine ⟨{ ret := BAD_VALUE, job := job, needNewSess := n, pme := pme, trace := [] }, ?_,
    rfl, fun c p => by simp, fun j => by simp, rfl, rfl, rfl, rfl, rfl⟩
  unfold encodeData
  rcases hch with h | ⟨h1, h2, h3⟩
  · simp only [hf, h, hmain]
  · simp only [hf, h1, h2, h3, beq_self_eq_true, if_true, hmain]

/-- C14 is not vacuous: its hypotheses hold for `Example.previewJob`, whose frame has a
preview buffer only. -/
theorem C14_witness :
    Example.previewJob.src_frame = some Example.previewFrame ∧
    Resolves Example.envThumb Example.launched.pme Example.previewFrame.ch_id
      Example.zslChannel ∧
    ∃ r, encodeData Example.envThumb Example.launched.pme Example.previewJob true = some r ∧
      r.ret = BAD_VALUE ∧
      (∀ c p, Event.create_session c p ∉ r.trace) ∧ (∀ j, Event.start_job j ∉ r.trace) ∧
      r.trace = [] ∧ r.job = Example.previewJob ∧ r.job.jobId = Example.previewJob.jobId ∧
      r.needNewSess = true ∧ r.pme = Example.launched.pme :=
  ⟨rfl, Or.inl rfl,
    C14_no_snapshot_buffer_is_bad_value Example.envThumb Example.launched.pme
      Example.previewJob true Example.previewFrame Example.zslChannel rfl (Or.inl rfl)
      (by
        intro buf hb s hs
        simp only [Example.previewFrame, List.mem_singleton] at hb
        subst hb
        have h2 : Example.zslChannel.getStreamByHandle Example.zslThumbBuf.stream_id
            = some Example.previewStream := rfl
        rw [h2] at hs
        simp only [Option.some.injEq] at hs
        subst hs
        rfl)⟩

/-! ## C15: the thumbnail source -/

/-- C15 fails as stated: for a job whose source frame has a snapshot buffer and no
preview or postview buffer and whose pre-reprocess frame has no buffer at all and is
of a channel the HAL object does not know, `encodeData` returns `BAD_VALUE` without
any call although a thumbnail is needed; the main snapshot buffer is not used as
thumbnail source. -/
theorem C15_counterexample_unresolved_pre_reprocess_channel :
    Example.orphanJob.src_frame = some (Example.frame 0) ∧
    Resolves Example.envThumb Example.zslDispatch.pme (Example.frame 0).ch_id
      Example.captureChannel ∧
    lastBufOf Example.captureChannel isMainStream (Example.frame 0).bufs
      = some (Example.snapshotStream, Example.mainBuf) ∧
    lastBufOf Example.captureChannel isThumbStream (Example.frame 0).bufs = none ∧
    Example.orphanJob.src_reproc_frame = some Example.orphanFrame ∧
    Example.orphanFrame.bufs = [] ∧
    Example.envThumb.m_parent.getChannelByHandle Example.orphanFrame.ch_id = none ∧
    Example.zslDispatch.pme.m_bThumbnailNeeded = true ∧
    encodeData Example.envThumb Example.zslDispatch.pme Example.orphanJob false =
      some { ret := BAD_VALUE, job := Example.orphanJob, needNewSess := false,
             pme := Example.zslDispatch.pme, trace := [] } :=
  ⟨rfl, Or.inl rfl, rfl, rfl, rfl, rfl, rfl, rfl, rfl⟩

/-- C15 as amended: for every job whose source frame passes the checks of `encodeData`
(its channel resolves and its last snapshot buffer `main` has a memory object),
`encodeData` returns, and: when the source frame has a preview or postview buffer
(by type or original type) the thumbnail source is the last such buffer, whatever
the pre-reprocess frame is; when it has none and the pre-reprocess frame is set, the
channel of that frame is looked up in the HAL object: if it is found the thumbnail
source is the last preview or postview buffer of the pre-reprocess frame, and if it
is not found `encodeData` returns `BAD_VALUE` without any call; when no thumbnail
source is found this way, or no pre-reprocess frame is set, and a thumbnail is
needed, the main snapshot buffer is used and `thumb_index` equals the main buffer
index. -/
theorem C15_thumbnail_source (env : Env) (pme : QCameraPostProcessor)
    (job : qcamera_jpeg_data_t) (n : Bool) (f : mm_camera_super_buf_t)
    (pChannel : QCameraChannel) (main : StreamFrame) (memObj : QCameraMemory)
    (hf : job.src_frame = some f) (hch : Resolves env pme f.ch_id pChannel)
    (hmain : lastBufOf pChannel isMainStream f.bufs = some main)
    (hmem : main.2.mem_info = some memObj) :
    ∃ r, encodeData env pme job n = some r ∧
      (∀ t, lastBufOf pChannel isThumbStream f.bufs = some t →
        r = encodeData.dispatch env pme job n f main (some t)
              (encodeData.prepTrace env main memObj (some t)) ∧
        ThumbnailFrom r t) ∧
      (lastBufOf pChannel isThumbStream f.bufs = none →
        (∀ g ch, job.src_reproc_frame = some g →
          env.m_parent.getChannelByHandle g.ch_id = some ch →
          r = encodeData.dispatch env pme job n f main
                (lastBufOf ch isReprocThumbStream g.bufs)
                (encodeData.prepTrace env main memObj
                  (lastBufOf ch isReprocThumbStream g.bufs)) ∧
          (∀ t, lastBufOf ch isReprocThumbStream g.bufs = some t → ThumbnailFrom r t) ∧
          (lastBufOf ch isReprocThumbStream g.bufs = none →
            ThumbnailFrom r main ∧
            ∀ j, Event.start_job j ∈ r.trace → r.pme.m_bThumbnailNeeded = true →
              j.thumb_index = j.src_index)) ∧
        (∀ g, job.src_reproc_frame = some g →
          env.m_parent.getChannelByHandle g.ch_id = none →
          r = { ret := BAD_VALUE, job := job, needNewSess := n, pme := pme, trace := [] }) ∧
        (job.src_reproc_frame = none →
          r = encodeData.dispatch env pme job n f main none
                (encodeData.prepTrace env main memObj none) ∧
          ThumbnailFrom r main ∧
          ∀ j, Event.start_job j ∈ r.trace → r.pme.m_bThumbnailNeeded = true →
            j.thumb_index = j.src_index)) := by
  have hfound : f.bufs.foldl (encodeData.scanBuf pChannel) (none, none)
      = (some main, lastBufOf pChannel isThumbStream f.bufs) := by
    rw [foldl_scanBuf, hmain]
    simp
  have key : ∀ thumb : Option StreamFrame,
      ThumbnailFrom (encodeData.dispatch env pme job n f main thumb
          (encodeData.prepTrace env main memObj thumb)) (thumb.getD main) ∧
      ∀ j, Event.start_job j ∈ (encodeData.dispatch env pme job n f main thumb
          (encodeData.prepTrace env main memObj thumb)).trace →
        j.src_index = main.2.buf_idx :=
    fun thumb => dispatch_thumbnailFrom env pme job n f main thumb _
      (prepTrace_prep env main memObj thumb)
  have hm1 : (f.bufs.foldl (encodeData.scanBuf pChannel) (none, none)).1 = some main := by
    rw [hfound]
  have hm2 : (f.bufs.foldl (encodeData.scanBuf pChannel) (none, none)).2
      = lastBufOf pChannel isThumbStream f.bufs := by
    rw [hfound]
  cases hth : lastBufOf pChannel isThumbStream f.bufs with
  | some t =>
    refine ⟨_, encodeData_forward env pme job n f pChannel main memObj (some t) hf hch hm1 hmem
      (Or.inl ⟨t, by rw [hm2, hth], rfl⟩), ?_, ?_⟩
    · intro t2 ht2
      simp only [Option.some.injEq] at ht2
      subst ht2
      exact ⟨rfl, (key (some t)).1⟩
    · intro hc
      simp at hc
  | none =>
    rw [hth] at hm2
    cases hg : job.src_reproc_frame with
    | none =>
      refine ⟨_, encodeData_forward env pme job n f pChannel main memObj none hf hch hm1 hmem
        (Or.inr (Or.inl ⟨hm2, hg, rfl⟩)), fun t ht => by simp at ht, fun _ =>
        ⟨fun g ch hc => by simp at hc, fun g hc => by simp at hc, fun _ =>
          ⟨rfl, (key none).1, fun j hj hn => ?_⟩⟩⟩
      rw [((key none).1 j hj hn).1, (key none).2 j hj]
      rfl
    | some g =>
      cases hgc : env.m_parent.getChannelByHandle g.ch_id with
      | none =>
        refine ⟨_, encodeData_reproc_unresolved env pme job n f g pChannel main hf hch hm1 hm2
          hg hgc, fun t ht => by simp at ht, fun _ =>
          ⟨fun g2 ch hg2 hc => ?_, fun _ _ _ => rfl, fun hc => by simp at hc⟩⟩
        simp only [Option.some.injEq] at hg2
        subst hg2
        rw [hgc] at hc
        simp at hc
      | some ch =>
        refine ⟨_, encodeData_forward env pme job n f pChannel main memObj
          (lastBufOf ch isReprocThumbStream g.bufs) hf hch hm1 hmem
          (Or.inr (Or.inr ⟨hm2, g, ch, hg, hgc, by rw [foldl_scanReprocBuf]; simp⟩)),
          fun t ht => by simp at ht, fun _ =>
          ⟨fun g2 ch2 hg2 hc2 => ?_, fun g2 hg2 hc2 => ?_, fun hc => by simp at hc⟩⟩
        · simp only [Option.some.injEq] at hg2
          subst hg2
          rw [hgc] at hc2
          simp only [Option.some.injEq] at hc2
          subst hc2
          refine ⟨rfl, fun t ht => ?_, fun hnone => ⟨?_, fun j hj hn => ?_⟩⟩
          · have := (key (lastBufOf ch isReprocThumbStream g.bufs)).1
            rw [ht] at this ⊢
            exact this
          · have := (key (lastBufOf ch isReprocThumbStream g.bufs)).1
            rw [hnone] at this ⊢
            exact this
          · have h1 := (key (lastBufOf ch isReprocThumbStream g.bufs)).1 j hj hn
            have h2 := (key (lastBufOf ch isReprocThumbStream g.bufs)).2 j hj
            rw [h1.1, h2, hnone]
            rfl
        · simp only [Option.some.injEq] at hg2
          subst hg2
          rw [hgc] at hc2
          simp at hc2

/-- C15 as amended is not vacuous: for `Example.reprocJob` the source frame has no
preview buffer and the thumbnail is taken from the preview buffer of the
pre-reprocess frame. -/
theorem C15_witness :
    Example.reprocJob.src_frame = some (Example.frame 0) ∧
    lastBufOf Example.captureChannel isThumbStream (Example.frame 0).bufs = none ∧
    Example.reprocJob.src_reproc_frame = some Example.zslFrame ∧
    lastBufOf Example.zslChannel isReprocThumbStream Example.zslFrame.bufs
      = some (Example.previewStream, Example.zslThumbBuf) ∧
    ∃ r, encodeData Example.envThumb Example.launched.pme Example.reprocJob true = some r ∧
      ThumbnailFrom r (Example.previewStream, Example.zslThumbBuf) :=
  ⟨rfl, rfl, rfl, rfl,
    (C15_thumbnail_source Example.envThumb Example.launched.pme Example.reprocJob true
      (Example.frame 0) Example.captureChannel (Example.snapshotStream, Example.mainBuf)
      { bufs := [], fds := [] } rfl (Or.inl rfl) rfl rfl).elim
      fun r hr => ⟨r, hr.1, ((hr.2.2 rfl).1 Example.zslFrame Example.zslChannel rfl rfl).2.1
        (Example.previewStream, Example.zslThumbBuf) rfl⟩⟩

/-! ## C16: the metadata pointer -/

/-- C16: for every job descriptor that `encodeData` hands to `start_job`, the metadata
pointer is the buffer of the first metadata-typed buffer of the source frame if
there is one; otherwise that of the first metadata-typed buffer of the pre-reprocess
frame if that frame is set and has one; otherwise no metadata is attached. -/
theorem C16_metadata_pointer (env : Env) (pme : QCameraPostProcessor)
    (job : qcamera_jpeg_data_t) (n : Bool) (r : EncodeDataResult)
    (f : mm_camera_super_buf_t) (j : mm_jpeg_encode_job_t)
    (hf : job.src_frame = some f)
    (h : encodeData env pme job n = some r) (hj : Event.start_job j ∈ r.trace) :
    (∀ b, f.bufs.find? (fun b => b.stream_type == cam_stream_type_t.CAM_STREAM_TYPE_METADATA)
        = some b → j.p_metadata = some b.buffer) ∧
    (f.bufs.find? (fun b => b.stream_type == cam_stream_type_t.CAM_STREAM_TYPE_METADATA)
        = none →
      (∀ g b, job.src_reproc_frame = some g →
        g.bufs.find? (fun b => b.stream_type == cam_stream_type_t.CAM_STREAM_TYPE_METADATA)
          = some b → j.p_metadata = some b.buffer) ∧
      (∀ g, job.src_reproc_frame = some g →
        g.bufs.find? (fun b => b.stream_type == cam_stream_type_t.CAM_STREAM_TYPE_METADATA)
          = none → j.p_metadata = none) ∧
      (job.src_reproc_frame = none → j.p_metadata = none)) := by
  obtain ⟨f2, pChannel, main, thumb, memObj, hf2, -, -, -, -, -, hjob, -⟩ :=
    encodeData_start_job env pme job n r h j hj
  rw [hf] at hf2
  simp only [Option.some.injEq] at hf2
  subst hf2
  rw [hjob, fillJob_p_metadata]
  unfold encodeData.findMetaFrame
  refine ⟨fun b hb => by rw [hb]; rfl, fun hnone => ⟨fun g b hg hb => ?_, fun g hg hb => ?_,
    fun hg => ?_⟩⟩
  · rw [hnone]; simp only [hg, hb, Option.map_some']
  · rw [hnone]; simp only [hg, hb, Option.map_none']
  · rw [hnone]; simp only [hg, Option.map_none']

/-- C16 is not vacuous: the job descriptor of `Example.zslDispatch` carries the metadata
buffer 42 of `Example.zslFrame`. -/
theorem C16_witness :
    encodeData Example.envThumb Example.launched.pme Example.zslJob true
      = some Example.zslDispatch ∧
    Event.start_job Example.zslJobDesc ∈ Example.zslDispatch.trace ∧
    Example.zslFrame.bufs.find?
        (fun b => b.stream_type == cam_stream_type_t.CAM_STREAM_TYPE_METADATA)
      = some Example.zslMetaBuf ∧
    Example.zslJobDesc.p_metadata = some 42 :=
  ⟨rfl, zslDispatch_start_job, rfl,
    (C16_metadata_pointer Example.envThumb Example.launched.pme Example.zslJob true
      Example.zslDispatch Example.zslFrame Example.zslJobDesc rfl rfl
      zslDispatch_start_job).1 Example.zslMetaBuf rfl⟩

/-! ## C17: routing of a captured frame -/

/-- C17 fails as stated: on an initialized post processor, without reprocessing and with
a JPEG picture format, `processData` returns `NO_MEMORY` and appends to no queue
when the encode job cannot be allocated. -/
theorem C17_counterexample_no_memory_for_job :
    Example.launched.pme.m_bInited = true ∧
    Example.envNoJobMemory.m_parent.needReprocess = false ∧
    Example.envNoJobMemory.m_parent.isNV16PictureFormat = false ∧
    Example.envNoJobMemory.m_parent.isNV21PictureFormat = false ∧
    (processData Example.envNoJobMemory Example.launched.pme (Example.frame 0)).1 = NO_MEMORY ∧
    (processData Example.envNoJobMemory Example.launched.pme (Example.frame 0)).2.1
      = Example.launched.pme ∧
    (processData Example.envNoJobMemory Example.launched.pme
      (Example.frame 0)).2.1.m_inputJpegQ = [] ∧
    (processData Example.envNoJobMemory Example.launched.pme
      (Example.frame 0)).2.1.m_inputPPQ = [] ∧
    (processData Example.envNoJobMemory Example.launched.pme
      (Example.frame 0)).2.1.m_inputRawQ = [] :=
  ⟨rfl, rfl, rfl, rfl, rfl, rfl, rfl, rfl, rfl⟩

/-- C17 as amended: for every initialized post processor and every captured frame,
`processData` changes nothing but one input queue: the frame itself is appended to
the reprocess-input queue when reprocessing is needed; otherwise the frame is
appended to the raw-input queue when the picture format is NV16 or NV21; otherwise,
when the encode job can be allocated, a new encode job with `src_frame` equal to the
frame, no pre-reprocess frame and jobId 0 is appended to the encode-input queue, and
when it cannot be allocated `processData` returns `NO_MEMORY` and changes no queue.
When the post processor is not initialized it returns `UNKNOWN_ERROR` and changes
nothing. -/
theorem C17_processData_routes_frame (env : Env) (pme : QCameraPostProcessor)
    (frame : mm_camera_super_buf_t) :
    (pme.m_bInited = false →
      (processData env pme frame).1 = UNKNOWN_ERROR ∧ (processData env pme frame).2.1 = pme) ∧
    (pme.m_bInited = true →
      (env.m_parent.needReprocess = true →
        (processData env pme frame).1 = NO_ERROR ∧
        (processData env pme frame).2.1 =
          { pme with m_inputPPQ := pme.m_inputPPQ ++ [frame] }) ∧
      (env.m_parent.needReprocess = false →
        (env.m_parent.isNV16PictureFormat = true ∨ env.m_parent.isNV21PictureFormat = true) →
        (processData env pme frame).1 = NO_ERROR ∧
        (processData env pme frame).2.1 =
          { pme with m_inputRawQ := pme.m_inputRawQ ++ [frame] }) ∧
      (env.m_parent.needReprocess = false →
        env.m_parent.isNV16PictureFormat = false → env.m_parent.isNV21PictureFormat = false →
        env.malloc_jpeg_job = true →
        (processData env pme frame).1 = NO_ERROR ∧
        (processData env pme frame).2.1 =
          { pme with
            m_inputJpegQ := pme.m_inputJpegQ ++
              [{ jobId := 0, src_frame := some frame, src_reproc_frame := none,
                 pJpegExifObj := none }] }) ∧
      (env.m_parent.needReprocess = false →
        env.m_parent.isNV16PictureFormat = false → env.m_parent.isNV21PictureFormat = false →
        env.malloc_jpeg_job = false →
        (processData env pme frame).1 = NO_MEMORY ∧
        (processData env pme frame).2.1 = pme)) := by
  refine ⟨fun h => ?_, fun h => ⟨fun hr => ?_, fun hr hnv => ?_, fun hr h16 h21 hm => ?_,
    fun hr h16 h21 hm => ?_⟩⟩
  · unfold processData
    rw [if_pos (by simp [h])]
    exact ⟨rfl, rfl⟩
  · unfold processData
    rw [if_neg (by simp [h]), if_pos hr]
    exact ⟨rfl, rfl⟩
  · have hnv2 : (env.m_parent.isNV16PictureFormat || env.m_parent.isNV21PictureFormat) = true := by
      rcases hnv with hx | hx <;> simp [hx]
    have hraw : (processRawData pme frame).2.1 =
        { pme with m_inputRawQ := pme.m_inputRawQ ++ [frame] } := by
      unfold processRawData
      rw [if_neg (by simp [h])]
      rfl
    unfold processData
    rw [if_neg (by simp [h]), if_neg (by simp [hr]), if_pos hnv2]
    exact ⟨rfl, hraw⟩
  · unfold processData
    rw [if_neg (by simp [h]), if_neg (by simp [hr]), if_neg (by simp [h16, h21])]
    simp only []
    rw [if_neg (by simp [hm])]
    exact ⟨rfl, rfl⟩
  · unfold processData
    rw [if_neg (by simp [h]), if_neg (by simp [hr]), if_neg (by simp [h16, h21])]
    simp only []
    rw [if_pos (by simp [hm])]
    exact ⟨rfl, rfl⟩

/-! ## C18: a reprocessed frame becomes an encode job -/

/-- C18 fails as stated: with one reprocess job on the ongoing-reprocess queue and a
JPEG picture format, `processPPData` returns `NO_MEMORY` when the encode job cannot
be allocated; the reprocess job is taken off the ongoing-reprocess queue and nothing
is appended to the encode-input queue. -/
theorem C18_counterexample_no_memory_for_job :
    Example.reprocessing.m_bInited = true ∧
    Example.reprocessing.m_ongoingPPQ = [{ src_frame := some (Example.frame 5) }] ∧
    Example.envNoJobMemory.m_parent.isNV16PictureFormat = false ∧
    Example.envNoJobMemory.m_parent.isNV21PictureFormat = false ∧
    (processPPData Example.envNoJobMemory Example.reprocessing (Example.frame 6)).1
      = NO_MEMORY ∧
    (processPPData Example.envNoJobMemory Example.reprocessing
      (Example.frame 6)).2.1.m_ongoingPPQ = [] ∧
    (processPPData Example.envNoJobMemory Example.reprocessing
      (Example.frame 6)).2.1.m_inputJpegQ = Example.reprocessing.m_inputJpegQ :=
  ⟨rfl, rfl, rfl, rfl, rfl, rfl, rfl⟩

/-- C18 as amended: for every initialized post processor whose ongoing-reprocess queue
has head job P with `P.src_frame = f0` not `NULL` and whose picture format is
neither NV16 nor NV21, `processPPData(frame)` removes exactly P from the head of the
ongoing-reprocess queue and, when the encode job can be allocated, appends to the
encode-input queue exactly one new encode job with `src_frame = frame`,
`src_reproc_frame = f0` and jobId 0, changes nothing else and returns `NO_ERROR`;
when the encode job cannot be allocated it returns `NO_MEMORY` and appends nothing.
Neither buffer is released in either case.  When the ongoing-reprocess queue is
empty it returns `BAD_VALUE`, changes nothing and makes no call. -/
theorem C18_processPPData_makes_encode_job (env : Env) (pme : QCameraPostProcessor)
    (frame : mm_camera_super_buf_t) (hinit : pme.m_bInited = true) :
    (∀ P rest f0, pme.m_ongoingPPQ = P :: rest → P.src_frame = some f0 →
      env.m_parent.isNV16PictureFormat = false → env.m_parent.isNV21PictureFormat = false →
      (env.malloc_jpeg_job = true →
        (processPPData env pme frame).1 = NO_ERROR ∧
        (processPPData env pme frame).2.1 =
          { pme with
            m_ongoingPPQ := rest,
            m_inputJpegQ := pme.m_inputJpegQ ++
              [{ jobId := 0, src_frame := some frame, src_reproc_frame := some f0,
                 pJpegExifObj := none }] } ∧
        (processPPData env pme frame).2.2.filter Event.isRelease = []) ∧
      (env.malloc_jpeg_job = false →
        (processPPData env pme frame).1 = NO_MEMORY ∧
        (processPPData env pme frame).2.1 = { pme with m_ongoingPPQ := rest } ∧
        (processPPData env pme frame).2.2.filter Event.isRelease = [])) ∧
    (pme.m_ongoingPPQ = [] →
      (processPPData env pme frame).1 = BAD_VALUE ∧
      (processPPData env pme frame).2.1 = pme ∧
      (processPPData env pme frame).2.2 = []) := by
  refine ⟨fun P rest f0 hq hP h16 h21 => ⟨fun hm => ?_, fun hm => ?_⟩, fun hq => ?_⟩
  · unfold processPPData
    rw [if_neg (by simp [hinit])]
    simp only [QCameraQueue.dequeue, hq, if_true, List.head?_cons, List.tail_cons,
      Option.some_bind, hP]
    rw [if_neg (by simp [h16, h21]), if_neg (by simp [hm])]
    refine ⟨rfl, rfl, ?_⟩
    cases env.m_parent.isLongshotEnabled <;> rfl
  · unfold processPPData
    rw [if_neg (by simp [hinit])]
    simp only [QCameraQueue.dequeue, hq, if_true, List.head?_cons, List.tail_cons,
      Option.some_bind, hP]
    rw [if_neg (by simp [h16, h21]), if_pos (by simp [hm])]
    refine ⟨rfl, rfl, ?_⟩
    cases env.m_parent.isLongshotEnabled <;> rfl
  · unfold processPPData
    rw [if_neg (by simp [hinit])]
    simp only [QCameraQueue.dequeue, hq, if_true, List.head?_nil, List.tail_nil,
      Option.none_bind]
    refine ⟨trivial, ?_, trivial⟩
    cases pme
    simp_all

/-- C18 as amended is not vacuous: its hypotheses hold for `Example.reprocessing` and
`Example.frame 6`. -/
theorem C18_witness :
    Example.reprocessing.m_bInited = true ∧
    Example.reprocessing.m_ongoingPPQ = [{ src_frame := some (Example.frame 5) }] ∧
    (processPPData (Example.env 1) Example.reprocessing (Example.frame 6)).1 = NO_ERROR ∧
    (processPPData (Example.env 1) Example.reprocessing (Example.frame 6)).2.1 =
      { Example.reprocessing with
        m_ongoingPPQ := [],
        m_inputJpegQ := Example.reprocessing.m_inputJpegQ ++
          [{ jobId := 0, src_frame := some (Example.frame 6),
             src_reproc_frame := some (Example.frame 5), pJpegExifObj := none }] } ∧
    (processPPData (Example.env 1) Example.reprocessing (Example.frame 6)).2.2.filter
      Event.isRelease = [] :=
  ⟨rfl, rfl,
    ((C18_processPPData_makes_encode_job (Example.env 1) Example.reprocessing (Example.frame 6)
      rfl).1 _ _ _ rfl rfl rfl rfl).1 rfl⟩

/-! ## C19: returning a buffer to its channel -/

/-- C19: for a `NULL` buffer `releaseSuperBuf` makes no call.  For every buffer that is
not `NULL` it makes exactly one call: `bufDone` on the capture channel that the HAL
object finds for the channel id of the buffer when there is one; otherwise `bufDone`
on the reprocessing channel when it exists and its handle equals the channel id;
when neither resolves, `bufDone` is called on no channel (the only call is the error
log) and the function still returns. -/
theorem C19_releaseSuperBuf_returns_buffer_to_resolved_channel (env : Env)
    (pme : QCameraPostProcessor) :
    releaseSuperBuf env pme none = [] ∧
    ∀ sb : mm_camera_super_buf_t,
      (∀ ch, env.m_parent.getChannelByHandle sb.ch_id = some ch →
        releaseSuperBuf env pme (some sb) =
          [Event.bufDone (ChannelRef.capture ch.getMyHandle) sb]) ∧
      (∀ rc, env.m_parent.getChannelByHandle sb.ch_id = none →
        pme.m_pReprocChannel = some rc → rc.getMyHandle = sb.ch_id →
        releaseSuperBuf env pme (some sb) =
          [Event.bufDone (ChannelRef.reproc rc.getMyHandle) sb]) ∧
      (env.m_parent.getChannelByHandle sb.ch_id = none →
        (∀ rc, pme.m_pReprocChannel = some rc → rc.getMyHandle ≠ sb.ch_id) →
        releaseSuperBuf env pme (some sb) = [Event.channelNotFound sb.ch_id] ∧
        ∀ c b, Event.bufDone c b ∉ releaseSuperBuf env pme (some sb)) := by
  refine ⟨rfl, fun sb => ⟨?_, ?_, ?_⟩⟩
  · intro ch h
    simp only [releaseSuperBuf, h]
  · intro rc h hrc heq
    simp [releaseSuperBuf, h, hrc, heq]
  · intro h hrc
    have : releaseSuperBuf env pme (some sb) = [Event.channelNotFound sb.ch_id] := by
      simp only [releaseSuperBuf, h]
      cases hp : pme.m_pReprocChannel with
      | none => rfl
      | some rc => simp [hrc rc hp]
    rw [this]
    exact ⟨rfl, fun c b => by simp⟩

/-! ## C20: inline delivery of a completion event -/

/-- C20: for every completion event handled inline (save routing off) on an initialized
post processor with JPEG delivery enabled, a status other than error, a delivery
buffer and a callback record that can be allocated and a notifier that accepts the
callback, `processJpegEvt` returns `NO_ERROR`, hands the notifier exactly one
callback, a `CAMERA_MSG_COMPRESSED_IMAGE` delivery whose payload is a copy of the
first `buf_filled_len` bytes of the output buffer of the event, sends no error
notification, and leaves the ongoing-encode queue without any job whose jobId equals
the jobId of the event (the other jobs stay, in order) and the rest of the object
unchanged. -/
theorem C20_inline_completion_delivers_once (env : Env) (pme : QCameraPostProcessor)
    (evt : qcamera_jpeg_evt_payload_t)
    (hinit : pme.m_bInited = true)
    (hinline : (pme.mUseSaveProc && env.m_parent.isLongshotEnabled) = false)
    (hcb : env.m_parent.mDataCb = true)
    (hen : env.m_parent.msgTypeEnabledWithLock camera_msg_t.CAMERA_MSG_COMPRESSED_IMAGE = true)
    (hst : evt.status ≠ jpeg_job_status_t.JPEG_JOB_STATUS_ERROR)
    (hmem : env.m_parent.mGetMemory = true)
    (halloc : env.malloc_data_cb = true)
    (hsent : env.m_parent.notifyCallback = NO_ERROR) :
    (processJpegEvt env pme evt).1 = NO_ERROR ∧
    (processJpegEvt env pme evt).2.2.filter Event.isNotifyCallback =
      [Event.notifyCallback
        { cb_type := qcamera_callback_type_m.QCAMERA_DATA_SNAPSHOT_CALLBACK,
          msg_type := camera_msg_t.CAMERA_MSG_COMPRESSED_IMAGE, ext1 := 0, ext2 := 0,
          data := some { data := evt.out_data.buf_vaddr.take evt.out_data.buf_filled_len,
                         size := evt.out_data.buf_filled_len },
          index := 0,
          user_data := some
            { msg_type := camera_msg_t.CAMERA_MSG_COMPRESSED_IMAGE,
              data := some { data := evt.out_data.buf_vaddr.take evt.out_data.buf_filled_len,
                             size := evt.out_data.buf_filled_len },
              index := 0,
              release_data :=
                { data := some
                    { data := evt.out_data.buf_vaddr.take evt.out_data.buf_filled_len,
                      size := evt.out_data.buf_filled_len },
                  frame := none, streamBufs := none, unlinkFile := false } },
          release_cb := true }] ∧
    (processJpegEvt env pme evt).2.2.filter Event.isErrorNotify = [] ∧
    (∀ job ∈ (processJpegEvt env pme evt).2.1.m_ongoingJpegQ, job.jobId ≠ evt.jobId) ∧
    (processJpegEvt env pme evt).2.1 =
      { pme with
        m_ongoingJpegQ := pme.m_ongoingJpegQ.filter (fun job => !matchJobId evt.jobId job) } := by
  have hfl1 := filter_eq_nil_of_forall isJobRelease_not_isNotifyCallback
    (flushNodes_calls (releaseJpegData env pme) (matchJobId evt.jobId) Event.isJobRelease
      (releaseJpegJobData_isJobRelease env pme) pme.m_ongoingJpegQ)
  have hfl2 := filter_eq_nil_of_forall isJobRelease_not_isErrorNotify
    (flushNodes_calls (releaseJpegData env pme) (matchJobId evt.jobId) Event.isJobRelease
      (releaseJpegJobData_isJobRelease env pme) pme.m_ongoingJpegQ)
  have hrest := flushNodes_rest (releaseJpegData env pme) (matchJobId evt.jobId)
    pme.m_ongoingJpegQ
  have hd : ∀ p : QCameraPostProcessor, processJpegEvt.deliver env p evt =
      (NO_ERROR,
        some { data := evt.out_data.buf_vaddr.take evt.out_data.buf_filled_len,
               size := evt.out_data.buf_filled_len },
        [Event.dumpJpegToFile evt.out_data.buf_vaddr evt.out_data.buf_filled_len evt.jobId,
         Event.notifyCallback
          { cb_type := qcamera_callback_type_m.QCAMERA_DATA_SNAPSHOT_CALLBACK,
            msg_type := camera_msg_t.CAMERA_MSG_COMPRESSED_IMAGE, ext1 := 0, ext2 := 0,
            data := some { data := evt.out_data.buf_vaddr.take evt.out_data.buf_filled_len,
                           size := evt.out_data.buf_filled_len },
            index := 0,
            user_data := some
              { msg_type := camera_msg_t.CAMERA_MSG_COMPRESSED_IMAGE,
                data := some { data := evt.out_data.buf_vaddr.take evt.out_data.buf_filled_len,
                               size := evt.out_data.buf_filled_len },
                index := 0,
                release_data :=
                  { data := some
                      { data := evt.out_data.buf_vaddr.take evt.out_data.buf_filled_len,
                        size := evt.out_data.buf_filled_len },
                    frame := none, streamBufs := none, unlinkFile := false } },
            release_cb := true }]) := by
    intro p
    simp [processJpegEvt.deliver, sendDataNotify, hcb, hen, hst, hmem, halloc, hsent, NO_ERROR]
  have hp : processJpegEvt env pme evt =
      (NO_ERROR,
        { pme with m_ongoingJpegQ := (QCameraQueue.flushNodes (releaseJpegData env pme)
          (matchJobId evt.jobId) pme.m_ongoingJpegQ).2 },
        (QCameraQueue.flushNodes (releaseJpegData env pme) (matchJobId evt.jobId)
            pme.m_ongoingJpegQ).1
          ++ [Event.dumpJpegToFile evt.out_data.buf_vaddr evt.out_data.buf_filled_len
                evt.jobId,
              Event.notifyCallback
                { cb_type := qcamera_callback_type_m.QCAMERA_DATA_SNAPSHOT_CALLBACK,
                  msg_type := camera_msg_t.CAMERA_MSG_COMPRESSED_IMAGE, ext1 := 0, ext2 := 0,
                  data := some
                    { data := evt.out_data.buf_vaddr.take evt.out_data.buf_filled_len,
                      size := evt.out_data.buf_filled_len },
                  index := 0,
                  user_data := some
                    { msg_type := camera_msg_t.CAMERA_MSG_COMPRESSED_IMAGE,
                      data := some
                        { data := evt.out_data.buf_vaddr.take evt.out_data.buf_filled_len,
                          size := evt.out_data.buf_filled_len },
                      index := 0,
                      release_data :=
                        { data := some
                            { data := evt.out_data.buf_vaddr.take evt.out_data.buf_filled_len,
                              size := evt.out_data.buf_filled_len },
                          frame := none, streamBufs := none, unlinkFile := false } },
                  release_cb := true }]
          ++ [Event.sendCmd CmdThread.m_dataProcTh
                camera_cmd_type_t.CAMERA_CMD_TYPE_DO_NEXT_JOB false false]) := by
    unfold processJpegEvt
    rw [if_neg (by simp [hinit]), if_neg (by simp [hinline])]
    simp only [hd, processJpegEvt.onEnd, bne_self_eq_false, Bool.false_eq_true, if_false,
      List.append_nil]
  rw [hp]
  refine ⟨rfl, ?_, ?_, ?_, ?_⟩
  · simp only [List.filter_append, hfl1]
    rfl
  · simp only [List.filter_append, hfl2]
    rfl
  · intro job hjob
    simp only [hrest, List.mem_filter] at hjob
    simpa [matchJobId] using hjob.2
  · simp only [hrest]

/-- C20 is not vacuous: its hypotheses hold for the event `Example.doneEvt` on
`Example.activeQueued`, whose ongoing job 4 is removed. -/
theorem C20_witness :
    Example.activeQueued.pme.m_bInited = true ∧
    Example.activeQueued.pme.m_ongoingJpegQ = [{ Example.job 9 with jobId := 4 }] ∧
    Example.doneEvt.jobId = 4 ∧
    (processJpegEvt (Example.env 1) Example.activeQueued.pme Example.doneEvt).1 = NO_ERROR ∧
    (processJpegEvt (Example.env 1) Example.activeQueued.pme Example.doneEvt).2.2.filter
        Event.isErrorNotify = [] ∧
    (processJpegEvt (Example.env 1) Example.activeQueued.pme Example.doneEvt).2.1.m_ongoingJpegQ
      = [] :=
  ⟨rfl, rfl, rfl,
    (C20_inline_completion_delivers_once (Example.env 1) Example.activeQueued.pme
      Example.doneEvt rfl rfl rfl rfl (by decide) rfl rfl rfl).1,
    (C20_inline_completion_delivers_once (Example.env 1) Example.activeQueued.pme
      Example.doneEvt rfl rfl rfl rfl (by decide) rfl rfl rfl).2.2.1,
    rfl⟩

/-! ## C21: a completion event that reports a failure -/

/-- C21 fails as stated: with JPEG delivery disabled a completion event handled inline
whose status is `JPEG_JOB_STATUS_ERROR` makes `processJpegEvt` return `NO_ERROR` and
send no `CAMERA_MSG_ERROR` notification. -/
theorem C21_counterexample_error_event_with_delivery_disabled :
    Example.activeQueued.pme.m_bInited = true ∧
    (Example.activeQueued.pme.mUseSaveProc &&
      Example.envNoDelivery.m_parent.isLongshotEnabled) = false ∧
    Example.errorEvt.status = jpeg_job_status_t.JPEG_JOB_STATUS_ERROR ∧
    (processJpegEvt Example.envNoDelivery Example.activeQueued.pme Example.errorEvt).1
      = NO_ERROR ∧
    (processJpegEvt Example.envNoDelivery Example.activeQueued.pme Example.errorEvt).2.2.filter
      Event.isErrorNotify = [] :=
  ⟨rfl, rfl, rfl, rfl, rfl⟩

/-- C21 as amended: for every completion event handled inline whose status is
`JPEG_JOB_STATUS_ERROR`: when JPEG delivery is enabled (the data callback is set and
`CAMERA_MSG_COMPRESSED_IMAGE` is enabled) `processJpegEvt` returns the non-zero
status `FAILED_TRANSACTION`, sends exactly one `CAMERA_MSG_ERROR` notification and
hands no callback to the notifier; when JPEG delivery is disabled it returns
`NO_ERROR` and sends neither an error notification nor a delivery. -/
theorem C21_error_event_surfaced_when_delivery_enabled (env : Env)
    (pme : QCameraPostProcessor) (evt : qcamera_jpeg_evt_payload_t)
    (hinit : pme.m_bInited = true)
    (hinline : (pme.mUseSaveProc && env.m_parent.isLongshotEnabled) = false)
    (hst : evt.status = jpeg_job_status_t.JPEG_JOB_STATUS_ERROR) :
    ((env.m_parent.mDataCb &&
        env.m_parent.msgTypeEnabledWithLock camera_msg_t.CAMERA_MSG_COMPRESSED_IMAGE) = true →
      (processJpegEvt env pme evt).1 = FAILED_TRANSACTION ∧
      (processJpegEvt env pme evt).1 ≠ NO_ERROR ∧
      (processJpegEvt env pme evt).2.2.filter Event.isErrorNotify
        = [Event.sendEvtNotify camera_msg_t.CAMERA_MSG_ERROR UNKNOWN_ERROR 0] ∧
      (processJpegEvt env pme evt).2.2.filter Event.isNotifyCallback = []) ∧
    ((env.m_parent.mDataCb &&
        env.m_parent.msgTypeEnabledWithLock camera_msg_t.CAMERA_MSG_COMPRESSED_IMAGE) = false →
      (processJpegEvt env pme evt).1 = NO_ERROR ∧
      (processJpegEvt env pme evt).2.2.filter Event.isErrorNotify = [] ∧
      (processJpegEvt env pme evt).2.2.filter Event.isNotifyCallback = []) := by
  obtain ⟨hs1, hs2⟩ := flushNodes_jpeg_silent env pme evt.jobId pme.m_ongoingJpegQ
  rw [processJpegEvt_inline env pme evt hinit hinline]
  refine ⟨fun hen => ?_, fun hen => ?_⟩
  · have hd : ∀ p : QCameraPostProcessor,
        processJpegEvt.deliver env p evt = (FAILED_TRANSACTION, none, []) := by
      intro p
      have hdis : (!env.m_parent.mDataCb ||
          !env.m_parent.msgTypeEnabledWithLock camera_msg_t.CAMERA_MSG_COMPRESSED_IMAGE)
          = false := by
        cases h1 : env.m_parent.mDataCb <;>
          cases h2 : env.m_parent.msgTypeEnabledWithLock
            camera_msg_t.CAMERA_MSG_COMPRESSED_IMAGE <;> simp_all
      unfold processJpegEvt.deliver
      rw [if_neg (by simp [hdis]), if_pos (by simp [hst])]
    simp only [hd, processJpegEvt.onEnd, List.filter_append, hs1, hs2]
    refine ⟨by first | rfl | trivial, by decide, ?_, ?_⟩
    · rfl
    · rfl
  · have hd : ∀ p : QCameraPostProcessor,
        processJpegEvt.deliver env p evt = (NO_ERROR, none, []) := by
      intro p
      have hdis : (!env.m_parent.mDataCb ||
          !env.m_parent.msgTypeEnabledWithLock camera_msg_t.CAMERA_MSG_COMPRESSED_IMAGE)
          = true := by
        cases h1 : env.m_parent.mDataCb <;>
          cases h2 : env.m_parent.msgTypeEnabledWithLock
            camera_msg_t.CAMERA_MSG_COMPRESSED_IMAGE <;> simp_all
      unfold processJpegEvt.deliver
      rw [if_pos hdis]
    simp only [hd, processJpegEvt.onEnd, List.filter_append, hs1, hs2]
    exact ⟨by first | rfl | trivial, rfl, rfl⟩

/-- C21 as amended is not vacuous: its hypotheses hold for the event `Example.errorEvt`
on `Example.activeQueued`, with JPEG delivery enabled. -/
theorem C21_witness :
    Example.activeQueued.pme.m_bInited = true ∧
    Example.errorEvt.status = jpeg_job_status_t.JPEG_JOB_STATUS_ERROR ∧
    (processJpegEvt (Example.env 1) Example.activeQueued.pme Example.errorEvt).1
      = FAILED_TRANSACTION ∧
    (processJpegEvt (Example.env 1) Example.activeQueued.pme Example.errorEvt).2.2.filter
        Event.isErrorNotify
      = [Event.sendEvtNotify camera_msg_t.CAMERA_MSG_ERROR UNKNOWN_ERROR 0] ∧
    (processJpegEvt (Example.env 1) Example.activeQueued.pme Example.errorEvt).2.2.filter
        Event.isNotifyCallback = [] :=
  ⟨rfl, rfl,
    ((C21_error_event_surfaced_when_delivery_enabled (Example.env 1) Example.activeQueued.pme
      Example.errorEvt rfl rfl rfl).1 rfl).1,
    ((C21_error_event_surfaced_when_delivery_enabled (Example.env 1) Example.activeQueued.pme
      Example.errorEvt rfl rfl rfl).1 rfl).2.2.1,
    ((C21_error_event_surfaced_when_delivery_enabled (Example.env 1) Example.activeQueued.pme
      Example.errorEvt rfl rfl rfl).1 rfl).2.2.2⟩

/-! ## C22: the delivery buffer when the hand-off fails -/

/-- C22, at a concrete event: the completion event `Example.doneEvt` is handled inline,
its delivery buffer is allocated and the notifier refuses the callback, so that
`sendDataNotify` returns `UNKNOWN_ERROR`.  The claim says the delivery buffer is
released exactly once; here it is released twice, by `releaseNotifyData` inside
`sendDataNotify` and again at the label `end` of `processJpegEvt`.  One error
notification is sent. -/
theorem C22_delivery_buffer_released_twice :
    Example.activeQueued.pme.m_bInited = true ∧
    Example.envNotifyFails.m_parent.mGetMemory = true ∧
    Example.envNotifyFails.malloc_data_cb = true ∧
    Example.envNotifyFails.m_parent.notifyCallback ≠ NO_ERROR ∧
    (processJpegEvt Example.envNotifyFails Example.activeQueued.pme Example.doneEvt).1
      = UNKNOWN_ERROR ∧
    (processJpegEvt Example.envNotifyFails Example.activeQueued.pme Example.doneEvt).2.2.count
        (Event.memRelease Example.doneMem) = 2 ∧
    (processJpegEvt Example.envNotifyFails Example.activeQueued.pme Example.doneEvt).2.2.filter
        Event.isErrorNotify
      = [Event.sendEvtNotify camera_msg_t.CAMERA_MSG_ERROR UNKNOWN_ERROR 0] :=
  ⟨rfl, rfl, rfl, by decide,
    ((processJpegEvt_handoff_fails Example.envNotifyFails Example.activeQueued.pme
      Example.doneEvt rfl rfl rfl rfl (by decide) rfl).2 rfl (by decide)).1,
    ((processJpegEvt_handoff_fails Example.envNotifyFails Example.activeQueued.pme
      Example.doneEvt rfl rfl rfl rfl (by decide) rfl).2 rfl (by decide)).2.1,
    ((processJpegEvt_handoff_fails Example.envNotifyFails Example.activeQueued.pme
      Example.doneEvt rfl rfl rfl rfl (by decide) rfl).2 rfl (by decide)).2.2⟩

/-! ## C23: the raw frame when its delivery fails -/

/-- C23, at a concrete run: the post processor is started for a burst of two snapshots,
one raw frame is submitted and the process loop takes the wake-up;
`processRawImageImpl` hands the frame to `sendDataNotify` as release data and the
notifier refuses the callback.  The claim says the frame is returned to its channel
exactly once in total; here it is returned twice, by `releaseNotifyData` inside the
delivery path and again by the loop.  One error notification is sent. -/
theorem C23_raw_frame_released_twice :
    ∃ s tr, run Example.launched Example.rawSubmission = some (s, tr) ∧
      tr.filter Event.isRelease
        = [Event.bufDone (ChannelRef.capture 1) Example.rawFrame,
           Event.bufDone (ChannelRef.capture 1) Example.rawFrame] ∧
      tr.filter Event.isErrorNotify
        = [Event.sendEvtNotify camera_msg_t.CAMERA_MSG_ERROR UNKNOWN_ERROR 0] ∧
      s.pme.m_inputRawQ = [] :=
  ⟨_, _, rfl, rfl, rfl, rfl⟩

/-! ## C24: the hand-off of a frame to reprocess -/

/-- C24: when the loop is active and the frame `f` is at the head of the reprocess-input
queue, a `DoNextJob` wake-up returns and its reprocess part, run after the encode
and raw parts, which leave the reprocess queues alone, does this: when the hand-off
fails (the job wrapper cannot be allocated, there is no reprocessing channel, or
`doReprocess` returns non-zero) the ongoing-reprocess queue is afterwards exactly
what it was before, the frame is returned through one `releaseSuperBuf` call and
exactly one `CAMERA_MSG_ERROR` notification is sent; when the hand-off succeeds the
ongoing-reprocess queue has gained exactly one job wrapping `f` at its tail, the
only call is `doReprocess(f)`, and nothing is released or notified. -/
theorem C24_reprocess_handoff (env : Env) (s : PostProcState)
    (f : mm_camera_super_buf_t) (rest : List mm_camera_super_buf_t)
    (hactive : s.is_active = true)
    (hwf : ∀ job, s.pme.m_inputJpegQ.head? = some job → job.src_frame ≠ none)
    (hq : s.pme.m_inputPPQ = f :: rest) :
    ∃ r1 r2 r3 : PostProcState × List Event,
      dataProcessRoutine.doEncode env s = some r1 ∧
      dataProcessRoutine.doRaw env r1.1 = r2 ∧
      dataProcessRoutine.doReproc env r2.1 = r3 ∧
      dataProcessRoutine env camera_cmd_type_t.CAMERA_CMD_TYPE_DO_NEXT_JOB s
        = some (r3.1, r1.2 ++ r2.2 ++ r3.2) ∧
      r2.1.pme.m_inputPPQ = f :: rest ∧
      r2.1.pme.m_ongoingPPQ = s.pme.m_ongoingPPQ ∧
      ((env.malloc_pp_job = false ∨ s.pme.m_pReprocChannel = none ∨
          env.doReprocess ≠ NO_ERROR) →
        r3.1.pme.m_ongoingPPQ = s.pme.m_ongoingPPQ ∧
        r3.2.filter Event.isRelease = releaseSuperBuf env s.pme (some f) ∧
        (r3.2.filter Event.isRelease).length = 1 ∧
        r3.2.filter Event.isErrorNotify
          = [Event.sendEvtNotify camera_msg_t.CAMERA_MSG_ERROR UNKNOWN_ERROR 0]) ∧
      (env.malloc_pp_job = true → s.pme.m_pReprocChannel ≠ none →
          env.doReprocess = NO_ERROR →
        r3.1.pme.m_ongoingPPQ = s.pme.m_ongoingPPQ ++ [{ src_frame := some f }] ∧
        r3.2 = [Event.doReprocess f] ∧
        r3.2.filter Event.isRelease = [] ∧
        r3.2.filter Event.isErrorNotify = []) := by
  obtain ⟨r1, h1, -, -, hp1⟩ := doEncode_queues env s hwf
  obtain ⟨ho1, hc1⟩ := doEncode_reproc env s r1 h1
  obtain ⟨-, -, hp2, -⟩ := doRaw_queues env r1.1
  obtain ⟨ho2, hc2⟩ := doRaw_reproc env r1.1
  have hq2 : (dataProcessRoutine.doRaw env r1.1).1.pme.m_inputPPQ = f :: rest := by
    rw [hp2, hp1, hq]
  have hch : (dataProcessRoutine.doRaw env r1.1).1.pme.m_pReprocChannel
      = s.pme.m_pReprocChannel := by rw [hc2, hc1]
  have hon : (dataProcessRoutine.doRaw env r1.1).1.pme.m_ongoingPPQ
      = s.pme.m_ongoingPPQ := by rw [ho2, ho1]
  obtain ⟨hf, hs⟩ := doReproc_cases env (dataProcessRoutine.doRaw env r1.1).1 f rest hq2
  refine ⟨r1, _, _, h1, rfl, rfl, ?_, hq2, hon, fun hfail => ?_, fun hm hc hok => ?_⟩
  · simp [dataProcessRoutine, hactive, dataProcessRoutine.doNextJobActive, h1]
  · obtain ⟨a, b, c⟩ := hf (by rw [hch]; exact hfail)
    have hb : (dataProcessRoutine.doReproc env (dataProcessRoutine.doRaw env r1.1).1).2.filter
        Event.isRelease = releaseSuperBuf env s.pme (some f) := by
      rw [b]
      exact releaseSuperBuf_congr env s.pme _ hch (some f)
    refine ⟨by rw [a, hon], hb, ?_, c⟩
    rw [hb, releaseSuperBuf_length]
    rfl
  · obtain ⟨a, b⟩ := hs hm (by rw [hch]; exact hc) hok
    refine ⟨by rw [a, hon], b, ?_, ?_⟩
    · rw [b]; rfl
    · rw [b]; rfl

/-- C24 is not vacuous: its hypotheses hold for `Example.reprocQueued` when the
reprocessing channel refuses the frame. -/
theorem C24_witness :
    Example.reprocQueued.is_active = true ∧
    Example.reprocQueued.pme.m_inputPPQ = Example.frame 3 :: [] ∧
    Example.envReprocFails.doReprocess ≠ NO_ERROR ∧
    ∃ r1 r2 r3 : PostProcState × List Event,
      dataProcessRoutine.doEncode Example.envReprocFails Example.reprocQueued = some r1 ∧
      dataProcessRoutine.doRaw Example.envReprocFails r1.1 = r2 ∧
      dataProcessRoutine.doReproc Example.envReprocFails r2.1 = r3 ∧
      dataProcessRoutine Example.envReprocFails camera_cmd_type_t.CAMERA_CMD_TYPE_DO_NEXT_JOB
          Example.reprocQueued = some (r3.1, r1.2 ++ r2.2 ++ r3.2) ∧
      r3.1.pme.m_ongoingPPQ = [{ src_frame := some (Example.frame 5) }] ∧
      (r3.2.filter Event.isRelease).length = 1 ∧
      r3.2.filter Event.isErrorNotify
        = [Event.sendEvtNotify camera_msg_t.CAMERA_MSG_ERROR UNKNOWN_ERROR 0] :=
  ⟨rfl, rfl, by decide,
    (C24_reprocess_handoff Example.envReprocFails Example.reprocQueued (Example.frame 3) []
      rfl (fun job hj =>
        absurd (show (none : Option qcamera_jpeg_data_t) = some job from hj) (by simp))
      rfl).elim
      fun r1 h1 => h1.elim fun r2 h2 => h2.elim fun r3 h =>
        ⟨r1, r2, r3, h.1, h.2.1, h.2.2.1, h.2.2.2.1,
          (h.2.2.2.2.2.2.1 (Or.inr (Or.inr (by decide)))).1,
          (h.2.2.2.2.2.2.1 (Or.inr (Or.inr (by decide)))).2.2.1,
          (h.2.2.2.2.2.2.1 (Or.inr (Or.inr (by decide)))).2.2.2⟩⟩

/-! ## C25: the save loop -/

/-- C25 fails as stated: the save loop is active and the save counter is 2^32 - 1. The
path delivered is `/sdcard/img_-1.jpg`, not the path with the counter, and after the
job the save counter is 0: it has not increased by one. -/
theorem C25_counterexample_save_counter_wraps :
    Example.savingLast.pme.m_inputSaveQ = [Example.doneEvt] ∧
    Example.savingLast.save_is_active = true ∧
    Example.savingLast.pme.mSaveFrmCnt = 4294967295 ∧
    (dataSaveRoutine (Example.env 1) camera_cmd_type_t.CAMERA_CMD_TYPE_DO_NEXT_JOB
      Example.savingLast).1.pme.mSaveFrmCnt = 0 ∧
    saveName Example.savingLast.pme.mSaveFrmCnt = "/sdcard/img_-1.jpg" ∧
    ∃ cb,
      (dataSaveRoutine (Example.env 1) camera_cmd_type_t.CAMERA_CMD_TYPE_DO_NEXT_JOB
        Example.savingLast).2.filter Event.isNotifyCallback = [Event.notifyCallback cb] ∧
      cb.data = some { data := strBytes "/sdcard/img_-1.jpg", size := 18 } ∧
      cb.msg_type = camera_msg_t.CAMERA_MSG_COMPRESSED_IMAGE :=
  ⟨rfl, rfl, rfl, rfl, by decide, _, rfl, by decide, rfl⟩

/-- C25 as amended: for every completion event that the save loop takes from the head of
the save queue on `DoNextJob`, the ongoing-encode jobs whose jobId equals that of
the event are removed whether the loop is active or not. When the loop is inactive
no callback is handed to the notifier and the save counter is unchanged. When the
loop is active the 32-bit save counter goes up by exactly one, wrapping to 0 after
4294967295; a callback is handed to the notifier exactly when the delivery buffer
and the callback record can be allocated, and it is a `CAMERA_MSG_COMPRESSED_IMAGE`
delivery whose payload is the bytes of the storage path `/sdcard/img_<n>.jpg` and
whose release data is marked `unlinkFile`; here `<n>` is the save counter before
this job as `%d` prints it: the counter itself while it is below 2^31, and the
negative number counter - 2^32 from 2^31 on. -/
theorem C25_save_loop_delivers_path (env : Env) (s : PostProcState)
    (evt : qcamera_jpeg_evt_payload_t) (rest : List qcamera_jpeg_evt_payload_t)
    (hq : s.pme.m_inputSaveQ = evt :: rest) :
    (dataSaveRoutine env camera_cmd_type_t.CAMERA_CMD_TYPE_DO_NEXT_JOB s).1.pme.m_inputSaveQ
      = rest ∧
    (dataSaveRoutine env camera_cmd_type_t.CAMERA_CMD_TYPE_DO_NEXT_JOB s).1.pme.m_ongoingJpegQ
      = s.pme.m_ongoingJpegQ.filter (fun job => !matchJobId evt.jobId job) ∧
    (∀ job ∈ (dataSaveRoutine env camera_cmd_type_t.CAMERA_CMD_TYPE_DO_NEXT_JOB
        s).1.pme.m_ongoingJpegQ, job.jobId ≠ evt.jobId) ∧
    (s.save_is_active = false →
      (dataSaveRoutine env camera_cmd_type_t.CAMERA_CMD_TYPE_DO_NEXT_JOB s).2.filter
        Event.isNotifyCallback = [] ∧
      (dataSaveRoutine env camera_cmd_type_t.CAMERA_CMD_TYPE_DO_NEXT_JOB s).1.pme.mSaveFrmCnt
        = s.pme.mSaveFrmCnt) ∧
    (s.save_is_active = true →
      (dataSaveRoutine env camera_cmd_type_t.CAMERA_CMD_TYPE_DO_NEXT_JOB s).1.pme.mSaveFrmCnt
        = (s.pme.mSaveFrmCnt + 1) % 4294967296 ∧
      (s.pme.mSaveFrmCnt < 4294967295 →
        (dataSaveRoutine env camera_cmd_type_t.CAMERA_CMD_TYPE_DO_NEXT_JOB
          s).1.pme.mSaveFrmCnt = s.pme.mSaveFrmCnt + 1) ∧
      (s.pme.mSaveFrmCnt < 2147483648 →
        saveName s.pme.mSaveFrmCnt
          = "/sdcard/img_" ++ toString s.pme.mSaveFrmCnt ++ ".jpg") ∧
      (2147483648 ≤ s.pme.mSaveFrmCnt → s.pme.mSaveFrmCnt < 4294967296 →
        saveName s.pme.mSaveFrmCnt
          = "/sdcard/img_-" ++ toString (4294967296 - s.pme.mSaveFrmCnt) ++ ".jpg") ∧
      ((env.m_parent.mGetMemory = false ∨ env.malloc_data_cb = false) →
        (dataSaveRoutine env camera_cmd_type_t.CAMERA_CMD_TYPE_DO_NEXT_JOB s).2.filter
          Event.isNotifyCallback = []) ∧
      (env.m_parent.mGetMemory = true → env.malloc_data_cb = true →
        (dataSaveRoutine env camera_cmd_type_t.CAMERA_CMD_TYPE_DO_NEXT_JOB s).2.filter
            Event.isNotifyCallback =
          [Event.notifyCallback
            { cb_type := qcamera_callback_type_m.QCAMERA_DATA_SNAPSHOT_CALLBACK,
              msg_type := camera_msg_t.CAMERA_MSG_COMPRESSED_IMAGE, ext1 := 0, ext2 := 0,
              data := some { data := strBytes (saveName s.pme.mSaveFrmCnt),
                             size := (strBytes (saveName s.pme.mSaveFrmCnt)).length },
              index := 0,
              user_data := some
                { msg_type := camera_msg_t.CAMERA_MSG_COMPRESSED_IMAGE,
                  data := some { data := strBytes (saveName s.pme.mSaveFrmCnt),
                                 size := (strBytes (saveName s.pme.mSaveFrmCnt)).length },
                  index := 0,
                  release_data :=
                    { data := some
                        { data := strBytes (saveName s.pme.mSaveFrmCnt),
                          size := (strBytes (saveName s.pme.mSaveFrmCnt)).length },
                      frame := none, streamBufs := none, unlinkFile := true } },
              release_cb := true }])) := by
  have hinc : s.pme.mSaveFrmCnt < 4294967295 →
      (s.pme.mSaveFrmCnt + 1) % 4294967296 = s.pme.mSaveFrmCnt + 1 :=
    fun h => Nat.mod_eq_of_lt (by omega)
  have hpos : s.pme.mSaveFrmCnt < 2147483648 →
      saveName s.pme.mSaveFrmCnt
        = "/sdcard/img_" ++ toString s.pme.mSaveFrmCnt ++ ".jpg" := by
    intro h
    have hm : s.pme.mSaveFrmCnt % 4294967296 = s.pme.mSaveFrmCnt :=
      Nat.mod_eq_of_lt (by omega)
    unfold saveName formatD
    rw [hm, if_pos h]
  have hneg : 2147483648 ≤ s.pme.mSaveFrmCnt → s.pme.mSaveFrmCnt < 4294967296 →
      saveName s.pme.mSaveFrmCnt
        = "/sdcard/img_-" ++ toString (4294967296 - s.pme.mSaveFrmCnt) ++ ".jpg" := by
    intro h1 h2
    have hm : s.pme.mSaveFrmCnt % 4294967296 = s.pme.mSaveFrmCnt := Nat.mod_eq_of_lt h2
    unfold saveName formatD
    rw [hm, if_neg (by omega), ← String.append_assoc]
    rfl
  obtain ⟨hs1, -⟩ := flushNodes_jpeg_silent env s.pme evt.jobId s.pme.m_ongoingJpegQ
  have hrest := flushNodes_rest (releaseJpegData env s.pme) (matchJobId evt.jobId)
    s.pme.m_ongoingJpegQ
  have hwritten : (if env.save_open then
        [Event.saveFile (saveName s.pme.mSaveFrmCnt) evt.out_data.buf_vaddr
          evt.out_data.buf_filled_len]
      else []).filter Event.isNotifyCallback = [] := by
    split <;> rfl
  simp only [dataSaveRoutine, dataSaveRoutine.doNextJob, QCameraQueue.dequeue, hq, if_true,
    List.head?_cons, List.tail_cons]
  cases hact : s.save_is_active with
  | false =>
    simp only [Bool.false_eq_true, if_false, hrest, hs1]
    refine ⟨trivial, trivial, ?_, fun _ => ⟨trivial, trivial⟩, fun h => by simp at h⟩
    intro job hjob
    simp only [List.mem_filter] at hjob
    simpa [matchJobId] using hjob.2
  | true =>
    simp only [if_true]
    cases hmem : env.m_parent.mGetMemory with
    | false =>
      simp only [Bool.not_false, if_true, hrest, List.filter_append, hs1, hwritten,
        List.append_nil]
      refine ⟨trivial, trivial, ?_, fun h => by simp at h, fun _ =>
        ⟨trivial, hinc, hpos, hneg, fun _ => trivial, fun h => by simp at h⟩⟩
      intro job hjob
      simp only [List.mem_filter] at hjob
      simpa [matchJobId] using hjob.2
    | true =>
      simp only [Bool.not_true, Bool.false_eq_true, if_false, hrest, List.filter_append, hs1,
        hwritten, List.nil_append]
      refine ⟨trivial, trivial, ?_, fun h => by simp at h, fun _ =>
        ⟨trivial, hinc, hpos, hneg, fun hno => ?_, fun _ halloc => ?_⟩⟩
      · intro job hjob
        simp only [List.mem_filter] at hjob
        simpa [matchJobId] using hjob.2
      · rcases hno with h | h
        · simp at h
        · simp [sendDataNotify, h]
      · cases hnc : (env.m_parent.notifyCallback != NO_ERROR) with
        | false =>
          simp [sendDataNotify, halloc, hnc, Event.isNotifyCallback, releaseNotifyData,
            releaseSuperBuf, List.filter]
        | true =>
          simp [sendDataNotify, halloc, hnc, Event.isNotifyCallback, releaseNotifyData,
            releaseSuperBuf, List.filter]
          intro a _ _ ha
          subst ha
          rfl

/-- C25 as amended is not vacuous: for `Example.saving` the job 4 is removed, the
counter goes from 0 to 1 and one callback with the path `/sdcard/img_0.jpg` is
handed to the notifier. -/
theorem C25_witness :
    Example.saving.pme.m_inputSaveQ = Example.doneEvt :: [] ∧
    Example.saving.save_is_active = true ∧
    Example.saving.pme.mSaveFrmCnt = 0 ∧
    (dataSaveRoutine (Example.env 1) camera_cmd_type_t.CAMERA_CMD_TYPE_DO_NEXT_JOB
      Example.saving).1.pme.m_ongoingJpegQ = [] ∧
    (dataSaveRoutine (Example.env 1) camera_cmd_type_t.CAMERA_CMD_TYPE_DO_NEXT_JOB
      Example.saving).1.pme.mSaveFrmCnt = 1 ∧
    saveName Example.saving.pme.mSaveFrmCnt = "/sdcard/img_0.jpg" ∧
    ((dataSaveRoutine (Example.env 1) camera_cmd_type_t.CAMERA_CMD_TYPE_DO_NEXT_JOB
      Example.saving).2.filter Event.isNotifyCallback).length = 1 :=
  ⟨rfl, rfl, rfl, rfl,
    ((C25_save_loop_delivers_path (Example.env 1) Example.saving Example.doneEvt [] rfl).2.2.2.2
      rfl).2.1 (by decide),
    by decide,
    by rw [((C25_save_loop_delivers_path (Example.env 1) Example.saving Example.doneEvt []
      rfl).2.2.2.2 rfl).2.2.2.2.2 rfl rfl]; rfl⟩

/-! ## C26: round trip of a table entry -/

/-- C26, the round trip of `addEntry`: for every tag id, every one of the eight value
types, every count of at least 1 and every input, when `addEntry` returns `NO_ERROR`
on a table of `MAX_EXIF_TABLE_ENTRIES` slots with n entries, n below
`MAX_EXIF_TABLE_ENTRIES`, then the number of entries is n + 1, the slots other than
n (so the entries 0 to n - 1) are unchanged, and slot n has the given tag id, type
and count and holds a value whose first `count` elements are the first `count`
elements of the input; the value is exactly these elements, followed by a
terminating 0 for `EXIF_ASCII`. -/
theorem C26_addEntry_round_trip (cap : Nat) (malloc : Option Nat) (self : QCameraExif)
    (tagid : Nat) (type : exif_tag_type_t) (count : Nat) (data : List Nat)
    (r : AddEntryResult)
    (hlen : self.m_Entries.length = cap) (hn : self.m_nNumEntries < cap)
    (hcount : 1 ≤ count)
    (h : QCameraExif.addEntry cap malloc self tagid type count data = some r)
    (hok : r.rc = NO_ERROR) :
    r.exif.m_nNumEntries = self.m_nNumEntries + 1 ∧
    r.exif.m_Entries.length = cap ∧
    (∀ i, i < self.m_nNumEntries → r.exif.m_Entries[i]? = self.m_Entries[i]?) ∧
    (∀ i, i ≠ self.m_nNumEntries → r.exif.m_Entries[i]? = self.m_Entries[i]?) ∧
    ∃ e, r.exif.m_Entries[self.m_nNumEntries]? = some e ∧
      e.tag_id = tagid ∧ e.tag_entry.type = some type ∧ e.tag_entry.count = count ∧
      e.tag_entry.data.values.take count = data.take count ∧
      (data.take count).length = count ∧
      (type ≠ exif_tag_type_t.EXIF_ASCII → e.tag_entry.data.values = data.take count) ∧
      (type = exif_tag_type_t.EXIF_ASCII →
        e.tag_entry.data.values = data.take count ++ [0]) := by
  obtain ⟨d, hr, hcase⟩ := addEntry_cases cap malloc self tagid type count data r hn h
  have hl : self.m_nNumEntries < self.m_Entries.length := by rw [hlen]; exact hn
  have hd : d.values.take count = data.take count ∧ (data.take count).length = count ∧
      (type ≠ exif_tag_type_t.EXIF_ASCII → d.values = data.take count) ∧
      (type = exif_tag_type_t.EXIF_ASCII → d.values = data.take count ++ [0]) := by
    rcases hcase with ⟨hnum, hc, -, -, v, hv, hdv⟩ | ⟨-, -, hrc, -, -⟩ |
      ⟨-, -, hlen2, a, -, -, hda⟩
    · have hc1 : count = 1 := by omega
      subst hc1
      subst hdv
      cases data with
      | nil => simp at hv
      | cons x xs =>
        simp only [List.head?_cons, Option.some.injEq] at hv
        subst hv
        refine ⟨by simp [exif_tag_data_t.values], by simp, fun _ => by
          simp [exif_tag_data_t.values], fun ht => ?_⟩
        subst ht
        simp [exif_tag_type_t.isNumeric] at hnum
    · rw [hrc] at hok
      simp [NO_MEMORY, NO_ERROR] at hok
    · subst hda
      have hlt : (data.take count).length = count := by
        rw [List.length_take]; omega
      by_cases ht : type = exif_tag_type_t.EXIF_ASCII
      · rw [if_pos ht]
        refine ⟨?_, hlt, fun hne => absurd ht hne, fun _ => rfl⟩
        show ((data.take count) ++ [0]).take count = data.take count
        rw [List.take_append_of_le_length (by omega)]
        rw [List.take_take]
        simp
      · rw [if_neg ht]
        refine ⟨?_, hlt, fun _ => rfl, fun hx => absurd hx ht⟩
        show (data.take count).take count = data.take count
        rw [List.take_take]
        simp
  rw [hr]
  refine ⟨rfl, by simpa using hlen, fun i hi => ?_, fun i hi => ?_,
    { tag_id := tagid,
      tag_entry := { type := some type, count := count, copy := 1, data := d } },
    ?_, rfl, rfl, rfl, hd⟩
  · simp only []
    rw [List.getElem?_set_ne (by omega)]
  · simp only []
    rw [List.getElem?_set_ne (fun hx => hi hx.symm)]
  · simp only []
    rw [List.getElem?_set_self hl]

/-- C26 is not vacuous: adding the two shorts 7 and 8 to the fresh table
`Example.exifTable` gives them back in entry 0. -/
theorem C26_witness :
    Example.exifTable.m_Entries.length = 3 ∧ Example.exifTable.m_nNumEntries = 0 ∧
    QCameraExif.addEntry 3 Example.shortsCall.malloc Example.exifTable
        Example.shortsCall.tagid Example.shortsCall.type Example.shortsCall.count
        Example.shortsCall.data = some Example.shortsAdded ∧
    Example.shortsAdded.rc = NO_ERROR ∧
    Example.shortsAdded.exif.m_nNumEntries = 1 ∧
    ∃ e, Example.shortsAdded.exif.m_Entries[0]? = some e ∧
      e.tag_id = 271 ∧ e.tag_entry.type = some exif_tag_type_t.EXIF_SHORT ∧
      e.tag_entry.count = 2 ∧ e.tag_entry.data.values = [7, 8] :=
  ⟨rfl, rfl, rfl, rfl,
    (C26_addEntry_round_trip 3 Example.shortsCall.malloc Example.exifTable
      Example.shortsCall.tagid Example.shortsCall.type Example.shortsCall.count
      Example.shortsCall.data Example.shortsAdded rfl (by decide) (by decide) rfl rfl).1,
    (C26_addEntry_round_trip 3 Example.shortsCall.malloc Example.exifTable
      Example.shortsCall.tagid Example.shortsCall.type Example.shortsCall.count
      Example.shortsCall.data Example.shortsAdded rfl (by decide) (by decide) rfl
      rfl).2.2.2.2.elim
      fun e he => ⟨e, he.1, he.2.1, he.2.2.1, he.2.2.2.1, he.2.2.2.2.2.2.1 (by decide)⟩⟩

/-! ## C27: ownership of the payloads -/

/-- C27 fails as stated: `addEntry` with type `EXIF_ASCII` and count 1 calls `malloc`
and stores the character in the block it gets (followed by a 0), not inline. -/
theorem C27_counterexample_single_character_is_allocated :
    QCameraExif.Valid 3 Example.exifTable ∧
    Example.asciiCall.type = exif_tag_type_t.EXIF_ASCII ∧ Example.asciiCall.count = 1 ∧
    QCameraExif.addEntry 3 Example.asciiCall.malloc Example.exifTable Example.asciiCall.tagid
        Example.asciiCall.type Example.asciiCall.count Example.asciiCall.data =
      some
        { rc := NO_ERROR,
          exif :=
            { m_Entries :=
                [{ tag_id := 272,
                   tag_entry :=
                     { type := some exif_tag_type_t.EXIF_ASCII, count := 1, copy := 1,
                       data := exif_tag_data_t.array 8192 [65, 0] } },
                 QEXIF_INFO_DATA.zero, QEXIF_INFO_DATA.zero],
              m_nNumEntries := 1 },
          allocated := some 8192 } :=
  ⟨new_valid 3, rfl, rfl, rfl⟩

/-- C27 as amended: for each of the six numeric value types (byte, short, long,
rational, signed long, signed rational) `addEntry` stores a value of count at most 1
inline without allocating and a value of count above 1 in a block it allocates; for
`EXIF_ASCII` and `EXIF_UNDEFINED` it allocates a block whatever the count; when the
allocation fails the payload of the slot stays zeroed.  The destructor frees exactly
the blocks that `addEntry` allocated: after a call it frees what it would have freed
before and then the block of that call, if there is one, so that after any sequence
of calls on a fresh table it frees the allocated blocks, each once, in order. -/
theorem C27_payload_freed_iff_allocated (cap : Nat) (malloc : Option Nat)
    (self : QCameraExif) (tagid : Nat) (type : exif_tag_type_t) (count : Nat)
    (data : List Nat) (r : AddEntryResult)
    (hv : QCameraExif.Valid cap self) (hn : self.m_nNumEntries < cap)
    (h : QCameraExif.addEntry cap malloc self tagid type count data = some r) :
    (∃ e, r.exif.m_Entries[self.m_nNumEntries]? = some e ∧
      (type.isNumeric = true → count ≤ 1 →
        r.allocated = none ∧ ∃ v, e.tag_entry.data = exif_tag_data_t.scalar v) ∧
      ((type.isNumeric = false ∨ 1 < count) →
        r.allocated = malloc ∧
        (∀ a, malloc = some a → ∃ vs, e.tag_entry.data = exif_tag_data_t.array a vs) ∧
        (malloc = none → e.tag_entry.data = exif_tag_data_t.zeroed ∧ r.rc = NO_MEMORY))) ∧
    (∀ fs, self.destroy = some fs → r.exif.destroy = some (fs ++ r.allocated.toList)) ∧
    (∀ calls t rcs blocks,
      QCameraExif.addEntries cap (QCameraExif.new cap) calls = some (t, rcs, blocks) →
      t.destroy = some blocks) := by
  refine ⟨?_, fun fs hd =>
    destroy_addEntry cap malloc self tagid type count data r fs hv h hd,
    fun calls t rcs blocks hc => ?_⟩
  · obtain ⟨d, hr, hcase⟩ := addEntry_cases cap malloc self tagid type count data r hn h
    have hl : self.m_nNumEntries < self.m_Entries.length := by rw [hv.1]; exact hn
    have hold : (self.m_Entries.getD self.m_nNumEntries QEXIF_INFO_DATA.zero).tag_entry.data
        = exif_tag_data_t.zeroed := by
      rw [hv.2.2 _ (Nat.le_refl _) hn]
      rfl
    refine ⟨{ tag_id := tagid,
              tag_entry := { type := some type, count := count, copy := 1, data := d } },
      by rw [hr]; exact List.getElem?_set_self hl, fun hnum hc => ?_, fun hcall => ?_⟩
    · rcases hcase with ⟨-, -, -, ha, v, -, hdv⟩ | ⟨hty, -, -, -, -⟩ | ⟨hty, -, -, -⟩
      · exact ⟨ha, v, hdv⟩
      · rcases hty with hty | hty
        · rw [hnum] at hty; simp at hty
        · omega
      · rcases hty with hty | hty
        · rw [hnum] at hty; simp at hty
        · omega
    · rcases hcase with ⟨hnum, hc, -, -, -⟩ | ⟨-, hm, hrc, ha, hdo⟩ | ⟨-, -, -, a, hm, ha, hda⟩
      · rcases hcall with hty | hty
        · rw [hnum] at hty; simp at hty
        · omega
      · refine ⟨by rw [ha, hm], fun a hma => by rw [hm] at hma; simp at hma, fun _ => ?_⟩
        exact ⟨by rw [hdo, hold], hrc⟩
      · refine ⟨by rw [ha, hm], fun b hmb => ?_, fun hmn => by rw [hm] at hmn; simp at hmn⟩
        rw [hm] at hmb
        simp only [Option.some.injEq] at hmb
        subst hmb
        exact ⟨_, hda⟩
  · have h0 : (QCameraExif.new cap).destroy = some [] := by
      simp [QCameraExif.destroy, QCameraExif.new, QCameraExif.freeEntries]
    have := (addEntries_valid cap calls (QCameraExif.new cap) t rcs blocks [] (new_valid cap)
      hc h0).2
    simpa using this

/-- C27 as amended is not vacuous: after adding two shorts to `Example.exifTable` in the
block 4096 the destructor frees the block 4096. -/
theorem C27_witness :
    QCameraExif.Valid 3 Example.exifTable ∧
    QCameraExif.addEntry 3 Example.shortsCall.malloc Example.exifTable
        Example.shortsCall.tagid Example.shortsCall.type Example.shortsCall.count
        Example.shortsCall.data = some Example.shortsAdded ∧
    Example.shortsAdded.allocated = some 4096 ∧
    Example.exifTable.destroy = some [] ∧
    Example.shortsAdded.exif.destroy = some [4096] :=
  ⟨new_valid 3, rfl, rfl, rfl,
    (C27_payload_freed_iff_allocated 3 Example.shortsCall.malloc Example.exifTable
      Example.shortsCall.tagid Example.shortsCall.type Example.shortsCall.count
      Example.shortsCall.data Example.shortsAdded (new_valid 3) (by decide) rfl).2.1 [] rfl⟩

/-! ## C28: the capacity of the table -/

/-- C28: `addEntry` on a table that holds `MAX_EXIF_TABLE_ENTRIES` entries (or more)
returns `NO_MEMORY` and leaves the table, its number of entries and every slot,
unchanged and allocates nothing; and after any sequence of `addEntry` calls on a
fresh table the number of entries is at most `MAX_EXIF_TABLE_ENTRIES`. -/
theorem C28_fixed_capacity (cap : Nat) (malloc : Option Nat) (self : QCameraExif)
    (tagid : Nat) (type : exif_tag_type_t) (count : Nat) (data : List Nat)
    (hfull : cap ≤ self.m_nNumEntries) :
    QCameraExif.addEntry cap malloc self tagid type count data
      = some { rc := NO_MEMORY, exif := self, allocated := none } ∧
    (∀ calls t rcs blocks,
      QCameraExif.addEntries cap (QCameraExif.new cap) calls = some (t, rcs, blocks) →
      t.m_nNumEntries ≤ cap ∧ t.m_Entries.length = cap) := by
  refine ⟨addEntry_full cap malloc self tagid type count data hfull,
    fun calls t rcs blocks hc => ?_⟩
  have h0 : (QCameraExif.new cap).destroy = some [] := by
    simp [QCameraExif.destroy, QCameraExif.new, QCameraExif.freeEntries]
  have := (addEntries_valid cap calls (QCameraExif.new cap) t rcs blocks [] (new_valid cap)
    hc h0).1
  exact ⟨this.2.1, this.1⟩

/-- C28 is not vacuous: on the full table `Example.fullTable` of one slot a further call
returns `NO_MEMORY` and changes nothing. -/
theorem C28_witness :
    Example.fullTable.m_nNumEntries = 1 ∧
    QCameraExif.addEntry 1 Example.shortsCall.malloc Example.fullTable
        Example.shortsCall.tagid Example.shortsCall.type Example.shortsCall.count
        Example.shortsCall.data
      = some { rc := NO_MEMORY, exif := Example.fullTable, allocated := none } ∧
    QCameraExif.addEntries 1 (QCameraExif.new 1)
        [{ Example.shortsCall with count := 1 }, Example.shortsCall]
      = some (Example.fullTable, [NO_ERROR, NO_MEMORY], []) :=
  ⟨rfl,
    (C28_fixed_capacity 1 Example.shortsCall.malloc Example.fullTable Example.shortsCall.tagid
      Example.shortsCall.type Example.shortsCall.count Example.shortsCall.data
      (by decide)).1,
    rfl⟩

/-! ## C29: allocation failure in `addEntry` -/

/-- C29, at a concrete call: two bytes are added to the fresh table `Example.exifTable`
and `malloc` answers `NULL`.  The claim says the table is unchanged; here `addEntry`
returns `NO_MEMORY` but the number of entries goes from 0 to 1 and entry 0 holds the
tag id, the type and the count 2 with a `NULL` payload. -/
theorem C29_failed_allocation_adds_entry :
    Example.failingCall.malloc = none ∧
    QCameraExif.addEntry 3 Example.failingCall.malloc Example.exifTable
        Example.failingCall.tagid Example.failingCall.type Example.failingCall.count
        Example.failingCall.data =
      some
        { rc := NO_MEMORY,
          exif :=
            { m_Entries :=
                [{ tag_id := 271,
                   tag_entry :=
                     { type := some exif_tag_type_t.EXIF_BYTE, count := 2, copy := 1,
                       data := exif_tag_data_t.zeroed } },
                 QEXIF_INFO_DATA.zero, QEXIF_INFO_DATA.zero],
              m_nNumEntries := 1 },
          allocated := none } ∧
    Example.exifTable.m_nNumEntries = 0 ∧
    Example.exifTable.m_Entries
      = [QEXIF_INFO_DATA.zero, QEXIF_INFO_DATA.zero, QEXIF_INFO_DATA.zero] :=
  ⟨rfl,
    addEntry_allocation_failure 3 Example.exifTable 271 exif_tag_type_t.EXIF_BYTE 2 [7, 8]
      (by decide) (Or.inr (by decide)),
    rfl, rfl⟩

/-! ## C30: failure of the encoding configuration -/

/-- C30, at a concrete call: `encodeData` is called with the new-session flag for a
frame whose snapshot stream has no stream buffers, so that `getJpegEncodingConfig`
returns `BAD_VALUE`.  The claim says `encodeData` then returns a non-zero status and
calls neither `create_session` nor `start_job`; here it calls `create_session` with
the encode parameters filled so far (no source and no destination buffer), then
`start_job`, and returns `NO_ERROR`. -/
theorem C30_config_failure_is_ignored :
    (getJpegEncodingConfig Example.envBare Example.launched.pme mm_jpeg_encode_params_t.zero
      Example.bareStream none).1 = BAD_VALUE ∧
    ∃ r j,
      encodeData Example.envBare Example.launched.pme Example.bareJob true = some r ∧
      r.ret = NO_ERROR ∧
      r.trace.filter Event.isJpegCall =
        [Event.create_session 1
          (getJpegEncodingConfig Example.envBare Example.launched.pme
            mm_jpeg_encode_params_t.zero Example.bareStream none).2.1,
         Event.start_job j] ∧
      (getJpegEncodingConfig Example.envBare Example.launched.pme
        mm_jpeg_encode_params_t.zero Example.bareStream none).2.1.src_main_buf = [] ∧
      (getJpegEncodingConfig Example.envBare Example.launched.pme
        mm_jpeg_encode_params_t.zero Example.bareStream none).2.1.dest_buf = [] :=
  ⟨rfl, _, _, rfl, rfl, rfl, rfl, rfl⟩

end qcamera
